import Mathlib

/-!
Shallow embedding of the go-bundler repository (lvl5hm/go-bundler).

Source files embedded:
- `src/jsLoader/jsLoader.go` : the module transformer, import-path resolution
  and the recursive-descent parser (`parseTokens` and friends);
- `src/unnamed/part_000` (package main) : the build orchestrator
  (`createBundle`, `addFileToBundle`, `getJsBundleFileTail`, caching).

The repository's lexer/grammar file (defining `lex`, `token`, `tokenType`,
the `g_*` grammar constants, `operatorTable`, `trimQuotesFromString` and
`printAst`) is not present under src/; the declarations below that come from
that missing file are modelled from their use sites and from the spec, and
are marked as such.

Go semantics conventions used throughout:
- Go strings are Lean `String`s; the Go standard-library string functions
  used by the source (`strings.Split`, `strings.Join`, `strings.Replace`,
  `strings.Index`, `filepath.Ext`) are re-implemented over `List Char`
  because they are only applied with single-character separators in this
  code base.
- Go slice/array accesses that can panic (index out of range) are modelled
  with `Option`/`Except`: a panic becomes an explicit error value.
- Go `time.Time` modification times are modelled as `Nat`.
- Functions whose Go originals can loop or recurse unboundedly take a
  `fuel : Nat` argument; running out of fuel is a model artifact and is kept
  distinct from genuine Go panics.
-/

set_option linter.unusedVariables false

namespace GoBundler

/-! ## Go string helpers

`strings.Split(s, sep)` is only called with `sep = "/"` in the source, so it
is modelled as splitting on a single character. `strings.Split` on Go returns
`[""]` for the empty string, which the `List Char` version reproduces. -/

def splitCharList (sep : Char) : List Char → List (List Char)
  | [] => [[]]
  | c :: cs =>
    match splitCharList sep cs with
    | [] => [[]]
    | p :: ps => if c = sep then [] :: p :: ps else (c :: p) :: ps

/-- Go `strings.Split(s, sep)` for a one-character separator. -/
def goSplit (s : String) (sep : Char) : List String :=
  (splitCharList sep s.toList).map String.mk

/-- Go `strings.Join(elems, sep)`. -/
def goJoin (elems : List String) (sep : String) : String :=
  match elems with
  | [] => ""
  | [x] => x
  | x :: xs => x ++ sep ++ goJoin xs sep

/-- Go `strings.Replace(s, old, new, -1)` for one-character `old` replaced by
one-character `new` (the only uses in the source are `/`, `.`, `-` → `_`). -/
def goReplaceChar (s : String) (old new' : Char) : String :=
  String.mk (s.toList.map (fun c => if c = old then new' else c))

/-- Go `strings.Index(s, sub) < 0` for a one-character `sub`, i.e. the
character does not occur in `s`. -/
def goContainsChar (s : String) (c : Char) : Bool :=
  s.toList.contains c

/-- Go `filepath.Ext(path)`: the suffix beginning at the final dot in the
final slash-separated element of `path`; empty if there is no dot. -/
def filepathExtAux : List Char → List Char → String
  | [], _ => ""
  | c :: rest, acc =>
    if c = '.' then String.mk ('.' :: acc)
    else if c = '/' then ""
    else filepathExtAux rest (c :: acc)

def filepathExt (p : String) : String :=
  filepathExtAux p.toList.reverse []

/-- Modelled from the spec: string-literal lexemes carry their surrounding
quotes (`modifyImport` builds `"'" + objectName + ext + "'"`), and
`trimQuotesFromString`, defined in the lexer file that is absent from src/,
strips one matching pair of surrounding quote characters. -/
def trimQuotesFromString (s : String) : String :=
  match s.toList with
  | [] => s
  | c :: cs =>
    if (c = '\'' ∨ c = '"') ∧ cs ≠ [] ∧ cs.getLast? = some c then
      String.mk (cs.dropLast)
    else s

/-! ## Tokens

The `token` struct and the `tokenType` enumeration are declared in the lexer
file absent from src/; they are modelled here from their use sites in the
parser. Token types not named anywhere in src/ but required by the binary
`operatorTable` (which also lives in the missing file) are modelled from the
spec's operator families and carry a comment. -/

inductive tokenType where
  | tUNKNOWN        -- zero value of the Go enumeration
  | tEND_OF_INPUT
  | tNEWLINE
  | tNAME
  | tNUMBER
  | tSTRING
  | tHEX
  | tSEMI
  | tCOLON
  | tCOMMA
  | tDOT
  | tQUESTION
  | tPAREN_LEFT
  | tPAREN_RIGHT
  | tCURLY_LEFT
  | tCURLY_RIGHT
  | tBRACKET_LEFT
  | tBRACKET_RIGHT
  | tASSIGN
  | tPLUS_ASSIGN
  | tMINUS_ASSIGN
  | tMULT_ASSIGN
  | tDIV_ASSIGN
  | tBITWISE_SHIFT_LEFT_ASSIGN
  | tBITWISE_SHIFT_RIGHT_ASSIGN
  | tBITWISE_SHIFT_RIGHT_ZERO_ASSIGN
  | tBITWISE_AND_ASSIGN
  | tBITWISE_OR_ASSIGN
  | tBITWISE_XOR_ASSIGN
  | tLAMBDA
  | tSPREAD
  | tESCAPE
  | tNOT
  | tBITWISE_NOT
  | tINC
  | tDEC
  | tTYPEOF
  | tVOID
  | tDELETE
  | tNEW
  | tYIELD
  | tIN
  | tVAR
  | tCONST
  | tLET
  | tRETURN
  | tIMPORT
  | tEXPORT
  | tDEFAULT
  | tFUNCTION
  | tTHROW
  | tTRY
  | tCATCH
  | tFINALLY
  | tDO
  | tWHILE
  | tFOR
  | tIF
  | tELSE
  | tSWITCH
  | tCASE
  | tBREAK
  | tCONTINUE
  | tDEBUGGER
  | tNULL
  | tUNDEFINED
  | tTRUE
  | tFALSE
  | tTHIS
  | tMULT
  | tDIV
  -- binary operator token types below are not named in src/ and are
  -- modelled from the spec's operator families
  | tPLUS
  | tMINUS
  | tMODULO
  | tEXP
  | tLESS
  | tGREATER
  | tEQUALS
  | tNOT_EQUALS
  | tAND
  | tOR
deriving DecidableEq, Repr

export tokenType (tUNKNOWN tEND_OF_INPUT tNEWLINE tNAME tNUMBER tSTRING tHEX
  tSEMI tCOLON tCOMMA tDOT tQUESTION tPAREN_LEFT tPAREN_RIGHT tCURLY_LEFT
  tCURLY_RIGHT tBRACKET_LEFT tBRACKET_RIGHT tASSIGN tPLUS_ASSIGN tMINUS_ASSIGN
  tMULT_ASSIGN tDIV_ASSIGN tBITWISE_SHIFT_LEFT_ASSIGN
  tBITWISE_SHIFT_RIGHT_ASSIGN tBITWISE_SHIFT_RIGHT_ZERO_ASSIGN
  tBITWISE_AND_ASSIGN tBITWISE_OR_ASSIGN tBITWISE_XOR_ASSIGN tLAMBDA tSPREAD
  tESCAPE tNOT tBITWISE_NOT tINC tDEC tTYPEOF tVOID tDELETE tNEW tYIELD tIN
  tVAR tCONST tLET tRETURN tIMPORT tEXPORT tDEFAULT tFUNCTION tTHROW tTRY
  tCATCH tFINALLY tDO tWHILE tFOR tIF tELSE tSWITCH tCASE tBREAK tCONTINUE
  tDEBUGGER tNULL tUNDEFINED tTRUE tFALSE tTHIS tMULT tDIV tPLUS tMINUS
  tMODULO tEXP tLESS tGREATER tEQUALS tNOT_EQUALS tAND tOR)

structure token where
  tType : tokenType
  lexeme : String
  line : Nat
  column : Nat
deriving DecidableEq, Repr

/-! ## AST nodes

The `grammarType` enumeration is declared in the grammar file absent from
src/; its constructors are modelled from the `g_*` names used in src/.
`gUNKNOWN` models the zero value of the Go enumeration (it is the tag of the
zero `astNode{}` value that `parseProgram` returns after `recover`). -/

inductive grammarType where
  | gUNKNOWN        -- zero value of the Go enumeration
  | g_PROGRAM_STATEMENT
  | g_EXPRESSION_STATEMENT
  | g_EXPRESSION
  | g_SEQUENCE_EXPRESSION
  | g_CONDITIONAL_EXPRESSION
  | g_UNARY_PREFIX_EXPRESSION
  | g_UNARY_POSTFIX_EXPRESSION
  | g_PARENS_EXPRESSION
  | g_EMPTY_EXPRESSION
  | g_EMPTY_STATEMENT
  | g_MARKER
  | g_NAME
  | g_NUMBER_LITERAL
  | g_STRING_LITERAL
  | g_HEX_LITERAL
  | g_BOOL_LITERAL
  | g_REGEXP_LITERAL
  | g_NULL
  | g_UNDEFINED
  | g_THIS
  | g_OBJECT_LITERAL
  | g_OBJECT_PROPERTY
  | g_OBJECT_PATTERN
  | g_ARRAY_LITERAL
  | g_ASSIGNMENT_PATTERN
  | g_VALID_PROPERTY_NAME
  | g_CALCULATED_PROPERTY_NAME
  | g_FUNCTION_DECLARATION
  | g_FUNCTION_EXPRESSION
  | g_MEMBER_FUNCTION
  | g_FUNCTION_PARAMETERS
  | g_FUNCTION_PARAMETER
  | g_FUNCTION_ARGS
  | g_FUNCTION_CALL
  | g_CONSTRUCTOR_CALL
  | g_MEMBER_EXPRESSION
  | g_LAMBDA_EXPRESSION
  | g_DECLARATION_STATEMENT
  | g_DECLARATION_EXPRESSION
  | g_DECLARATOR
  | g_BLOCK_STATEMENT
  | g_RETURN_STATEMENT
  | g_THROW_STATEMENT
  | g_TRY_CATCH_STATEMENT
  | g_IF_STATEMENT
  | g_WHILE_STATEMENT
  | g_DO_WHILE_STATEMENT
  | g_FOR_STATEMENT
  | g_FOR_IN_STATEMENT
  | g_FOR_OF_STATEMENT
  | g_SWITCH_STATEMENT
  | g_SWITCH_CASES
  | g_SWITCH_CASE
  | g_SWITCH_CASE_TEST
  | g_SWITCH_CASE_STATEMENTS
  | g_SWITCH_DEFAULT
  | g_BREAK_STATEMENT
  | g_CONTINUE_STATEMENT
  | g_DEBUGGER_STATEMENT
  | g_MULTISTATEMENT
  | g_IMPORT_STATEMENT
  | g_IMPORT_VARS
  | g_IMPORT_VAR
  | g_IMPORT_NAME
  | g_IMPORT_ALIAS
  | g_IMPORT_ALL
  | g_IMPORT_PATH
  | g_EXPORT_STATEMENT
  | g_EXPORT_VARS
  | g_EXPORT_VAR
  | g_EXPORT_NAME
  | g_EXPORT_ALIAS
  | g_EXPORT_DECLARATION
  | g_EXPORT_PATH
deriving DecidableEq, Repr

export grammarType (gUNKNOWN g_PROGRAM_STATEMENT g_EXPRESSION_STATEMENT
  g_EXPRESSION g_SEQUENCE_EXPRESSION g_CONDITIONAL_EXPRESSION
  g_UNARY_PREFIX_EXPRESSION g_UNARY_POSTFIX_EXPRESSION g_PARENS_EXPRESSION
  g_EMPTY_EXPRESSION g_EMPTY_STATEMENT g_MARKER g_NAME g_NUMBER_LITERAL
  g_STRING_LITERAL g_HEX_LITERAL g_BOOL_LITERAL g_REGEXP_LITERAL g_NULL
  g_UNDEFINED g_THIS g_OBJECT_LITERAL g_OBJECT_PROPERTY g_OBJECT_PATTERN
  g_ARRAY_LITERAL g_ASSIGNMENT_PATTERN g_VALID_PROPERTY_NAME
  g_CALCULATED_PROPERTY_NAME g_FUNCTION_DECLARATION g_FUNCTION_EXPRESSION
  g_MEMBER_FUNCTION g_FUNCTION_PARAMETERS g_FUNCTION_PARAMETER
  g_FUNCTION_ARGS g_FUNCTION_CALL g_CONSTRUCTOR_CALL g_MEMBER_EXPRESSION
  g_LAMBDA_EXPRESSION g_DECLARATION_STATEMENT g_DECLARATION_EXPRESSION
  g_DECLARATOR g_BLOCK_STATEMENT g_RETURN_STATEMENT g_THROW_STATEMENT
  g_TRY_CATCH_STATEMENT g_IF_STATEMENT g_WHILE_STATEMENT
  g_DO_WHILE_STATEMENT g_FOR_STATEMENT g_FOR_IN_STATEMENT g_FOR_OF_STATEMENT
  g_SWITCH_STATEMENT g_SWITCH_CASES g_SWITCH_CASE g_SWITCH_CASE_TEST
  g_SWITCH_CASE_STATEMENTS g_SWITCH_DEFAULT g_BREAK_STATEMENT
  g_CONTINUE_STATEMENT g_DEBUGGER_STATEMENT g_MULTISTATEMENT
  g_IMPORT_STATEMENT g_IMPORT_VARS g_IMPORT_VAR g_IMPORT_NAME g_IMPORT_ALIAS
  g_IMPORT_ALL g_IMPORT_PATH g_EXPORT_STATEMENT g_EXPORT_VARS g_EXPORT_VAR
  g_EXPORT_NAME g_EXPORT_ALIAS g_EXPORT_DECLARATION g_EXPORT_PATH)

/-- jsLoader.go:517-520. -/
def f_FUNCTION_PARAM_REST : Nat := 1
def f_EXPORT_ALL : Nat := 2

/-- jsLoader.go:522-527: `astNode` is a tagged node with a value payload,
ordered children and a flags bitset. -/
inductive astNode where
  | mk (t : grammarType) (value : String) (children : List astNode) (flags : Nat)
deriving Repr

def astNode.t : astNode → grammarType
  | .mk t _ _ _ => t

def astNode.value : astNode → String
  | .mk _ v _ _ => v

def astNode.children : astNode → List astNode
  | .mk _ _ c _ => c

def astNode.flags : astNode → Nat
  | .mk _ _ _ f => f

/-- jsLoader.go:541-543. -/
def makeNode (t : grammarType) (value : String) (children : List astNode) : astNode :=
  .mk t value children 0

/-- The zero value `astNode{}` of the Go struct. -/
def zeroAstNode : astNode := .mk gUNKNOWN "" [] 0

/-! ## Parser state and error model (jsLoader.go:363-415)

Go's parser signals errors by `panic`/`recover`. A Lean `goPanic` value
models everything that can abruptly end parsing:
- `parseErr` models `panic(parsingError{...})`;
- `runtimeErr` models a Go runtime panic (index out of range, slice bounds
  out of range) — crucially NOT a `parsingError`;
- `diverge` models a genuine Go infinite loop (it is never recovered);
- `fuelOut` is a model artifact (recursion fuel exhausted), also never
  recovered, so that theorems about `.ok` results imply real termination. -/

/-- jsLoader.go:380-384. -/
def p_UNEXPECTED_TOKEN : Nat := 0
def p_WRONG_ASSIGNMENT : Nat := 1
def p_UNNAMED_FUNCTION : Nat := 2

/-- jsLoader.go:386-390. -/
structure parsingError where
  kind : Nat
  tok : token
  context : List token
deriving DecidableEq, Repr

inductive goPanic where
  | parseErr (e : parsingError)
  | runtimeErr (msg : String)
  | diverge
  | fuelOut
deriving Repr

/-- jsLoader.go:363-368. -/
structure parserState where
  sourceTokens : List token
  index : Nat
  tok : token
  globalFlagIsInsideForIn : Bool

/-- The parser monad: Go mutates `*parserState` through a pointer and
signals errors with `panic`; this is explicit state passing plus `Except`. -/
def PM (α : Type) : Type := parserState → Except goPanic (α × parserState)

instance : Monad PM where
  pure a := fun s => .ok (a, s)
  bind m f := fun s =>
    match m s with
    | .ok (a, s') => f a s'
    | .error e => .error e

def pGet : PM parserState := fun s => .ok (s, s)

def pSet (s : parserState) : PM Unit := fun _ => .ok ((), s)

def pThrow {α : Type} (e : goPanic) : PM α := fun _ => .error e

def liftE {α : Type} (e : Except goPanic α) : PM α := fun s =>
  match e with
  | .ok a => .ok (a, s)
  | .error err => .error err

/-- Go `ts[i]`: array access, panicking when out of range. -/
def tokAt (ts : List token) (i : Nat) : Except goPanic token :=
  match ts.get? i with
  | some t => .ok t
  | none => .error (.runtimeErr "index out of range")

/-- jsLoader.go:419-424: `next` advances the cursor; `tok` is only updated
while the new index is in range. -/
def next : PM Unit := fun s =>
  let i := s.index + 1
  match s.sourceTokens.get? i with
  | some t => .ok ((), { s with index := i, tok := t })
  | none => .ok ((), { s with index := i })

/-- jsLoader.go:426-429. -/
def backtrack (backIndex : Nat) : PM Unit := fun s =>
  match s.sourceTokens.get? backIndex with
  | some t => .ok ((), { s with index := backIndex, tok := t })
  | none => .error (.runtimeErr "index out of range")

/-- The newline-skipping scan of `test`/`getNoNewline`
(jsLoader.go:431-450): Go increments `i` while `sourceTokens[i]` is a
newline; running past the end of the slice is an index-out-of-range panic,
so the fuel-out branch is unreachable with fuel ≥ length + 1. -/
def skipNewlinesFrom : Nat → List token → Nat → Except goPanic Nat
  | 0, _, _ => .error .fuelOut
  | fuel + 1, ts, i =>
    match ts.get? i with
    | none => .error (.runtimeErr "index out of range")
    | some t => if t.tType = tNEWLINE then skipNewlinesFrom fuel ts (i + 1) else .ok i

/-- jsLoader.go:431-442. -/
def test (tTypes : List tokenType) : PM Bool := fun s =>
  match skipNewlinesFrom (s.sourceTokens.length + 1) s.sourceTokens s.index with
  | .error e => .error e
  | .ok i =>
    match s.sourceTokens.get? i with
    | none => .error (.runtimeErr "index out of range")
    | some t => .ok (tTypes.any (fun ty => t.tType = ty), s)

/-- jsLoader.go:444-450. -/
def getNoNewline : PM token := fun s =>
  match skipNewlinesFrom (s.sourceTokens.length + 1) s.sourceTokens s.index with
  | .error e => .error e
  | .ok i =>
    match s.sourceTokens.get? i with
    | none => .error (.runtimeErr "index out of range")
    | some t => .ok (t, s)

/-- The newline-skipping loop at the head of `accept`
(jsLoader.go:454-456): `for p.tok.tType == tNEWLINE { next(p) }`. When the
cursor is at/past the last token and `tok` is a newline, `next` no longer
updates `tok` and the Go loop never exits — that is `diverge`. -/
def acceptSkipNewlines : Nat → PM Unit
  | 0 => pThrow .fuelOut
  | fuel + 1 => do
    let s ← pGet
    if s.tok.tType = tNEWLINE then
      if s.index + 1 < s.sourceTokens.length then do
        next
        acceptSkipNewlines fuel
      else
        pThrow .diverge
    else
      pure ()

/-- jsLoader.go:452-469. A `[]` argument models Go's `nil` variadic list
(the bare `accept(p)` call), which consumes one token unconditionally. -/
def accept (tTypes : List tokenType) : PM Bool := do
  let s0 ← pGet
  let prevPos := s0.index
  acceptSkipNewlines (s0.sourceTokens.length + 2)
  let s ← pGet
  if tTypes = [] then do
    next
    pure true
  else
    if tTypes.any (fun ty => s.tok.tType = ty) then do
      next
      pure true
    else do
      backtrack prevPos
      pure false

/-- jsLoader.go:471-485. The diagnostic context is the Go slice expression
`p.sourceTokens[p.index-5 : p.index+5]`: the low bound `p.index-5` is a Go
`int` and a negative value panics unconditionally; the high bound panics
when it exceeds the capacity of the token slice (capacity ≥ length; for the
short token sequences produced near end-of-input the two coincide). Both
panics are Go runtime errors, not `parsingError`s. -/
def checkASI (tType : tokenType) : PM Unit := fun s =>
  let contextPanic : Except goPanic (Unit × parserState) :=
    if 5 ≤ s.index ∧ s.index + 5 ≤ s.sourceTokens.length then
      .error (.parseErr
        ⟨p_UNEXPECTED_TOKEN, s.tok, (s.sourceTokens.drop (s.index - 5)).take 10⟩)
    else
      .error (.runtimeErr "slice bounds out of range")
  if tType = tSEMI then
    if s.tok.tType = tNEWLINE then next s
    else if s.tok.tType = tCURLY_RIGHT ∨ s.tok.tType = tEND_OF_INPUT then .ok ((), s)
    else contextPanic
  else contextPanic

/-- jsLoader.go:487-492. -/
def expect (tType : tokenType) : PM Unit := do
  if (← accept [tType]) then
    pure ()
  else
    checkASI tType

/-- jsLoader.go:494-496: `p.sourceTokens[p.index-1].lexeme`; `p.index-1`
underflows (Go panics) when `index = 0`. -/
def getLexeme : PM String := fun s =>
  if s.index = 0 then .error (.runtimeErr "index out of range")
  else
    match s.sourceTokens.get? (s.index - 1) with
    | some t => .ok (t.lexeme, s)
    | none => .error (.runtimeErr "index out of range")

/-- jsLoader.go:498-500. -/
def getToken : PM token := fun s =>
  if s.index = 0 then .error (.runtimeErr "index out of range")
  else
    match s.sourceTokens.get? (s.index - 1) with
    | some t => .ok (t, s)
    | none => .error (.runtimeErr "index out of range")

/-- Modelled: `isLetter`/`isNumber` live in the lexer file absent from
src/; modelled as ASCII letter/digit classification. -/
def isLetter (c : Char) : Bool := c.isAlpha

def isNumber (c : Char) : Bool := c.isDigit

/-- jsLoader.go:502-515. -/
def isValidPropertyName (name : String) : Bool :=
  match name.toList with
  | [] => false
  | c :: _ =>
    isLetter c && name.toList.all (fun ch => isLetter ch || isNumber ch)

/-! ## Binary operator table

The `operatorTable` (mapping token types to precedence and associativity)
is declared in the lexer file absent from src/. Modelled from the spec
(§4.2): standard precedence and associativity for the arithmetic, logical,
comparison and exponentiation operator families; exponentiation is the
right-associative representative. `none` models a key missing from the Go
map (the `ok == false` case); `parseBinary`'s second, uncommaed access
falls back to the zero `opInfo` exactly as a Go map read does. -/

structure opInfo where
  precedence : Nat
  isRightAssociative : Bool
deriving DecidableEq, Repr

def operatorTable : tokenType → Option opInfo
  | tOR => some ⟨5, false⟩
  | tAND => some ⟨6, false⟩
  | tEQUALS => some ⟨10, false⟩
  | tNOT_EQUALS => some ⟨10, false⟩
  | tLESS => some ⟨11, false⟩
  | tGREATER => some ⟨11, false⟩
  | tIN => some ⟨11, false⟩
  | tPLUS => some ⟨13, false⟩
  | tMINUS => some ⟨13, false⟩
  | tMULT => some ⟨14, false⟩
  | tDIV => some ⟨14, false⟩
  | tMODULO => some ⟨14, false⟩
  | tEXP => some ⟨15, true⟩
  | _ => none

/-- The token types in the domain of `operatorTable`. -/
def binaryOpTokens : List tokenType :=
  [tOR, tAND, tEQUALS, tNOT_EQUALS, tLESS, tGREATER, tIN,
   tPLUS, tMINUS, tMULT, tDIV, tMODULO, tEXP]

/-! ### parseBinary's stack machinery (jsLoader.go:1005-1055)

Go keeps both stacks as slices with the top at the END; here the top is the
HEAD of the list (push = cons, pop = tail), which mirrors every push/pop in
the source one for one. The final reduction loop walks the operator stack
from the top down, i.e. from the head of this list. -/

/-- The `addNode` closure (jsLoader.go:1010-1018): pops `right` then `left`
off the output stack, pushes the combined node and remembers it in `root`.
Fewer than two operands is a Go index-out-of-range panic. -/
def addNodeGo (t : token) (outputStack : List astNode) :
    Except goPanic (List astNode × astNode) :=
  match outputStack with
  | right :: left :: rest =>
    let nn := makeNode g_EXPRESSION t.lexeme [left, right]
    .ok (nn :: rest, nn)
  | _ => .error (.runtimeErr "index out of range")

/-- The inner reduction loop (jsLoader.go:1028-1042): before pushing `op`,
reduce every stacked operator of strictly higher precedence, or of equal
precedence when `op` is not right-associative. -/
def reduceStackGo (op : opInfo) :
    List token → List astNode → Option astNode →
    Except goPanic (List token × List astNode × Option astNode)
  | [], out, root => .ok ([], out, root)
  | opToken :: rest, out, root =>
    let opFromStack := (operatorTable opToken.tType).getD ⟨0, false⟩
    if opFromStack.precedence > op.precedence ∨
        (opFromStack.precedence = op.precedence ∧ ¬op.isRightAssociative) then
      match addNodeGo opToken out with
      | .ok (out', nn) => reduceStackGo op rest out' (some nn)
      | .error e => .error e
    else
      .ok (opToken :: rest, out, root)

/-- The final reduction loop (jsLoader.go:1047-1049): `for i := len-1; i >= 0`
over the operator stack, i.e. from the top down. -/
def finalReduceGo :
    List token → List astNode → Option astNode →
    Except goPanic (List astNode × Option astNode)
  | [], out, root => .ok (out, root)
  | opToken :: rest, out, root =>
    match addNodeGo opToken out with
    | .ok (out', nn) => finalReduceGo rest out' (some nn)
    | .error e => .error e

/-- Go `nodes[i]` on a child list: panics when out of range. -/
def goIndexNode (l : List astNode) (i : Nat) : Except goPanic astNode :=
  match l.get? i with
  | some x => .ok x
  | none => .error (.runtimeErr "index out of range")

def setGlobalFlagIsInsideForIn (b : Bool) : PM Unit := fun s =>
  .ok ((), { s with globalFlagIsInsideForIn := b })

/-! ## The recursive-descent parser (jsLoader.go:545-1474)

Each Go `for` loop becomes a `...Loop` helper in the mutual block. The
`fuel` argument makes the mutual recursion structural; every concrete
theorem below supplies enough fuel, and `fuel = 0` surfaces as the
never-recovered `.fuelOut`. -/

/-- One field per parser function (and per Go `for` loop). The record is
built fuel-indexed by `mkParserFns` below, which makes the mutual recursion
of the source structural over the fuel while keeping one Lean definition
per Go function. -/
structure ParserFns where
  parseProgramLoop : List astNode → PM (List astNode)
  parseTryCatchStatement : PM astNode
  parseStatement : PM astNode
  parseStatementSwitch : PM astNode
  parseExportStatement : PM astNode
  parseExportBraceLoop : List astNode → PM (List astNode)
  parseSwitchStatement : PM astNode
  parseSwitchCasesLoop : List astNode → PM (List astNode)
  parseSwitchCaseStatementsLoop : List astNode → PM (List astNode)
  parseDeclarationStatement : PM astNode
  parseDeclarationExpression : PM astNode
  parseDeclaratorLoop : List astNode → PM (List astNode)
  parseForStatement : PM astNode
  parseIfStatement : PM astNode
  parseWhileStatement : PM astNode
  parseDoWhileStatement : PM astNode
  parseFunctionDeclaration : PM astNode
  parseExpressionStatement : PM astNode
  parseReturnStatement : PM astNode
  parseExpression : PM astNode
  parseSequence : PM astNode
  parseSequenceLoop : List astNode → PM (List astNode)
  parseYield : PM astNode
  parseAssignment : PM astNode
  parseAssignmentPattern : PM astNode
  parseObjectPattern : PM astNode
  parseObjectPatternLoop : List astNode → PM (List astNode)
  parseConditional : PM astNode
  parseBinary : PM astNode
  parseBinaryLoop : List token → List astNode → Option astNode → PM (List token × List astNode × Option astNode)
  parsePrefixUnary : PM astNode
  parsePostfixUnary : PM astNode
  parseFunctionArgs : PM astNode
  parseFunctionArgsLoop : List astNode → PM (List astNode)
  parseFunctionCallOrMember : Bool → PM astNode
  parseFCMLoop : Bool → astNode → PM astNode
  parseConstructorCall : PM astNode
  parseAtom : PM astNode
  parseRegexp : PM astNode
  parseRegexpLoop : String → PM String
  parseParensOrLambda : PM astNode
  parseFunctionParameters : PM astNode
  parseFunctionParametersLoop : Nat → List astNode → PM (Option (List astNode))
  parseFunctionExpression : PM astNode
  parseObjectLiteral : PM astNode
  parseObjectLiteralLoop : List astNode → PM (List astNode)
  parseMemberFunction : PM astNode
  parseArrayLiteral : PM astNode
  parseArrayLiteralLoop : List astNode → PM (List astNode)
  parseLambdaOrName : PM astNode
  parseBlockStatement : PM astNode
  parseBlockStatementLoop : List astNode → PM (List astNode)
  parseFunctionParameter : PM astNode
  parseDeclarator : PM astNode
  parseDeclaratorTail : astNode → PM astNode
  parseCalculatedPropertyName : PM astNode
  parseImportStatement : PM astNode
  parseImportBraceLoop : List astNode → PM (List astNode)


/-- The statement loop of `parseProgram` (jsLoader.go:556-559). -/
def parseProgramLoopBody (fns : ParserFns) (acc : List astNode) : PM (List astNode) := do
  if (← accept [tEND_OF_INPUT]) then
    pure acc
  else do
    let st ← fns.parseStatement
    fns.parseProgramLoop (acc ++ [st])

/-- jsLoader.go:565-586. -/
def parseTryCatchStatementBody (fns : ParserFns) : PM astNode := do
  expect tCURLY_LEFT
  let try_ ← fns.parseBlockStatement
  let (catchValue, catch_) ←
    if (← accept [tCATCH]) then do
      expect tPAREN_LEFT
      let cv ← fns.parseExpression
      expect tPAREN_RIGHT
      expect tCURLY_LEFT
      let c ← fns.parseBlockStatement
      pure (cv, c)
    else
      pure (zeroAstNode, zeroAstNode)
  let finally_ ←
    if (← accept [tFINALLY]) then do
      expect tCURLY_LEFT
      fns.parseBlockStatement
    else
      pure zeroAstNode
  pure (makeNode g_TRY_CATCH_STATEMENT "" [try_, catchValue, catch_, finally_])

/-- jsLoader.go:588-630 (the label-marker prefix; the `switch` body is
`parseStatementSwitch`). -/
def parseStatementBody (fns : ParserFns) : PM astNode := do
  let s ← pGet
  let startPos := s.index
  if (← accept [tNAME]) then do
    let markerName ← getLexeme
    if (← accept [tCOLON]) then
      pure (makeNode g_MARKER markerName [])
    else do
      backtrack startPos
      fns.parseStatementSwitch
  else
    fns.parseStatementSwitch

/-- The `switch` of `parseStatement` (jsLoader.go:598-629); Go evaluates the
`accept` cases in order. -/
def parseStatementSwitchBody (fns : ParserFns) : PM astNode := do
  if (← accept [tTHROW]) then do
    let e ← fns.parseExpression
    pure (makeNode g_THROW_STATEMENT "" [e])
  else if (← accept [tTRY]) then
    fns.parseTryCatchStatement
  else if (← accept [tVAR, tCONST, tLET]) then
    fns.parseDeclarationStatement
  else if (← accept [tRETURN]) then
    fns.parseReturnStatement
  else if (← accept [tIMPORT]) then
    fns.parseImportStatement
  else if (← accept [tFUNCTION]) then
    fns.parseFunctionDeclaration
  else if (← accept [tDO]) then
    fns.parseDoWhileStatement
  else if (← accept [tWHILE]) then
    fns.parseWhileStatement
  else if (← accept [tFOR]) then
    fns.parseForStatement
  else if (← accept [tCURLY_LEFT]) then
    fns.parseBlockStatement
  else if (← accept [tIF]) then
    fns.parseIfStatement
  else if (← accept [tEXPORT]) then
    fns.parseExportStatement
  else if (← accept [tSWITCH]) then
    fns.parseSwitchStatement
  else if (← accept [tSEMI]) then
    pure (makeNode g_EMPTY_STATEMENT ";" [])
  else
    fns.parseExpressionStatement

/-- jsLoader.go:632-718. Each branch yields (vars, declaration, path,
flags); the Go code mutates local variables instead. -/
def parseExportStatementBody (fns : ParserFns) : PM astNode := do
  let declaration0 := makeNode g_EXPORT_DECLARATION "" []
  let path0 := makeNode g_EXPORT_PATH "" []
  let (vars, declaration, path, flags) ←
    if (← accept [tDEFAULT]) then do
      let alias0 := makeNode g_EXPORT_ALIAS "default" []
      let (declaration, name) ←
        if (← accept [tFUNCTION]) then do
          let fe ← fns.parseFunctionExpression
          if fe.value ≠ "" then
            pure (fe, makeNode g_EXPORT_NAME fe.value [])
          else
            pure (declaration0, fe)
        else do
          let n ← fns.parseExpression
          pure (declaration0, n)
      let ev := makeNode g_EXPORT_VAR "" [name, alias0]
      expect tSEMI
      pure ([ev], declaration, path0, 0)
    else if (← accept [tCURLY_LEFT]) then do
      let vars ← fns.parseExportBraceLoop []
      let path ←
        if (← accept [tNAME]) then do
          let l ← getLexeme
          if l = "from" then do
            expect tSTRING
            let l2 ← getLexeme
            pure (makeNode g_EXPORT_PATH l2 [])
          else
            pure path0
        else
          pure path0
      expect tSEMI
      pure (vars, declaration0, path, 0)
    else if (← accept [tVAR, tLET, tCONST]) then do
      let declaration ← fns.parseDeclarationStatement
      let declExpr ← liftE (goIndexNode declaration.children 0)
      let vars ← liftE (declExpr.children.mapM (fun d => do
        let name ← goIndexNode d.children 0
        let alias0 ← goIndexNode d.children 0
        pure (makeNode g_EXPORT_VAR "" [name, alias0])))
      pure (vars, declaration, path0, 0)
    else if (← accept [tFUNCTION]) then do
      let fs ← fns.parseFunctionDeclaration
      let name := makeNode g_EXPORT_NAME fs.value []
      let ev := makeNode g_EXPORT_VAR "" [name, name]
      pure ([ev], fs, path0, 0)
    else if (← accept [tMULT]) then do
      expect tNAME
      let l ← getLexeme
      if l ≠ "from" then checkASI tSEMI else pure ()
      expect tSTRING
      let l2 ← getLexeme
      let path := makeNode g_EXPORT_PATH l2 []
      expect tSEMI
      pure ([], declaration0, path, f_EXPORT_ALL)
    else
      pure ([], declaration0, path0, 0)
  let varsNode := makeNode g_EXPORT_VARS "" vars
  pure (astNode.mk g_EXPORT_STATEMENT "" [varsNode, declaration, path] flags)

/-- The brace loop of `parseExportStatement` (jsLoader.go:660-677). -/
def parseExportBraceLoopBody (fns : ParserFns) (acc : List astNode) : PM (List astNode) := do
  if (← accept [tCURLY_RIGHT]) then
    pure acc
  else do
    let acc' ←
      if (← accept [tNAME]) then do
        let l ← getLexeme
        let name := makeNode g_EXPORT_NAME l []
        let alias0 ←
          if (← accept [tNAME]) then do
            let l2 ← getLexeme
            if l2 = "as" then do
              next
              let l3 ← getLexeme
              pure (makeNode g_EXPORT_ALIAS l3 [])
            else
              pure name
          else
            pure name
        pure (acc ++ [makeNode g_EXPORT_VAR "" [name, alias0]])
      else
        pure acc
    if (← accept [tCOMMA]) then
      fns.parseExportBraceLoop acc'
    else do
      expect tCURLY_RIGHT
      pure acc'

/-- jsLoader.go:720-757. -/
def parseSwitchStatementBody (fns : ParserFns) : PM astNode := do
  expect tPAREN_LEFT
  let condition ← fns.parseExpression
  expect tPAREN_RIGHT
  expect tCURLY_LEFT
  let cases ← fns.parseSwitchCasesLoop []
  pure (makeNode g_SWITCH_STATEMENT "" [condition, makeNode g_SWITCH_CASES "" cases])

/-- The case loop of `parseSwitchStatement` (jsLoader.go:727-753). -/
def parseSwitchCasesLoopBody (fns : ParserFns) (acc : List astNode) : PM (List astNode) := do
  if (← accept [tCURLY_RIGHT]) then
    pure acc
  else do
    let acc1 ←
      if (← accept [tCASE]) then do
        let e ← fns.parseExpression
        let caseTest := makeNode g_SWITCH_CASE_TEST "" [e]
        expect tCOLON
        let sts ← fns.parseSwitchCaseStatementsLoop []
        let statementNode := makeNode g_SWITCH_CASE_STATEMENTS "" sts
        pure (acc ++ [makeNode g_SWITCH_CASE "" [caseTest, statementNode]])
      else
        pure acc
    let acc2 ←
      if (← accept [tDEFAULT]) then do
        expect tCOLON
        let sts ← fns.parseSwitchCaseStatementsLoop []
        pure (acc1 ++ [makeNode g_SWITCH_DEFAULT "" sts])
      else
        pure acc1
    fns.parseSwitchCasesLoop acc2

/-- The per-case statement loop (jsLoader.go:732-734 and 746-748). -/
def parseSwitchCaseStatementsLoopBody (fns : ParserFns) (acc : List astNode) : PM (List astNode) := do
  if (← test [tDEFAULT, tCASE, tCURLY_RIGHT]) then
    pure acc
  else do
    let st ← fns.parseStatement
    fns.parseSwitchCaseStatementsLoop (acc ++ [st])

/-- jsLoader.go:759-765. -/
def parseDeclarationStatementBody (fns : ParserFns) : PM astNode := do
  let e ← fns.parseDeclarationExpression
  let decl := makeNode g_DECLARATION_STATEMENT "" [e]
  expect tSEMI
  pure decl

/-- jsLoader.go:767-776. -/
def parseDeclarationExpressionBody (fns : ParserFns) : PM astNode := do
  let keyword ← getLexeme
  let children ← fns.parseDeclaratorLoop []
  pure (makeNode g_DECLARATION_EXPRESSION keyword children)

/-- The do-while declarator loop (jsLoader.go:771-773). -/
def parseDeclaratorLoopBody (fns : ParserFns) (acc : List astNode) : PM (List astNode) := do
  let d ← fns.parseDeclarator
  let acc' := acc ++ [d]
  if (← accept [tCOMMA]) then
    fns.parseDeclaratorLoop acc'
  else
    pure acc'

/-- jsLoader.go:778-832. -/
def parseForStatementBody (fns : ParserFns) : PM astNode := do
  expect tPAREN_LEFT
  let init ←
    if (← accept [tVAR, tLET, tCONST]) then
      fns.parseDeclarationExpression
    else if (← test [tSEMI]) then
      pure (makeNode g_EMPTY_EXPRESSION "" [])
    else do
      let s ← pGet
      let startPos := s.index
      let init0 ← fns.parseSequence
      -- "we accidentally parsed for in loop"
      if (← accept [tPAREN_RIGHT]) then do
        backtrack startPos
        setGlobalFlagIsInsideForIn true
        let init1 ← fns.parseSequence
        setGlobalFlagIsInsideForIn false
        pure init1
      else
        pure init0
  let acceptedName ← accept [tNAME]
  let isOf ←
    if acceptedName then do
      let l ← getLexeme
      pure (l == "of")
    else
      pure false
  if isOf then do
    let right ← fns.parseExpression
    expect tPAREN_RIGHT
    let body ← fns.parseStatement
    pure (makeNode g_FOR_OF_STATEMENT "" [init, right, body])
  else if (← accept [tIN]) then do
    let right ← fns.parseExpression
    expect tPAREN_RIGHT
    let body ← fns.parseStatement
    pure (makeNode g_FOR_IN_STATEMENT "" [init, right, body])
  else do
    expect tSEMI
    let test_ ←
      if (← accept [tSEMI]) then
        pure (makeNode g_EMPTY_EXPRESSION "" [])
      else do
        let e ← fns.parseExpression
        expect tSEMI
        pure e
    let final ←
      if (← accept [tPAREN_RIGHT]) then
        pure (makeNode g_EMPTY_EXPRESSION "" [])
      else do
        let e ← fns.parseExpression
        expect tPAREN_RIGHT
        pure e
    let body ← fns.parseStatement
    pure (makeNode g_FOR_STATEMENT "" [init, test_, final, body])

/-- jsLoader.go:834-845. -/
def parseIfStatementBody (fns : ParserFns) : PM astNode := do
  expect tPAREN_LEFT
  let test_ ← fns.parseExpression
  expect tPAREN_RIGHT
  let body ← fns.parseStatement
  if (← accept [tELSE]) then do
    let alternate ← fns.parseStatement
    pure (makeNode g_IF_STATEMENT "" [test_, body, alternate])
  else
    pure (makeNode g_IF_STATEMENT "" [test_, body])

/-- jsLoader.go:847-854. -/
def parseWhileStatementBody (fns : ParserFns) : PM astNode := do
  expect tPAREN_LEFT
  let test_ ← fns.parseExpression
  expect tPAREN_RIGHT
  let body ← fns.parseStatement
  pure (makeNode g_WHILE_STATEMENT "" [test_, body])

/-- jsLoader.go:856-864. -/
def parseDoWhileStatementBody (fns : ParserFns) : PM astNode := do
  let body ← fns.parseStatement
  expect tWHILE
  expect tPAREN_LEFT
  let test_ ← fns.parseExpression
  expect tPAREN_RIGHT
  pure (makeNode g_DO_WHILE_STATEMENT "" [test_, body])

/-- jsLoader.go:866-876. -/
def parseFunctionDeclarationBody (fns : ParserFns) : PM astNode := do
  expect tNAME
  let name ← getLexeme
  expect tPAREN_LEFT
  let params ← fns.parseFunctionParameters
  expect tCURLY_LEFT
  let body ← fns.parseBlockStatement
  pure (makeNode g_FUNCTION_DECLARATION name [params, body])

/-- jsLoader.go:878-889. -/
def parseExpressionStatementBody (fns : ParserFns) : PM astNode := do
  if (← accept [tBREAK]) then
    pure (makeNode g_BREAK_STATEMENT "" [])
  else if (← accept [tCONTINUE]) then
    pure (makeNode g_CONTINUE_STATEMENT "" [])
  else if (← accept [tDEBUGGER]) then
    pure (makeNode g_DEBUGGER_STATEMENT "" [])
  else do
    let e ← fns.parseExpression
    let expr := makeNode g_EXPRESSION_STATEMENT "" [e]
    expect tSEMI
    pure expr

/-- jsLoader.go:891-897. -/
def parseReturnStatementBody (fns : ParserFns) : PM astNode := do
  if (← accept [tSEMI]) then
    pure (makeNode g_RETURN_STATEMENT "" [])
  else do
    let e ← fns.parseExpression
    pure (makeNode g_RETURN_STATEMENT "" [e])

/-- jsLoader.go:899-901. -/
def parseExpressionBody (fns : ParserFns) : PM astNode :=
  fns.parseSequence

/-- jsLoader.go:903-915. -/
def parseSequenceBody (fns : ParserFns) : PM astNode := do
  let firstItem ← fns.parseYield
  let children ← fns.parseSequenceLoop [firstItem]
  if children.length > 1 then
    pure (makeNode g_SEQUENCE_EXPRESSION "," children)
  else
    pure firstItem

/-- The comma loop of `parseSequence` (jsLoader.go:907-909). -/
def parseSequenceLoopBody (fns : ParserFns) (acc : List astNode) : PM (List astNode) := do
  if (← accept [tCOMMA]) then do
    let y ← fns.parseYield
    fns.parseSequenceLoop (acc ++ [y])
  else
    pure acc

/-- jsLoader.go:917-922. -/
def parseYieldBody (fns : ParserFns) : PM astNode := do
  if (← accept [tYIELD]) then do
    let y ← fns.parseYield
    pure (makeNode g_EXPRESSION "yield" [y])
  else
    fns.parseAssignment

/-- jsLoader.go:924-948. -/
def parseAssignmentBody (fns : ParserFns) : PM astNode := do
  let left ← fns.parseConditional
  if (← accept [tASSIGN, tPLUS_ASSIGN, tMINUS_ASSIGN, tMULT_ASSIGN,
      tDIV_ASSIGN, tBITWISE_SHIFT_LEFT_ASSIGN, tBITWISE_SHIFT_RIGHT_ASSIGN,
      tBITWISE_SHIFT_RIGHT_ZERO_ASSIGN, tBITWISE_AND_ASSIGN,
      tBITWISE_OR_ASSIGN, tBITWISE_XOR_ASSIGN]) then do
    let op ← getLexeme
    let right ← fns.parseAssignment
    pure (makeNode g_EXPRESSION op [left, right])
  else
    pure left

/-- jsLoader.go:950-966. When neither a pattern nor a name follows,
`checkASI` may return normally (ASI position) and the zero node is used. -/
def parseAssignmentPatternBody (fns : ParserFns) : PM astNode := do
  let left ←
    if (← accept [tCURLY_LEFT]) then
      fns.parseObjectPattern
    else if (← accept [tNAME]) then do
      let l ← getLexeme
      pure (makeNode g_NAME l [])
    else do
      checkASI tSEMI
      pure zeroAstNode
  if (← accept [tASSIGN]) then do
    let right ← fns.parseExpression
    pure (makeNode g_ASSIGNMENT_PATTERN "=" [left, right])
  else
    pure left

/-- jsLoader.go:968-990. -/
def parseObjectPatternBody (fns : ParserFns) : PM astNode := do
  let properties ← fns.parseObjectPatternLoop []
  pure (makeNode g_OBJECT_PATTERN "" properties)

/-- The property loop of `parseObjectPattern` (jsLoader.go:970-987). -/
def parseObjectPatternLoopBody (fns : ParserFns) (acc : List astNode) : PM (List astNode) := do
  if (← accept [tCURLY_RIGHT]) then
    pure acc
  else do
    let acc' ←
      if (← accept [tNAME]) then do
        let l ← getLexeme
        let key := makeNode g_NAME l []
        let children ←
          if (← accept [tCOLON]) then do
            let ap ← fns.parseAssignmentPattern
            pure [key, ap]
          else
            pure [key]
        pure (acc ++ [makeNode g_OBJECT_PROPERTY "" children])
      else
        pure acc
    if (← accept [tCOMMA]) then
      fns.parseObjectPatternLoop acc'
    else do
      expect tCURLY_RIGHT
      pure acc'

/-- jsLoader.go:992-1003. -/
def parseConditionalBody (fns : ParserFns) : PM astNode := do
  let test_ ← fns.parseBinary
  if (← accept [tQUESTION]) then do
    let consequent ← fns.parseConditional
    expect tCOLON
    let alternate ← fns.parseConditional
    pure (makeNode g_CONDITIONAL_EXPRESSION "?" [test_, consequent, alternate])
  else
    pure test_

/-- jsLoader.go:1005-1055: precedence climbing with an explicit operator
stack (`parseBinaryLoop`), then the final top-down reduction. -/
def parseBinaryBody (fns : ParserFns) : PM astNode := do
  let (opStack, outputStack, root) ← fns.parseBinaryLoop [] [] none
  let (out, root') ← liftE (finalReduceGo opStack outputStack root)
  match root' with
  | some r => pure r
  | none =>
    match out with
    | top :: _ => pure top
    | [] => pThrow (.runtimeErr "index out of range")

/-- The main loop of `parseBinary` (jsLoader.go:1020-1045). -/
def parseBinaryLoopBody (fns : ParserFns)
    (opStack : List token) (outputStack : List astNode) (root : Option astNode) :
    PM (List token × List astNode × Option astNode) := do
  let v ← fns.parsePrefixUnary
  let outputStack := v :: outputStack
  let s ← pGet
  match operatorTable s.tok.tType with
  | none => pure (opStack, outputStack, root)
  | some op =>
    if s.globalFlagIsInsideForIn ∧ s.tok.tType = tIN then
      pure (opStack, outputStack, root)
    else do
      let (opStack', outputStack', root') ←
        liftE (reduceStackGo op opStack outputStack root)
      let opStack'' := s.tok :: opStack'
      next
      fns.parseBinaryLoop opStack'' outputStack' root'

/-- jsLoader.go:1057-1068. -/
def parsePrefixUnaryBody (fns : ParserFns) : PM astNode := do
  if (← accept [tNOT, tBITWISE_NOT, tPLUS, tMINUS, tINC, tDEC,
      tTYPEOF, tVOID, tDELETE]) then do
    let op ← getLexeme
    let v ← fns.parsePrefixUnary
    pure (makeNode g_UNARY_PREFIX_EXPRESSION op [v])
  else
    fns.parsePostfixUnary

/-- jsLoader.go:1070-1078. -/
def parsePostfixUnaryBody (fns : ParserFns) : PM astNode := do
  let value ← fns.parseFunctionCallOrMember false
  if (← accept [tINC, tDEC]) then do
    let op ← getLexeme
    pure (makeNode g_UNARY_POSTFIX_EXPRESSION op [value])
  else
    pure value

/-- jsLoader.go:1080-1095. -/
def parseFunctionArgsBody (fns : ParserFns) : PM astNode := do
  let args ← fns.parseFunctionArgsLoop []
  pure (makeNode g_FUNCTION_ARGS "" args)

/-- The argument loop of `parseFunctionArgs` (jsLoader.go:1083-1090). -/
def parseFunctionArgsLoopBody (fns : ParserFns) (acc : List astNode) : PM (List astNode) := do
  if (← accept [tPAREN_RIGHT]) then
    pure acc
  else do
    let e ← fns.parseExpression
    let acc' := acc ++ [e]
    if (← accept [tCOMMA]) then
      fns.parseFunctionArgsLoop acc'
    else do
      expect tPAREN_RIGHT
      pure acc'

/-- jsLoader.go:1097-1125. -/
def parseFunctionCallOrMemberBody (fns : ParserFns) (onlyMember : Bool) : PM astNode := do
    let funcName ← fns.parseConstructorCall
    fns.parseFCMLoop onlyMember funcName

/-- The call/member loop of `parseFunctionCallOrMember`
(jsLoader.go:1100-1122). Go's `!onlyMember && accept(...)` short-circuits,
so `accept` only runs when calls are allowed. -/
def parseFCMLoopBody (fns : ParserFns) (onlyMember : Bool) (funcName : astNode) : PM astNode := do
    let isCall ← if onlyMember then pure false else accept [tPAREN_LEFT]
    if isCall then do
      let argsNode ← fns.parseFunctionArgs
      fns.parseFCMLoop onlyMember (makeNode g_FUNCTION_CALL "" [funcName, argsNode])
    else do
      if (← accept [tDOT]) then do
        expect tNAME
        let l ← getLexeme
        let property := makeNode g_NAME l []
        fns.parseFCMLoop onlyMember (makeNode g_MEMBER_EXPRESSION "" [funcName, property])
      else if (← accept [tBRACKET_LEFT]) then do
        let property ← fns.parseCalculatedPropertyName
        fns.parseFCMLoop onlyMember (makeNode g_MEMBER_EXPRESSION "" [funcName, property])
      else
        pure funcName

/-- jsLoader.go:1127-1139. -/
def parseConstructorCallBody (fns : ParserFns) : PM astNode := do
  if (← accept [tNEW]) then do
    let name ← fns.parseFunctionCallOrMember true
    if (← accept [tPAREN_LEFT]) then do
      let args ← fns.parseFunctionArgs
      pure (makeNode g_CONSTRUCTOR_CALL "" [name, args])
    else
      pure (makeNode g_CONSTRUCTOR_CALL "" [name])
  else
    fns.parseAtom

/-- jsLoader.go:1141-1174. In the default branch `checkASI` may return
normally (ASI position) and the zero `astNode{}` is returned. -/
def parseAtomBody (fns : ParserFns) : PM astNode := do
  if (← accept [tDIV]) then
    fns.parseRegexp
  else if (← accept [tHEX]) then do
    let l ← getLexeme
    pure (makeNode g_HEX_LITERAL l [])
  else if (← accept [tPAREN_LEFT]) then
    fns.parseParensOrLambda
  else if (← accept [tCURLY_LEFT]) then
    fns.parseObjectLiteral
  else if (← accept [tFUNCTION]) then
    fns.parseFunctionExpression
  else if (← accept [tBRACKET_LEFT]) then
    fns.parseArrayLiteral
  else if (← accept [tNAME]) then
    fns.parseLambdaOrName
  else if (← accept [tNUMBER]) then do
    let l ← getLexeme
    pure (makeNode g_NUMBER_LITERAL l [])
  else if (← accept [tSTRING]) then do
    let l ← getLexeme
    pure (makeNode g_STRING_LITERAL l [])
  else if (← accept [tNULL]) then do
    let l ← getLexeme
    pure (makeNode g_NULL l [])
  else if (← accept [tUNDEFINED]) then do
    let l ← getLexeme
    pure (makeNode g_UNDEFINED l [])
  else if (← accept [tTRUE, tFALSE]) then do
    let l ← getLexeme
    pure (makeNode g_BOOL_LITERAL l [])
  else if (← accept [tTHIS]) then do
    let l ← getLexeme
    pure (makeNode g_THIS l [])
  else do
    checkASI tSEMI
    pure zeroAstNode

/-- jsLoader.go:1176-1195. -/
def parseRegexpBody (fns : ParserFns) : PM astNode := do
  let value ← fns.parseRegexpLoop "/"
  let value := value ++ "/"
  let value ←
    if (← accept [tNAME]) then do
      let l ← getLexeme
      pure (value ++ l)
    else
      pure value
  pure (makeNode g_REGEXP_LITERAL value [])

/-- The body loop of `parseRegexp` (jsLoader.go:1178-1188); reads
`p.sourceTokens[p.index-2]` to test for an escape, panicking on underflow. -/
def parseRegexpLoopBody (fns : ParserFns) (value : String) : PM String := do
  if (← accept [tDIV]) then do
    let s ← pGet
    if s.index < 2 then
      pThrow (.runtimeErr "index out of range")
    else do
      let t ← liftE (tokAt s.sourceTokens (s.index - 2))
      if t.tType ≠ tESCAPE then
        pure value
      else do
        let l ← getLexeme
        next
        let l2 ← getLexeme
        fns.parseRegexpLoop (value ++ l ++ l2)
  else do
    next
    let l2 ← getLexeme
    fns.parseRegexpLoop (value ++ l2)

/-- jsLoader.go:1197-1221. -/
def parseParensOrLambdaBody (fns : ParserFns) : PM astNode := do
  let s ← pGet
  let prevPos := s.index
  let params ← fns.parseFunctionParameters
  if (← accept [tLAMBDA]) then do
    let body ←
      if (← accept [tCURLY_LEFT]) then
        fns.parseBlockStatement
      else
        fns.parseYield
    pure (makeNode g_LAMBDA_EXPRESSION "" [params, body])
  else do
    backtrack prevPos
    let value ←
      if (← accept [tPAREN_RIGHT]) then
        pure zeroAstNode
      else do
        let v ← fns.parseExpression
        expect tPAREN_RIGHT
        pure v
    pure (makeNode g_PARENS_EXPRESSION "" [value])

/-- jsLoader.go:1223-1241. A `none` from the loop is the backtracking
failure path, which returns the result node with `nil` children. -/
def parseFunctionParametersBody (fns : ParserFns) : PM astNode := do
  let s ← pGet
  let startPos := s.index
  match (← fns.parseFunctionParametersLoop startPos []) with
  | some params => pure (astNode.mk g_FUNCTION_PARAMETERS "" params 0)
  | none => pure (astNode.mk g_FUNCTION_PARAMETERS "" [] 0)

/-- The parameter loop of `parseFunctionParameters`
(jsLoader.go:1228-1238). -/
def parseFunctionParametersLoopBody (fns : ParserFns)
    (startPos : Nat) (acc : List astNode) : PM (Option (List astNode)) := do
  if (← accept [tPAREN_RIGHT]) then
    pure (some acc)
  else do
    let prm ← fns.parseFunctionParameter
    let acc' := acc ++ [prm]
    if (← accept [tCOMMA]) then
      fns.parseFunctionParametersLoop startPos acc'
    else do
      if (← accept [tPAREN_RIGHT]) then
        pure (some acc')
      else do
        backtrack startPos
        pure none

/-- jsLoader.go:1243-1255. -/
def parseFunctionExpressionBody (fns : ParserFns) : PM astNode := do
  let name ←
    if (← accept [tNAME]) then
      getLexeme
    else
      pure ""
  expect tPAREN_LEFT
  let params ← fns.parseFunctionParameters
  expect tCURLY_LEFT
  let body ← fns.parseBlockStatement
  pure (makeNode g_FUNCTION_EXPRESSION name [params, body])

/-- jsLoader.go:1257-1298. -/
def parseObjectLiteralBody (fns : ParserFns) : PM astNode := do
  let props ← fns.parseObjectLiteralLoop []
  pure (makeNode g_OBJECT_LITERAL "" props)

/-- The property loop of `parseObjectLiteral` (jsLoader.go:1260-1295). -/
def parseObjectLiteralLoopBody (fns : ParserFns) (acc : List astNode) : PM (List astNode) := do
  if (← accept [tCURLY_RIGHT]) then
    pure acc
  else do
    let gn ← getNoNewline
    let propValue ←
      if gn.lexeme = "get" then do
        let _ ← accept [tNAME]
        getLexeme
      else if gn.lexeme = "set" then do
        let _ ← accept [tNAME]
        getLexeme
      else
        pure ""
    let key ←
      if (← accept [tNAME]) then do
        let l ← getLexeme
        pure (makeNode g_NAME l [])
      else if (← accept [tBRACKET_LEFT]) then
        fns.parseCalculatedPropertyName
      else do
        let gn2 ← getNoNewline
        let tb ← test [tNUMBER, tSTRING]
        if isValidPropertyName gn2.lexeme ∨ tb then do
          let _ ← accept []
          let l ← getLexeme
          pure (makeNode g_VALID_PROPERTY_NAME l [])
        else
          pure zeroAstNode
    let children ←
      if (← test [tPAREN_LEFT]) then do
        let v ← fns.parseMemberFunction
        pure [key, v]
      else if (← accept [tCOLON]) then do
        let v ← fns.parseYield
        pure [key, v]
      else
        pure [key]
    let prop := astNode.mk g_OBJECT_PROPERTY propValue children 0
    let acc' := acc ++ [prop]
    if (← accept [tCOMMA]) then
      fns.parseObjectLiteralLoop acc'
    else do
      expect tCURLY_RIGHT
      pure acc'

/-- jsLoader.go:1300-1304. -/
def parseMemberFunctionBody (fns : ParserFns) : PM astNode := do
  let f ← fns.parseFunctionExpression
  pure (astNode.mk g_MEMBER_FUNCTION f.value f.children f.flags)

/-- jsLoader.go:1306-1319. -/
def parseArrayLiteralBody (fns : ParserFns) : PM astNode := do
  let values ← fns.parseArrayLiteralLoop []
  pure (makeNode g_ARRAY_LITERAL "" values)

/-- The element loop of `parseArrayLiteral` (jsLoader.go:1309-1316). -/
def parseArrayLiteralLoopBody (fns : ParserFns) (acc : List astNode) : PM (List astNode) := do
  if (← accept [tBRACKET_RIGHT]) then
    pure acc
  else do
    let v ← fns.parseYield
    let acc' := acc ++ [v]
    if (← accept [tCOMMA]) then
      fns.parseArrayLiteralLoop acc'
    else do
      expect tBRACKET_RIGHT
      pure acc'

/-- jsLoader.go:1321-1341. -/
def parseLambdaOrNameBody (fns : ParserFns) : PM astNode := do
  let firstParamStr ← getLexeme
  if (← accept [tLAMBDA]) then do
    let body ←
      if (← accept [tCURLY_LEFT]) then
        fns.parseBlockStatement
      else
        fns.parseYield
    let params := makeNode g_FUNCTION_PARAMETERS ""
      [makeNode g_FUNCTION_PARAMETER "" [makeNode g_NAME firstParamStr []]]
    pure (makeNode g_LAMBDA_EXPRESSION "" [params, body])
  else
    pure (makeNode g_NAME firstParamStr [])

/-- jsLoader.go:1343-1349. -/
def parseBlockStatementBody (fns : ParserFns) : PM astNode := do
  let statements ← fns.parseBlockStatementLoop []
  pure (makeNode g_BLOCK_STATEMENT "" statements)

/-- The statement loop of `parseBlockStatement` (jsLoader.go:1345-1347). -/
def parseBlockStatementLoopBody (fns : ParserFns) (acc : List astNode) : PM (List astNode) := do
  if (← accept [tCURLY_RIGHT]) then
    pure acc
  else do
    let st ← fns.parseStatement
    fns.parseBlockStatementLoop (acc ++ [st])

/-- jsLoader.go:1351-1367. -/
def parseFunctionParameterBody (fns : ParserFns) : PM astNode := do
  if (← accept [tSPREAD]) then do
    let left ←
      if (← accept [tCURLY_LEFT]) then
        fns.parseObjectPattern
      else if (← accept [tNAME]) then do
        let l ← getLexeme
        pure (makeNode g_NAME l [])
      else
        pure zeroAstNode
    pure (astNode.mk g_FUNCTION_PARAMETER "" [left] f_FUNCTION_PARAM_REST)
  else do
    let n ← fns.parseDeclarator
    pure (astNode.mk g_FUNCTION_PARAMETER n.value n.children n.flags)

/-- jsLoader.go:1369-1385. The early `return left` with the zero node is
taken when neither a pattern nor a name follows. -/
def parseDeclaratorBody (fns : ParserFns) : PM astNode := do
  if (← accept [tCURLY_LEFT]) then do
    let left ← fns.parseObjectPattern
    fns.parseDeclaratorTail left
  else if (← accept [tNAME]) then do
    let l ← getLexeme
    fns.parseDeclaratorTail (makeNode g_NAME l [])
  else
    pure zeroAstNode

/-- The assignment tail shared by both `parseDeclarator` branches
(jsLoader.go:1379-1384). -/
def parseDeclaratorTailBody (fns : ParserFns) (left : astNode) : PM astNode := do
    if (← accept [tASSIGN]) then do
      let right ← fns.parseAssignment
      pure (makeNode g_DECLARATOR "" [left, right])
    else
      pure (makeNode g_DECLARATOR "" [left])

/-- jsLoader.go:1387-1391. -/
def parseCalculatedPropertyNameBody (fns : ParserFns) : PM astNode := do
  let value ← fns.parseExpression
  expect tBRACKET_RIGHT
  pure (makeNode g_CALCULATED_PROPERTY_NAME "" [value])

/-- jsLoader.go:1393-1474. -/
def parseImportStatementBody (fns : ParserFns) : PM astNode := do
  let (varsChildren, allValue) ←
    if (← accept [tMULT]) then do
      expect tNAME
      let l ← getLexeme
      if l ≠ "as" then checkASI tSEMI else pure ()
      expect tNAME
      let allV ← getLexeme
      expect tNAME
      let l2 ← getLexeme
      if l2 ≠ "from" then checkASI tSEMI else pure ()
      pure (([] : List astNode), allV)
    else do
      let (vars0, all0) ←
        if (← accept [tNAME]) then do
          let l ← getLexeme
          let name := makeNode g_IMPORT_NAME "default" []
          let alias0 := makeNode g_IMPORT_ALIAS l []
          let varNode := makeNode g_IMPORT_VAR "" [name, alias0]
          if (← accept [tCOMMA]) then do
            if (← accept [tMULT]) then do
              expect tNAME
              let la ← getLexeme
              if la ≠ "as" then checkASI tSEMI else pure ()
              expect tNAME
              let allV ← getLexeme
              expect tNAME
              let lf ← getLexeme
              if lf ≠ "from" then checkASI tSEMI else pure ()
              pure ([varNode], allV)
            else
              pure ([varNode], "")
          else do
            expect tNAME
            let lf ← getLexeme
            if lf ≠ "from" then checkASI tSEMI else pure ()
            pure ([varNode], "")
        else
          pure (([] : List astNode), "")
      if (← accept [tCURLY_LEFT]) then do
        let vars1 ← fns.parseImportBraceLoop vars0
        expect tNAME
        let lf ← getLexeme
        if lf ≠ "from" then checkASI tSEMI else pure ()
        pure (vars1, all0)
      else
        pure (vars0, all0)
  expect tSTRING
  let pathValue ← getLexeme
  expect tSEMI
  let vars := astNode.mk g_IMPORT_VARS "" varsChildren 0
  let allNode := astNode.mk g_IMPORT_ALL allValue [] 0
  let pathNode := astNode.mk g_IMPORT_PATH pathValue [] 0
  pure (makeNode g_IMPORT_STATEMENT "" [vars, allNode, pathNode])

/-- The brace loop of `parseImportStatement` (jsLoader.go:1442-1460). -/
def parseImportBraceLoopBody (fns : ParserFns) (acc : List astNode) : PM (List astNode) := do
  if (← accept [tCURLY_RIGHT]) then
    pure acc
  else do
    let acc' ←
      if (← accept [tNAME, tDEFAULT]) then do
        let l ← getLexeme
        let name := makeNode g_IMPORT_NAME l []
        let alias0 := makeNode g_IMPORT_ALIAS l []
        let alias1 ←
          if (← accept [tNAME]) then do
            let l2 ← getLexeme
            if l2 = "as" then do
              expect tNAME
              let l3 ← getLexeme
              pure (makeNode g_IMPORT_ALIAS l3 [])
            else
              pure alias0
          else
            pure alias0
        pure (acc ++ [makeNode g_IMPORT_VAR "" [name, alias1]])
      else
        pure acc
    if (← accept [tCOMMA]) then
      fns.parseImportBraceLoop acc'
    else do
      expect tCURLY_RIGHT
      pure acc'

/-- Every entry point fails with `fuelOut`: the fuel-0 record. -/
def fuelOutParserFns : ParserFns where
  parseProgramLoop := fun _ => pThrow .fuelOut
  parseTryCatchStatement := pThrow .fuelOut
  parseStatement := pThrow .fuelOut
  parseStatementSwitch := pThrow .fuelOut
  parseExportStatement := pThrow .fuelOut
  parseExportBraceLoop := fun _ => pThrow .fuelOut
  parseSwitchStatement := pThrow .fuelOut
  parseSwitchCasesLoop := fun _ => pThrow .fuelOut
  parseSwitchCaseStatementsLoop := fun _ => pThrow .fuelOut
  parseDeclarationStatement := pThrow .fuelOut
  parseDeclarationExpression := pThrow .fuelOut
  parseDeclaratorLoop := fun _ => pThrow .fuelOut
  parseForStatement := pThrow .fuelOut
  parseIfStatement := pThrow .fuelOut
  parseWhileStatement := pThrow .fuelOut
  parseDoWhileStatement := pThrow .fuelOut
  parseFunctionDeclaration := pThrow .fuelOut
  parseExpressionStatement := pThrow .fuelOut
  parseReturnStatement := pThrow .fuelOut
  parseExpression := pThrow .fuelOut
  parseSequence := pThrow .fuelOut
  parseSequenceLoop := fun _ => pThrow .fuelOut
  parseYield := pThrow .fuelOut
  parseAssignment := pThrow .fuelOut
  parseAssignmentPattern := pThrow .fuelOut
  parseObjectPattern := pThrow .fuelOut
  parseObjectPatternLoop := fun _ => pThrow .fuelOut
  parseConditional := pThrow .fuelOut
  parseBinary := pThrow .fuelOut
  parseBinaryLoop := fun _ _ _ => pThrow .fuelOut
  parsePrefixUnary := pThrow .fuelOut
  parsePostfixUnary := pThrow .fuelOut
  parseFunctionArgs := pThrow .fuelOut
  parseFunctionArgsLoop := fun _ => pThrow .fuelOut
  parseFunctionCallOrMember := fun _ => pThrow .fuelOut
  parseFCMLoop := fun _ _ => pThrow .fuelOut
  parseConstructorCall := pThrow .fuelOut
  parseAtom := pThrow .fuelOut
  parseRegexp := pThrow .fuelOut
  parseRegexpLoop := fun _ => pThrow .fuelOut
  parseParensOrLambda := pThrow .fuelOut
  parseFunctionParameters := pThrow .fuelOut
  parseFunctionParametersLoop := fun _ _ => pThrow .fuelOut
  parseFunctionExpression := pThrow .fuelOut
  parseObjectLiteral := pThrow .fuelOut
  parseObjectLiteralLoop := fun _ => pThrow .fuelOut
  parseMemberFunction := pThrow .fuelOut
  parseArrayLiteral := pThrow .fuelOut
  parseArrayLiteralLoop := fun _ => pThrow .fuelOut
  parseLambdaOrName := pThrow .fuelOut
  parseBlockStatement := pThrow .fuelOut
  parseBlockStatementLoop := fun _ => pThrow .fuelOut
  parseFunctionParameter := pThrow .fuelOut
  parseDeclarator := pThrow .fuelOut
  parseDeclaratorTail := fun _ => pThrow .fuelOut
  parseCalculatedPropertyName := pThrow .fuelOut
  parseImportStatement := pThrow .fuelOut
  parseImportBraceLoop := fun _ => pThrow .fuelOut

/-- Ties the knot: `mkParserFns (fuel+1)` runs every body against the
`fuel` record. Written with `Nat.rec` directly so that kernel reduction of
concrete parses is cheap. -/
def mkParserFns (fuel : Nat) : ParserFns :=
  Nat.rec fuelOutParserFns (fun _ fns => {
    parseProgramLoop := parseProgramLoopBody fns
    parseTryCatchStatement := parseTryCatchStatementBody fns
    parseStatement := parseStatementBody fns
    parseStatementSwitch := parseStatementSwitchBody fns
    parseExportStatement := parseExportStatementBody fns
    parseExportBraceLoop := parseExportBraceLoopBody fns
    parseSwitchStatement := parseSwitchStatementBody fns
    parseSwitchCasesLoop := parseSwitchCasesLoopBody fns
    parseSwitchCaseStatementsLoop := parseSwitchCaseStatementsLoopBody fns
    parseDeclarationStatement := parseDeclarationStatementBody fns
    parseDeclarationExpression := parseDeclarationExpressionBody fns
    parseDeclaratorLoop := parseDeclaratorLoopBody fns
    parseForStatement := parseForStatementBody fns
    parseIfStatement := parseIfStatementBody fns
    parseWhileStatement := parseWhileStatementBody fns
    parseDoWhileStatement := parseDoWhileStatementBody fns
    parseFunctionDeclaration := parseFunctionDeclarationBody fns
    parseExpressionStatement := parseExpressionStatementBody fns
    parseReturnStatement := parseReturnStatementBody fns
    parseExpression := parseExpressionBody fns
    parseSequence := parseSequenceBody fns
    parseSequenceLoop := parseSequenceLoopBody fns
    parseYield := parseYieldBody fns
    parseAssignment := parseAssignmentBody fns
    parseAssignmentPattern := parseAssignmentPatternBody fns
    parseObjectPattern := parseObjectPatternBody fns
    parseObjectPatternLoop := parseObjectPatternLoopBody fns
    parseConditional := parseConditionalBody fns
    parseBinary := parseBinaryBody fns
    parseBinaryLoop := parseBinaryLoopBody fns
    parsePrefixUnary := parsePrefixUnaryBody fns
    parsePostfixUnary := parsePostfixUnaryBody fns
    parseFunctionArgs := parseFunctionArgsBody fns
    parseFunctionArgsLoop := parseFunctionArgsLoopBody fns
    parseFunctionCallOrMember := parseFunctionCallOrMemberBody fns
    parseFCMLoop := parseFCMLoopBody fns
    parseConstructorCall := parseConstructorCallBody fns
    parseAtom := parseAtomBody fns
    parseRegexp := parseRegexpBody fns
    parseRegexpLoop := parseRegexpLoopBody fns
    parseParensOrLambda := parseParensOrLambdaBody fns
    parseFunctionParameters := parseFunctionParametersBody fns
    parseFunctionParametersLoop := parseFunctionParametersLoopBody fns
    parseFunctionExpression := parseFunctionExpressionBody fns
    parseObjectLiteral := parseObjectLiteralBody fns
    parseObjectLiteralLoop := parseObjectLiteralLoopBody fns
    parseMemberFunction := parseMemberFunctionBody fns
    parseArrayLiteral := parseArrayLiteralBody fns
    parseArrayLiteralLoop := parseArrayLiteralLoopBody fns
    parseLambdaOrName := parseLambdaOrNameBody fns
    parseBlockStatement := parseBlockStatementBody fns
    parseBlockStatementLoop := parseBlockStatementLoopBody fns
    parseFunctionParameter := parseFunctionParameterBody fns
    parseDeclarator := parseDeclaratorBody fns
    parseDeclaratorTail := parseDeclaratorTailBody fns
    parseCalculatedPropertyName := parseCalculatedPropertyNameBody fns
    parseImportStatement := parseImportStatementBody fns
    parseImportBraceLoop := parseImportBraceLoopBody fns
  }) fuel

/-- Fuel-indexed entry points with the source function names. -/
def parseProgramLoop (fuel : Nat) : List astNode → PM (List astNode) :=
  (mkParserFns fuel).parseProgramLoop

def parseTryCatchStatement (fuel : Nat) : PM astNode :=
  (mkParserFns fuel).parseTryCatchStatement

def parseStatement (fuel : Nat) : PM astNode :=
  (mkParserFns fuel).parseStatement

def parseStatementSwitch (fuel : Nat) : PM astNode :=
  (mkParserFns fuel).parseStatementSwitch

def parseExportStatement (fuel : Nat) : PM astNode :=
  (mkParserFns fuel).parseExportStatement

def parseExportBraceLoop (fuel : Nat) : List astNode → PM (List astNode) :=
  (mkParserFns fuel).parseExportBraceLoop

def parseSwitchStatement (fuel : Nat) : PM astNode :=
  (mkParserFns fuel).parseSwitchStatement

def parseSwitchCasesLoop (fuel : Nat) : List astNode → PM (List astNode) :=
  (mkParserFns fuel).parseSwitchCasesLoop

def parseSwitchCaseStatementsLoop (fuel : Nat) : List astNode → PM (List astNode) :=
  (mkParserFns fuel).parseSwitchCaseStatementsLoop

def parseDeclarationStatement (fuel : Nat) : PM astNode :=
  (mkParserFns fuel).parseDeclarationStatement

def parseDeclarationExpression (fuel : Nat) : PM astNode :=
  (mkParserFns fuel).parseDeclarationExpression

def parseDeclaratorLoop (fuel : Nat) : List astNode → PM (List astNode) :=
  (mkParserFns fuel).parseDeclaratorLoop

def parseForStatement (fuel : Nat) : PM astNode :=
  (mkParserFns fuel).parseForStatement

def parseIfStatement (fuel : Nat) : PM astNode :=
  (mkParserFns fuel).parseIfStatement

def parseWhileStatement (fuel : Nat) : PM astNode :=
  (mkParserFns fuel).parseWhileStatement

def parseDoWhileStatement (fuel : Nat) : PM astNode :=
  (mkParserFns fuel).parseDoWhileStatement

def parseFunctionDeclaration (fuel : Nat) : PM astNode :=
  (mkParserFns fuel).parseFunctionDeclaration

def parseExpressionStatement (fuel : Nat) : PM astNode :=
  (mkParserFns fuel).parseExpressionStatement

def parseReturnStatement (fuel : Nat) : PM astNode :=
  (mkParserFns fuel).parseReturnStatement

def parseExpression (fuel : Nat) : PM astNode :=
  (mkParserFns fuel).parseExpression

def parseSequence (fuel : Nat) : PM astNode :=
  (mkParserFns fuel).parseSequence

def parseSequenceLoop (fuel : Nat) : List astNode → PM (List astNode) :=
  (mkParserFns fuel).parseSequenceLoop

def parseYield (fuel : Nat) : PM astNode :=
  (mkParserFns fuel).parseYield

def parseAssignment (fuel : Nat) : PM astNode :=
  (mkParserFns fuel).parseAssignment

def parseAssignmentPattern (fuel : Nat) : PM astNode :=
  (mkParserFns fuel).parseAssignmentPattern

def parseObjectPattern (fuel : Nat) : PM astNode :=
  (mkParserFns fuel).parseObjectPattern

def parseObjectPatternLoop (fuel : Nat) : List astNode → PM (List astNode) :=
  (mkParserFns fuel).parseObjectPatternLoop

def parseConditional (fuel : Nat) : PM astNode :=
  (mkParserFns fuel).parseConditional

def parseBinary (fuel : Nat) : PM astNode :=
  (mkParserFns fuel).parseBinary

def parseBinaryLoop (fuel : Nat) : List token → List astNode → Option astNode → PM (List token × List astNode × Option astNode) :=
  (mkParserFns fuel).parseBinaryLoop

def parsePrefixUnary (fuel : Nat) : PM astNode :=
  (mkParserFns fuel).parsePrefixUnary

def parsePostfixUnary (fuel : Nat) : PM astNode :=
  (mkParserFns fuel).parsePostfixUnary

def parseFunctionArgs (fuel : Nat) : PM astNode :=
  (mkParserFns fuel).parseFunctionArgs

def parseFunctionArgsLoop (fuel : Nat) : List astNode → PM (List astNode) :=
  (mkParserFns fuel).parseFunctionArgsLoop

def parseFunctionCallOrMember (fuel : Nat) : Bool → PM astNode :=
  (mkParserFns fuel).parseFunctionCallOrMember

def parseFCMLoop (fuel : Nat) : Bool → astNode → PM astNode :=
  (mkParserFns fuel).parseFCMLoop

def parseConstructorCall (fuel : Nat) : PM astNode :=
  (mkParserFns fuel).parseConstructorCall

def parseAtom (fuel : Nat) : PM astNode :=
  (mkParserFns fuel).parseAtom

def parseRegexp (fuel : Nat) : PM astNode :=
  (mkParserFns fuel).parseRegexp

def parseRegexpLoop (fuel : Nat) : String → PM String :=
  (mkParserFns fuel).parseRegexpLoop

def parseParensOrLambda (fuel : Nat) : PM astNode :=
  (mkParserFns fuel).parseParensOrLambda

def parseFunctionParameters (fuel : Nat) : PM astNode :=
  (mkParserFns fuel).parseFunctionParameters

def parseFunctionParametersLoop (fuel : Nat) : Nat → List astNode → PM (Option (List astNode)) :=
  (mkParserFns fuel).parseFunctionParametersLoop

def parseFunctionExpression (fuel : Nat) : PM astNode :=
  (mkParserFns fuel).parseFunctionExpression

def parseObjectLiteral (fuel : Nat) : PM astNode :=
  (mkParserFns fuel).parseObjectLiteral

def parseObjectLiteralLoop (fuel : Nat) : List astNode → PM (List astNode) :=
  (mkParserFns fuel).parseObjectLiteralLoop

def parseMemberFunction (fuel : Nat) : PM astNode :=
  (mkParserFns fuel).parseMemberFunction

def parseArrayLiteral (fuel : Nat) : PM astNode :=
  (mkParserFns fuel).parseArrayLiteral

def parseArrayLiteralLoop (fuel : Nat) : List astNode → PM (List astNode) :=
  (mkParserFns fuel).parseArrayLiteralLoop

def parseLambdaOrName (fuel : Nat) : PM astNode :=
  (mkParserFns fuel).parseLambdaOrName

def parseBlockStatement (fuel : Nat) : PM astNode :=
  (mkParserFns fuel).parseBlockStatement

def parseBlockStatementLoop (fuel : Nat) : List astNode → PM (List astNode) :=
  (mkParserFns fuel).parseBlockStatementLoop

def parseFunctionParameter (fuel : Nat) : PM astNode :=
  (mkParserFns fuel).parseFunctionParameter

def parseDeclarator (fuel : Nat) : PM astNode :=
  (mkParserFns fuel).parseDeclarator

def parseDeclaratorTail (fuel : Nat) : astNode → PM astNode :=
  (mkParserFns fuel).parseDeclaratorTail

def parseCalculatedPropertyName (fuel : Nat) : PM astNode :=
  (mkParserFns fuel).parseCalculatedPropertyName

def parseImportStatement (fuel : Nat) : PM astNode :=
  (mkParserFns fuel).parseImportStatement

def parseImportBraceLoop (fuel : Nat) : List astNode → PM (List astNode) :=
  (mkParserFns fuel).parseImportBraceLoop

/-- jsLoader.go:545-563: `parseProgram` wraps the statement loop in Go's
`defer`/`recover`. A recovered `parsingError` is returned as the error; a
recovered runtime panic fails the type assertion, so the error stays `nil`
and the zero `astNode` is returned with no error at all. `diverge` and
`fuelOut` escape (a hang has no result; fuel-out is a model artifact). -/
def parseProgram (fuel : Nat) : PM (astNode × Option parsingError) := fun s =>
  match parseProgramLoop fuel [] s with
  | .ok (statements, s') =>
    .ok ((makeNode g_PROGRAM_STATEMENT "" statements, none), s')
  | .error (.parseErr e) => .ok ((zeroAstNode, some e), s)
  | .error (.runtimeErr _) => .ok ((zeroAstNode, none), s)
  | .error .diverge => .error .diverge
  | .error .fuelOut => .error .fuelOut

/-- jsLoader.go:370-378: `parseTokens` seeds the parser state with
`localSrc[0]` (a panic on an empty token list, before any recover is
installed) and runs `parseProgram`. -/
def parseTokens (fuel : Nat) (localSrc : List token) :
    Except goPanic (astNode × Option parsingError) :=
  match localSrc with
  | [] => .error (.runtimeErr "index out of range")
  | t0 :: _ =>
    match parseProgram fuel ⟨localSrc, 0, t0, false⟩ with
    | .ok (r, _) => .ok r
    | .error e => .error e

/-! ## Import-path resolution (jsLoader.go:310-358) -/

/-- jsLoader.go:310-315. -/
def CreateVarNameFromPath (path : String) : String :=
  goReplaceChar (goReplaceChar (goReplaceChar path '/' '_') '.' '_') '-' '_'

/-- The `.`/`..` elimination loop of `resolveES6ImportPath`
(jsLoader.go:339-347). Go ranges over the ORIGINAL `pathParts` snapshot
while reassigning `locationParts`/`pathParts` inside the loop; `none`
models the two possible index-out-of-range panics
(`locationParts[:len-1]` on an empty list for `..`, and `pathParts[1:]`
on an empty list). -/
def resolveDotLoop :
    List String → List String → List String →
    Option (List String × List String)
  | [], loc, pp => some (loc, pp)
  | part :: more, loc, pp =>
    if part = ".." then
      match loc, pp with
      | _ :: _, _ :: ppRest => resolveDotLoop more loc.dropLast ppRest
      | _, _ => none
    else if part = "." then
      match pp with
      | _ :: ppRest => resolveDotLoop more loc ppRest
      | [] => none
    else
      resolveDotLoop more loc pp

/-- jsLoader.go:322-358. `none` models a Go runtime panic (degenerate
paths such as `"."` make `pathParts` empty and the final
`pathParts[len(pathParts)-1]` access panic). -/
def resolveES6ImportPath (importPath currentFileName : String) : Option String :=
  let importPath := trimQuotesFromString importPath
  let pathParts := goSplit importPath '/'
  let locationParts := (goSplit currentFileName '/').dropLast
  -- "import from node_modules" (jsLoader.go:330-337)
  let (locationParts, pathParts) :=
    match pathParts with
    | p0 :: _ =>
      if p0 ≠ "." ∧ p0 ≠ ".." then
        (["node_modules"],
         if pathParts.length = 1 then pathParts ++ ["index.js"] else pathParts)
      else
        (locationParts, pathParts)
    | [] => (locationParts, pathParts)
  match resolveDotLoop pathParts locationParts pathParts with
  | none => none
  | some (locationParts, pathParts) =>
    let fullFileName := goJoin (locationParts ++ pathParts) "/"
    match pathParts.getLast? with
    | none => none
    | some lastPart =>
      let ext := if ¬ goContainsChar lastPart '.' then ".js" else ""
      some (fullFileName ++ ext)

/-! ## The module transformer (jsLoader.go:36-308)

`transformIntoModule` builds six mutually recursive closures that share the
enclosing `fileName`, the growing `fileImports` slice and a single
`context` allocated at jsLoader.go:303-304 whose `parent` is never set and
whose `importedVars` map is mutated in place. The slice and the map become
explicit state (`TState`); the closures become a fuel-indexed record like
the parser's. -/

/-- jsLoader.go:36-39: the scope table. `importedVars` is a Go map; the
`parent` pointer (`nil` modelled as `none`) is never populated anywhere in
src/. -/
inductive context where
  | mk (importedVars : String → Option astNode) (parent : Option context)

def context.importedVars : context → (String → Option astNode)
  | .mk iv _ => iv

def context.parent : context → Option context
  | .mk _ p => p

/-- jsLoader.go:41-46: parent-walking lookup of an imported binding. This
function is DEAD CODE: nothing in src/ calls it. Walking past the root
(`ctx.parent == nil`) dereferences a nil pointer — a Go panic, modelled as
`none`. -/
def getImportedVariable : context → astNode → Option astNode
  | .mk importedVars parent, name =>
    match importedVars name.value with
    | some v => some v
    | none =>
      match parent with
      | some p => getImportedVariable p name
      | none => none

/-- The state shared by the transformer closures: the `fileImports` slice
(jsLoader.go:49) and the single context's `importedVars` map
(jsLoader.go:303-304). -/
structure TState where
  fileImports : List String
  importedVars : String → Option astNode

/-- The transformer monad: state plus Go panics (`String` messages). -/
def TM (α : Type) : Type := TState → Except String (α × TState)

instance : Monad TM where
  pure a := fun s => .ok (a, s)
  bind m f := fun s =>
    match m s with
    | .ok (a, s') => f a s'
    | .error e => .error e

def tGet : TM TState := fun s => .ok (s, s)

def tThrow {α : Type} (e : String) : TM α := fun _ => .error e

/-- Go `ctx.importedVars[key] = v` (map write through the shared pointer). -/
def tSetVar (key : String) (v : astNode) : TM Unit := fun s =>
  .ok ((), { s with importedVars := fun k => if k = key then some v else s.importedVars k })

/-- Go `fileImports = append(fileImports, x)` (captured slice). -/
def tAddImport (x : String) : TM Unit := fun s =>
  .ok ((), { s with fileImports := s.fileImports ++ [x] })

/-- Go `children[i]` with panic on out-of-range. -/
def tIndex (l : List astNode) (i : Nat) : TM astNode :=
  match l.get? i with
  | some x => pure x
  | none => tThrow "index out of range"

/-- Go `resolveES6ImportPath` never returns an error; its panics abort. -/
def tResolve (importPath fileName : String) : TM String :=
  match resolveES6ImportPath importPath fileName with
  | some r => pure r
  | none => tThrow "panic in resolveES6ImportPath"

/-- Explicit monadic map/iterate over child lists (Go `for` loops), written
recursively so that proofs can unfold them equation by equation. -/
def tMapM (f : astNode → TM astNode) : List astNode → TM (List astNode)
  | [] => pure []
  | x :: xs => do
    let y ← f x
    let ys ← tMapM f xs
    pure (y :: ys)

def tForM (f : astNode → TM Unit) : List astNode → TM Unit
  | [] => pure ()
  | x :: xs => do
    f x
    tForM f xs

/-- One field per closure of `transformIntoModule` (jsLoader.go:51-56). -/
structure TransformFns where
  modifyAst : astNode → TM astNode
  modifyProgram : astNode → TM astNode
  modifyImport : astNode → TM astNode
  modifyExport : astNode → TM astNode
  modifyFunctionCall : astNode → TM astNode
  modifyMemberExpression : astNode → TM astNode

/-- jsLoader.go:58-90. The `g_NAME` case looks the identifier up in the
(single, flat) `importedVars` map directly — not via
`getImportedVariable`. -/
def modifyAstBody (fns : TransformFns) (n : astNode) : TM astNode :=
  match n.t with
  | g_MEMBER_EXPRESSION => fns.modifyMemberExpression n
  | g_FUNCTION_CALL => fns.modifyFunctionCall n
  | g_EXPORT_STATEMENT => fns.modifyExport n
  | g_PROGRAM_STATEMENT => fns.modifyProgram n
  | g_IMPORT_STATEMENT => fns.modifyImport n
  | g_NAME => do
    let st ← tGet
    match st.importedVars n.value with
    | some importedVar => pure importedVar
    | none => pure n
  | _ => do
    let children ← tMapM fns.modifyAst n.children
    pure (astNode.mk n.t n.value children n.flags)

/-- jsLoader.go:92-107. Go evaluates `n.children[0].value == "module"`
first (a panic on no children) and `n.children[1].value == "exports"` only
if it held (a panic on one child). -/
def modifyMemberExpressionBody (fns : TransformFns) (n : astNode) : TM astNode := do
  let children ← tMapM fns.modifyAst n.children
  match children with
  | c0 :: rest =>
    if c0.value = "module" then
      match rest with
      | c1 :: rest' =>
        if c1.value = "exports" then
          pure (astNode.mk n.t n.value
            (astNode.mk c0.t "exports" c0.children c0.flags ::
             astNode.mk c1.t "default" c1.children c1.flags :: rest') n.flags)
        else
          pure (astNode.mk n.t n.value children n.flags)
      | [] => tThrow "index out of range"
    else
      pure (astNode.mk n.t n.value children n.flags)
  | [] => tThrow "index out of range"

/-- jsLoader.go:109-156. -/
def modifyImportBody (fileName : String) (fns : TransformFns) (n : astNode) :
    TM astNode := do
  let children ← tMapM fns.modifyAst n.children
  let c0 ← tIndex children 0
  let c1 ← tIndex children 1
  let c2 ← tIndex children 2
  let vars := c0.children
  let importAll := c1.value
  let importPath := c2.value
  let resolvedPath ← tResolve importPath fileName
  tAddImport resolvedPath
  let ext := filepathExt resolvedPath
  let objectName := CreateVarNameFromPath resolvedPath
  let object := makeNode g_NAME objectName []
  if importAll ≠ "" then
    tSetVar importAll object
  else
    pure ()
  tForM (fun v => do
    let alias0 ← tIndex v.children 1
    if ext = ".js" then do
      let property ← tIndex v.children 0
      let moduleName := makeNode g_NAME objectName []
      let modulesObj := makeNode g_NAME "modules" []
      let moduleMember := makeNode g_MEMBER_EXPRESSION "" [modulesObj, moduleName]
      let member := makeNode g_MEMBER_EXPRESSION "" [moduleMember, property]
      tSetVar alias0.value member
    else do
      let filePath := "'" ++ objectName ++ ext ++ "'"
      let fileURL := makeNode g_STRING_LITERAL filePath []
      tSetVar alias0.value fileURL) vars
  pure (makeNode g_EMPTY_EXPRESSION "" [])

/-- jsLoader.go:158-191. A `require` call with a single string-literal
argument becomes a member reference to the module's `default` slot, and the
resolved path is appended to `fileImports` (once per occurrence). -/
def modifyFunctionCallBody (fileName : String) (fns : TransformFns) (n : astNode) :
    TM astNode := do
  let children ← tMapM fns.modifyAst n.children
  let nameNode ← tIndex children 0
  let argsNode ← tIndex children 1
  let args := argsNode.children
  if nameNode.value = "require" then
    match args with
    | [a0] =>
      if a0.t = g_STRING_LITERAL then do
        let path := a0.value
        let resolvedPath ← tResolve path fileName
        tAddImport resolvedPath
        let objectName := CreateVarNameFromPath resolvedPath
        let moduleName := makeNode g_NAME objectName []
        let modulesObj := makeNode g_NAME "modules" []
        let moduleMember := makeNode g_MEMBER_EXPRESSION "" [modulesObj, moduleName]
        let defaultName := makeNode g_NAME "default" []
        let moduleDefaultExport := makeNode g_MEMBER_EXPRESSION "" [moduleMember, defaultName]
        pure moduleDefaultExport
      else
        -- fmt.Printf("Wrong arguments to require function")
        pure (astNode.mk n.t n.value children n.flags)
    | _ =>
      pure (astNode.mk n.t n.value children n.flags)
  else
    pure (astNode.mk n.t n.value children n.flags)

/-- jsLoader.go:193-237. Note that the source modifies the program's
children TWICE: once at lines 194-198 and again at lines 213-214. -/
def modifyProgramBody (fileName : String) (fns : TransformFns) (n : astNode) :
    TM astNode := do
  let children1 ← tMapM fns.modifyAst n.children
  let exportsObj := makeNode g_NAME "exports" []
  -- add var exports = {}
  let right := makeNode g_OBJECT_LITERAL "" []
  let decl := makeNode g_DECLARATOR "" [exportsObj, right]
  let declExpr := makeNode g_DECLARATION_EXPRESSION "var" [decl]
  let declSt := makeNode g_DECLARATION_STATEMENT "" [declExpr]
  -- add all other statements (second modification pass)
  let modified2 ← tMapM fns.modifyAst children1
  -- add return exports
  let ret := makeNode g_RETURN_STATEMENT "" [exportsObj]
  let statements := declSt :: modified2 ++ [ret]
  let params := makeNode g_FUNCTION_PARAMETERS "" []
  let blockSt := makeNode g_BLOCK_STATEMENT "" statements
  let funcExpr := makeNode g_FUNCTION_EXPRESSION "" [params, blockSt]
  let moduleFnsArray := makeNode g_NAME "moduleFns" []
  let moduleName := CreateVarNameFromPath fileName
  let prop := makeNode g_NAME moduleName []
  let memExpr := makeNode g_MEMBER_EXPRESSION "" [moduleFnsArray, prop]
  let assignmentExpr := makeNode g_EXPRESSION "=" [memExpr, funcExpr]
  let assignmentSt := makeNode g_EXPRESSION_STATEMENT "" [assignmentExpr]
  pure assignmentSt

/-- jsLoader.go:239-301. The `member` variable stays the zero `astNode`
when there is no `from` path. -/
def modifyExportBody (fileName : String) (fns : TransformFns) (n : astNode) :
    TM astNode := do
  let children ← tMapM fns.modifyAst n.children
  let c0 ← tIndex children 0
  let c1 ← tIndex children 1
  let c2 ← tIndex children 2
  let vars := c0.children
  let exportsObj := makeNode g_NAME "exports" []
  let member ←
    if c2.value ≠ "" then do
      let resolvedPath ← tResolve c2.value fileName
      tAddImport resolvedPath
      let objectName := CreateVarNameFromPath resolvedPath
      let importObj := makeNode g_NAME objectName []
      let modulesObj := makeNode g_NAME "modules" []
      pure (makeNode g_MEMBER_EXPRESSION "" [modulesObj, importObj])
    else
      pure zeroAstNode
  if ¬(n.flags &&& f_EXPORT_ALL ≠ 0) then do
    let assignments ← tMapM (fun v => do
      let exportedName ← tIndex v.children 1
      let left := makeNode g_MEMBER_EXPRESSION "" [exportsObj, exportedName]
      let right ←
        if c2.value ≠ "" then do
          let property ← tIndex v.children 0
          pure (makeNode g_MEMBER_EXPRESSION "" [member, property])
        else
          tIndex v.children 0
      pure (makeNode g_EXPRESSION "=" [left, right])) vars
    let seqExpr := makeNode g_SEQUENCE_EXPRESSION "=" assignments
    let exprSt := makeNode g_EXPRESSION_STATEMENT "" [seqExpr]
    let decl := c1
    pure (makeNode g_MULTISTATEMENT "" [decl, exprSt])
  else do
    let obj := makeNode g_NAME "Object" []
    let assign := makeNode g_NAME "assign" []
    let funcName := makeNode g_MEMBER_EXPRESSION "" [obj, assign]
    let argsNode := makeNode g_FUNCTION_ARGS "" [exportsObj, member]
    let objectAssignCall := makeNode g_FUNCTION_CALL "" [funcName, argsNode]
    pure (makeNode g_EXPRESSION_STATEMENT "" [objectAssignCall])

/-- The fuel-0 record: every closure fails with a model-artifact error. -/
def fuelOutTransformFns : TransformFns where
  modifyAst := fun _ => tThrow "fuel"
  modifyProgram := fun _ => tThrow "fuel"
  modifyImport := fun _ => tThrow "fuel"
  modifyExport := fun _ => tThrow "fuel"
  modifyFunctionCall := fun _ => tThrow "fuel"
  modifyMemberExpression := fun _ => tThrow "fuel"

/-- Ties the transformer closures' knot, fuel-indexed. -/
def mkTransformFns (fileName : String) (fuel : Nat) : TransformFns :=
  Nat.rec fuelOutTransformFns (fun _ fns => {
    modifyAst := modifyAstBody fns
    modifyProgram := modifyProgramBody fileName fns
    modifyImport := modifyImportBody fileName fns
    modifyExport := modifyExportBody fileName fns
    modifyFunctionCall := modifyFunctionCallBody fileName fns
    modifyMemberExpression := modifyMemberExpressionBody fns
  }) fuel

/-- Fuel-indexed entry points with the source names. -/
def modifyAst (fileName : String) (fuel : Nat) : astNode → TM astNode :=
  (mkTransformFns fileName fuel).modifyAst

def modifyFunctionCall (fileName : String) (fuel : Nat) : astNode → TM astNode :=
  (mkTransformFns fileName fuel).modifyFunctionCall

/-- jsLoader.go:48-308: run `modifyAst` on the root with a fresh context
(empty `importedVars`, `parent` nil) and empty `fileImports`, returning
the rewritten tree and the import list. -/
def transformIntoModule (fuel : Nat) (src : astNode) (fileName : String) :
    Except String (astNode × List String) :=
  match (mkTransformFns fileName fuel).modifyAst src ⟨[], fun _ => none⟩ with
  | .ok (res, st) => .ok (res, st.fileImports)
  | .error e => .error e

/-! ## The build orchestrator (src/unnamed/part_000)

Modelling conventions for package main:
- `fileCache.Data` (Go `[]byte`) is a `String` (the bundle is text).
- `time.Time` modification times are `Nat`s compared with `=` like Go's `==`.
- `bundleCache.Files` (a Go map) is a function `String → Option fileCache`.
- The `safeFile` output is the accumulated `bundleOut` string; `copyFile`
  destinations are recorded in `copied`.
- `addFileToBundle`/`addFilesToBundle` contain no `go` statement: the
  channel is only a sequential queue (each call runs to completion before
  the send), so the model runs the files in order and returns the first
  error read from the channel, after every launched call has run.
- `os.Stat`, `ioutil.ReadFile` and `jsLoader.LoadFile` (whose lexer file is
  absent from src/) are oracle parameters in `BuildEnv`.
- warnings printed by `fmt.Printf` are returned explicitly. -/

/-- part_000:45-50. -/
structure fileCache where
  Data : String
  LastModTime : Nat
  Imports : List String
  IsReachable : Bool
deriving DecidableEq, Repr

/-- The zero `fileCache{}` value (what a missing map key reads as). -/
def zeroFileCache : fileCache := ⟨"", 0, [], false⟩

/-- part_000:197-204. -/
def indexOfAux : List String → String → Nat → Int
  | [], _, _ => -1
  | x :: xs, str, i => if x = str then Int.ofNat i else indexOfAux xs str (i + 1)

def indexOf (arr : List String) (str : String) : Int :=
  indexOfAux arr str 0

/-- The filesystem/loader oracles consumed by `addFileToBundle`:
`stat p` is `os.Stat(p).ModTime()` (`none` = stat error), `readFile` is
`ioutil.ReadFile`, and `loadFile src p` stands for
`jsLoader.LoadFile(src, p)` — scanner → parser → transformer — whose
scanner lives in the lexer file absent from src/. -/
structure BuildEnv where
  stat : String → Option Nat
  readFile : String → Option String
  loadFile : String → String → Except String (String × List String)

/-- The mutable state threaded through a build: the shared cache map, the
bytes written to the bundle `safeFile`, and the `copyFile` destinations. -/
structure BuildState where
  cacheFiles : String → Option fileCache
  bundleOut : String
  copied : List String

/-- The errors sent on `errorCh` (part_000:290-297 and the `err` sends).
`fuelOut` is a model artifact for exhausted recursion fuel. -/
inductive buildError where
  | fileErr (err path : String)
  | readErr (path : String)
  | loadErr (msg : String)
  | fuelOut
deriving DecidableEq, Repr

/-- `cache.write` / the direct locked map writes. -/
def cacheWrite (st : BuildState) (k : String) (v : fileCache) : BuildState :=
  { st with cacheFiles := fun x => if x = k then some v else st.cacheFiles x }

mutual

/-- part_000:299-372. The structure mirrors the source exactly:
stat (missing file → `fileError`); the atomic claim step (already-reachable
entries are skipped, otherwise a reachable placeholder is written); the
mtime cache check; on a miss the `.js` load path (whose failures still call
`saveCache` with nil data/imports) or the asset copy path; then the bundle
write, the full `saveCache`, and the recursion into the imports. -/
def addFileToBundle (env : BuildEnv) :
    Nat → String → BuildState → BuildState × Option buildError
  | 0, _, st => (st, some .fuelOut)
  | fuel + 1, resolvedPath, st =>
    match env.stat resolvedPath with
    | none => (st, some (.fileErr ">>Error: cannot find file" resolvedPath))
    | some lastModTime =>
      match st.cacheFiles resolvedPath with
      | some cachedFile =>
        if cachedFile.IsReachable then
          (st, none)
        else
          let st1 := cacheWrite st resolvedPath ⟨"", 0, [], true⟩
          if cachedFile.LastModTime = lastModTime then
            -- cache hit: data := cachedFile.Data; fileImports := cachedFile.Imports
            let st2 := { st1 with bundleOut := st1.bundleOut ++ cachedFile.Data }
            let st3 := cacheWrite st2 resolvedPath
              ⟨cachedFile.Data, lastModTime, cachedFile.Imports, true⟩
            addFilesToBundle env fuel cachedFile.Imports st3
          else
            addFileToBundleLoad env fuel resolvedPath lastModTime st1
      | none =>
        let st1 := cacheWrite st resolvedPath ⟨"", 0, [], true⟩
        addFileToBundleLoad env fuel resolvedPath lastModTime st1
termination_by fuel _ _ => (fuel, 0, 0)

/-- The cache-miss branch of `addFileToBundle` (part_000:339-371): the
`switch filepath.Ext` plus the shared tail (write, saveCache, recursion). -/
def addFileToBundleLoad (env : BuildEnv) (fuel : Nat) (resolvedPath : String)
    (lastModTime : Nat) (st : BuildState) : BuildState × Option buildError :=
  let ext := filepathExt resolvedPath
  if ext = ".js" then
    match env.readFile resolvedPath with
    | none =>
      -- saveCache() with data and fileImports still nil, then errorCh <- err
      (cacheWrite st resolvedPath ⟨"", lastModTime, [], true⟩,
       some (.readErr resolvedPath))
    | some src =>
      match env.loadFile src resolvedPath with
      | .error m =>
        (cacheWrite st resolvedPath ⟨"", lastModTime, [], true⟩,
         some (.loadErr m))
      | .ok (data, fileImports) =>
        let st2 := { st with bundleOut := st.bundleOut ++ data }
        let st3 := cacheWrite st2 resolvedPath ⟨data, lastModTime, fileImports, true⟩
        addFilesToBundle env fuel fileImports st3
  else
    -- copy the asset; data and fileImports stay nil
    let dst := CreateVarNameFromPath resolvedPath ++ ext
    let st1 := { st with copied := st.copied ++ [dst] }
    let st3 := cacheWrite st1 resolvedPath ⟨"", lastModTime, [], true⟩
    addFilesToBundle env fuel [] st3
termination_by (fuel, 2, 0)

/-- part_000:269-288. Every call is synchronous (there is no `go`
statement), so all files run in order; the channel read loop returns the
first non-nil error. -/
def addFilesToBundle (env : BuildEnv) :
    Nat → List String → BuildState → BuildState × Option buildError
  | _, [], st => (st, none)
  | fuel, f :: rest, st =>
    let (st1, err1) := addFileToBundle env fuel f st
    let (st2, errRest) := addFilesToBundle env fuel rest st1
    (st2, match err1 with
          | some e => some e
          | none => errRest)
termination_by fuel files _ => (fuel, 1, files.length)

end

mutual

/-- The recursive `createImportTree` closure of `getJsBundleFileTail`
(part_000:237-260): skip non-`.js` names, warn and cut on a cycle
(the current file already on `path`), otherwise recurse into the cached
imports post-order and append the quoted module name if absent. -/
def createImportTree (cacheFiles : String → Option fileCache) :
    Nat → String → List String → List String × List String →
    List String × List String
  | 0, _, _, acc => acc
  | fuel + 1, fileName, path, (moduleOrder, warnings) =>
    if filepathExt fileName ≠ ".js" then
      (moduleOrder, warnings)
    else
      let i := indexOf path fileName
      if i ≥ 0 then
        (moduleOrder,
         warnings ++ [goJoin (path.drop i.toNat ++ [fileName]) " -> "])
      else
        let file := (cacheFiles fileName).getD zeroFileCache
        let (mo, warn) :=
          createImportTreeList cacheFiles fuel file.Imports (path ++ [fileName])
            (moduleOrder, warnings)
        let moduleName := "'" ++ CreateVarNameFromPath fileName ++ "'"
        if indexOf mo moduleName < 0 then
          (mo ++ [moduleName], warn)
        else
          (mo, warn)
termination_by fuel _ _ _ => (fuel, 0, 0)

/-- The `for _, importPath := range file.Imports` loop
(part_000:252-254). -/
def createImportTreeList (cacheFiles : String → Option fileCache) :
    Nat → List String → List String → List String × List String →
    List String × List String
  | _, [], _, acc => acc
  | fuel, imp :: rest, path, acc =>
    createImportTreeList cacheFiles fuel rest path
      (createImportTree cacheFiles fuel imp path acc)
termination_by fuel imports _ _ => (fuel, 1, imports.length)

end

/-- part_000:234-267: returns (tail bytes, warnings printed). -/
def getJsBundleFileTail (fuel : Nat) (entryFileName : String)
    (cacheFiles : String → Option fileCache) : String × List String :=
  let (moduleOrder, warnings) :=
    createImportTree cacheFiles fuel entryFileName [] ([], [])
  let jsModuleOrder := "var moduleOrder = [" ++ goJoin moduleOrder "," ++ "];"
  (jsModuleOrder ++
   "moduleOrder.forEach((moduleName)=>modules[moduleName]=moduleFns[moduleName]())",
   warnings)

/-- The runtime preamble written at part_000:221. -/
def bundlePreamble : String :=
  "var moduleFns=\x7b\x7d,modules=\x7b\x7d;var process=\x7benv:\x7bNODE_ENV:'development'\x7d\x7d;"

/-- What a finished `createBundle` leaves behind. -/
structure BundleResult where
  bundle : String
  cacheFiles : String → Option fileCache
  copied : List String
  warnings : List String
  err : Option buildError

/-- part_000:206-232. `prevBundle` is the content of the output file before
the build: `os.Remove(bundleFileName)` followed by `os.Create` deletes it
unconditionally (the model discards the argument), every cache entry is
marked unreachable, the preamble is written, the traversal runs from the
entry file, and the tail is written REGARDLESS of the traversal error. -/
def createBundle (env : BuildEnv) (fuel : Nat) (entryFileName : String)
    (prevBundle : Option String)
    (cacheFiles0 : String → Option fileCache) : BundleResult :=
  let cacheFiles1 := fun k =>
    (cacheFiles0 k).map (fun f => { f with IsReachable := false })
  let st0 : BuildState := ⟨cacheFiles1, bundlePreamble, []⟩
  let (st1, err) := addFilesToBundle env fuel [entryFileName] st0
  let (tail, warnings) := getJsBundleFileTail fuel entryFileName st1.cacheFiles
  { bundle := st1.bundleOut ++ tail
    cacheFiles := st1.cacheFiles
    copied := st1.copied
    warnings := warnings
    err := err }

/-! ## Concrete fixtures used by the theorems below -/

def nameTok (s : String) : token := ⟨tNAME, s, 1, 1⟩

def eoiTok : token := ⟨tEND_OF_INPUT, "", 1, 1⟩

/-- The token sequence of the source text `]` (an unexpected token at
index 0, far less than 5 tokens from the start of the sequence). -/
def c5Tokens : List token := [⟨tBRACKET_RIGHT, "]", 1, 1⟩, eoiTok]

/-- Token sequence `a o1 b o2 c` for two binary operator tokens. -/
def exprTokens (o1 o2 : token) : List token :=
  [nameTok "a", o1, nameTok "b", o2, nameTok "c", eoiTok]

def exprState (o1 o2 : token) : parserState :=
  ⟨exprTokens o1 o2, 0, nameTok "a", false⟩

def nm (s : String) : astNode := makeNode g_NAME s []

def binNode (op : String) (l r : astNode) : astNode :=
  makeNode g_EXPRESSION op [l, r]

/-- A call-style require of the path literal `p`. -/
def requireCall (p : String) : astNode :=
  makeNode g_FUNCTION_CALL ""
    [makeNode g_NAME "require" [],
     makeNode g_FUNCTION_ARGS "" [makeNode g_STRING_LITERAL p []]]

def exprStatement (e : astNode) : astNode :=
  makeNode g_EXPRESSION_STATEMENT "" [e]

/-- A program whose single function body requires `./m.js` twice. -/
def c2Program : astNode :=
  makeNode g_PROGRAM_STATEMENT ""
    [makeNode g_FUNCTION_DECLARATION "f"
      [makeNode g_FUNCTION_PARAMETERS "" [],
       makeNode g_BLOCK_STATEMENT ""
         [exprStatement (requireCall "'./m.js'"),
          exprStatement (requireCall "'./m.js'")]]]

/-- `modules.<name>.default`, the rewrite target of a call-style require. -/
def defaultMember (resolvedPath : String) : astNode :=
  makeNode g_MEMBER_EXPRESSION ""
    [makeNode g_MEMBER_EXPRESSION ""
      [makeNode g_NAME "modules" [],
       makeNode g_NAME (CreateVarNameFromPath resolvedPath) []],
     makeNode g_NAME "default" []]

/-- `import v from './m.js';` as parsed (see `parseImportStatement`). -/
def c3Import : astNode :=
  makeNode g_IMPORT_STATEMENT ""
    [makeNode g_IMPORT_VARS ""
      [makeNode g_IMPORT_VAR ""
        [makeNode g_IMPORT_NAME "default" [], makeNode g_IMPORT_ALIAS "v" []]],
     astNode.mk g_IMPORT_ALL "" [] 0,
     astNode.mk g_IMPORT_PATH "'./m.js'" [] 0]

/-- `function f(v) { return v; }`: the nested scope re-declares `v`. -/
def c3Function : astNode :=
  makeNode g_FUNCTION_DECLARATION "f"
    [makeNode g_FUNCTION_PARAMETERS ""
      [makeNode g_FUNCTION_PARAMETER "" [makeNode g_NAME "v" []]],
     makeNode g_BLOCK_STATEMENT ""
       [makeNode g_RETURN_STATEMENT "" [makeNode g_NAME "v" []]]]

def c3Program : astNode :=
  makeNode g_PROGRAM_STATEMENT "" [c3Import, c3Function]

/-- What `modifyImport` binds `v` to for `import v from './m.js'` in
`src/a.js`: `modules.src_m_js.<default>` (the property child is the
`g_IMPORT_NAME` node itself). -/
def c3ImportedMember : astNode :=
  makeNode g_MEMBER_EXPRESSION ""
    [makeNode g_MEMBER_EXPRESSION ""
      [makeNode g_NAME "modules" [], makeNode g_NAME "src_m_js" []],
     astNode.mk g_IMPORT_NAME "default" [] 0]

/-- A filesystem in which nothing exists (every `os.Stat` fails). -/
def c1Env : BuildEnv := ⟨fun _ => none, fun _ => none, fun _ _ => .error "unused"⟩

def emptyCache : String → Option fileCache := fun _ => none

/-- The three-file import cycle a.js → b.js → c.js → a.js, as cached
dependency lists. -/
def c7Cache : String → Option fileCache := fun k =>
  if k = "a.js" then some ⟨"", 0, ["b.js"], false⟩
  else if k = "b.js" then some ⟨"", 0, ["c.js"], false⟩
  else if k = "c.js" then some ⟨"", 0, ["a.js"], false⟩
  else none

/-- An environment for cache-behaviour witnesses: every file has mtime 5,
reads "src" and loads to "DATA;" with no imports. -/
def c8Env : BuildEnv :=
  ⟨fun _ => some 5, fun _ => some "src", fun _ _ => .ok ("DATA;", [])⟩

/-- An environment whose reads fail (for the cache-poisoning witness). -/
def c10Env : BuildEnv :=
  ⟨fun _ => some 5, fun _ => none, fun _ _ => .error "unused"⟩

/-- An environment whose reads succeed but whose scan/parse/transform
(`jsLoader.LoadFile`) fails (for the parse-failure half of the
cache-poisoning witness). -/
def c10LoadEnv : BuildEnv :=
  ⟨fun _ => some 5, fun _ => some "src", fun _ _ => .error "parse error"⟩

/-- The nested-function shape shared by `c3Function` and its rewrite: the
parameter/body occurrences of the bound name are `v`. -/
def nestedFunc (v : astNode) : astNode :=
  makeNode g_FUNCTION_DECLARATION "f"
    [makeNode g_FUNCTION_PARAMETERS ""
      [makeNode g_FUNCTION_PARAMETER "" [v]],
     makeNode g_BLOCK_STATEMENT ""
       [makeNode g_RETURN_STATEMENT "" [v]]]

/-- `c3Function` after the transformer replaced the name `v` (everywhere,
including inside the nested scope) by the imported member expression. -/
def c3RewrittenFunction : astNode := nestedFunc c3ImportedMember

/-- Projects the `fileImports` component out of a `transformIntoModule`
result. -/
def transformImports (r : Except String (astNode × List String)) :
    Option (List String) :=
  match r with
  | .ok (_, imps) => some imps
  | .error _ => none

/-- Extracts, from a transformed `c3Program`, the node at the position of
the nested `g_NAME "v"` inside the function declaration (program child 1 →
declaration, its child 1 → block, its child 2 as written by `tForM`). -/
def c3ExtractNested (r : Except String (astNode × List String)) :
    Option astNode :=
  match r with
  | .ok (t, _) =>
    some ((((t.children.headD zeroAstNode).children.getD 1 zeroAstNode).children.getD
      1 zeroAstNode).children.getD 2 zeroAstNode)
  | .error _ => none

/-! ## Evaluation infrastructure

Pointwise `apply` lemmas for the two state monads and fuel-unfolding
lemmas for the tied-knot records; together they let `simp` execute the
embedded functions symbolically, one equation at a time. -/

@[simp] theorem PM_bind_apply {α β : Type} (m : PM α) (f : α → PM β) (s : parserState) :
    (m >>= f) s = match m s with
      | .ok (a, s') => f a s'
      | .error e => .error e := rfl

@[simp] theorem PM_pure_apply {α : Type} (a : α) (s : parserState) :
    (Pure.pure a : PM α) s = .ok (a, s) := rfl

@[simp] theorem pGet_apply (s : parserState) : pGet s = .ok (s, s) := rfl

@[simp] theorem pSet_apply (s s' : parserState) : pSet s' s = .ok ((), s') := rfl

@[simp] theorem pThrow_apply {α : Type} (e : goPanic) (s : parserState) :
    (pThrow e : PM α) s = .error e := rfl

@[simp] theorem liftE_apply {α : Type} (e : Except goPanic α) (s : parserState) :
    liftE e s = match e with
      | .ok a => .ok (a, s)
      | .error err => .error err := rfl

@[simp] theorem setGlobalFlagIsInsideForIn_apply (b : Bool) (s : parserState) :
    setGlobalFlagIsInsideForIn b s = .ok ((), { s with globalFlagIsInsideForIn := b }) := rfl

@[simp] theorem TM_bind_apply {α β : Type} (m : TM α) (f : α → TM β) (s : TState) :
    (m >>= f) s = match m s with
      | .ok (a, s') => f a s'
      | .error e => .error e := rfl

@[simp] theorem TM_pure_apply {α : Type} (a : α) (s : TState) :
    (Pure.pure a : TM α) s = .ok (a, s) := rfl

@[simp] theorem tGet_apply (s : TState) : tGet s = .ok (s, s) := rfl

@[simp] theorem tThrow_apply {α : Type} (e : String) (s : TState) :
    (tThrow e : TM α) s = .error e := rfl

@[simp] theorem tSetVar_apply (k : String) (v : astNode) (s : TState) :
    tSetVar k v s =
      .ok ((), { s with importedVars := fun x => if x = k then some v else s.importedVars x }) := rfl

@[simp] theorem tAddImport_apply (x : String) (s : TState) :
    tAddImport x s = .ok ((), { s with fileImports := s.fileImports ++ [x] }) := rfl

@[simp] theorem mkParserFns_parseProgramLoop (n : Nat) :
    (mkParserFns (n + 1)).parseProgramLoop = parseProgramLoopBody (mkParserFns n) := rfl

@[simp] theorem mkParserFns_parseTryCatchStatement (n : Nat) :
    (mkParserFns (n + 1)).parseTryCatchStatement = parseTryCatchStatementBody (mkParserFns n) := rfl

@[simp] theorem mkParserFns_parseStatement (n : Nat) :
    (mkParserFns (n + 1)).parseStatement = parseStatementBody (mkParserFns n) := rfl

@[simp] theorem mkParserFns_parseStatementSwitch (n : Nat) :
    (mkParserFns (n + 1)).parseStatementSwitch = parseStatementSwitchBody (mkParserFns n) := rfl

@[simp] theorem mkParserFns_parseExportStatement (n : Nat) :
    (mkParserFns (n + 1)).parseExportStatement = parseExportStatementBody (mkParserFns n) := rfl

@[simp] theorem mkParserFns_parseExportBraceLoop (n : Nat) :
    (mkParserFns (n + 1)).parseExportBraceLoop = parseExportBraceLoopBody (mkParserFns n) := rfl

@[simp] theorem mkParserFns_parseSwitchStatement (n : Nat) :
    (mkParserFns (n + 1)).parseSwitchStatement = parseSwitchStatementBody (mkParserFns n) := rfl

@[simp] theorem mkParserFns_parseSwitchCasesLoop (n : Nat) :
    (mkParserFns (n + 1)).parseSwitchCasesLoop = parseSwitchCasesLoopBody (mkParserFns n) := rfl

@[simp] theorem mkParserFns_parseSwitchCaseStatementsLoop (n : Nat) :
    (mkParserFns (n + 1)).parseSwitchCaseStatementsLoop = parseSwitchCaseStatementsLoopBody (mkParserFns n) := rfl

@[simp] theorem mkParserFns_parseDeclarationStatement (n : Nat) :
    (mkParserFns (n + 1)).parseDeclarationStatement = parseDeclarationStatementBody (mkParserFns n) := rfl

@[simp] theorem mkParserFns_parseDeclarationExpression (n : Nat) :
    (mkParserFns (n + 1)).parseDeclarationExpression = parseDeclarationExpressionBody (mkParserFns n) := rfl

@[simp] theorem mkParserFns_parseDeclaratorLoop (n : Nat) :
    (mkParserFns (n + 1)).parseDeclaratorLoop = parseDeclaratorLoopBody (mkParserFns n) := rfl

@[simp] theorem mkParserFns_parseForStatement (n : Nat) :
    (mkParserFns (n + 1)).parseForStatement = parseForStatementBody (mkParserFns n) := rfl

@[simp] theorem mkParserFns_parseIfStatement (n : Nat) :
    (mkParserFns (n + 1)).parseIfStatement = parseIfStatementBody (mkParserFns n) := rfl

@[simp] theorem mkParserFns_parseWhileStatement (n : Nat) :
    (mkParserFns (n + 1)).parseWhileStatement = parseWhileStatementBody (mkParserFns n) := rfl

@[simp] theorem mkParserFns_parseDoWhileStatement (n : Nat) :
    (mkParserFns (n + 1)).parseDoWhileStatement = parseDoWhileStatementBody (mkParserFns n) := rfl

@[simp] theorem mkParserFns_parseFunctionDeclaration (n : Nat) :
    (mkParserFns (n + 1)).parseFunctionDeclaration = parseFunctionDeclarationBody (mkParserFns n) := rfl

@[simp] theorem mkParserFns_parseExpressionStatement (n : Nat) :
    (mkParserFns (n + 1)).parseExpressionStatement = parseExpressionStatementBody (mkParserFns n) := rfl

@[simp] theorem mkParserFns_parseReturnStatement (n : Nat) :
    (mkParserFns (n + 1)).parseReturnStatement = parseReturnStatementBody (mkParserFns n) := rfl

@[simp] theorem mkParserFns_parseExpression (n : Nat) :
    (mkParserFns (n + 1)).parseExpression = parseExpressionBody (mkParserFns n) := rfl

@[simp] theorem mkParserFns_parseSequence (n : Nat) :
    (mkParserFns (n + 1)).parseSequence = parseSequenceBody (mkParserFns n) := rfl

@[simp] theorem mkParserFns_parseSequenceLoop (n : Nat) :
    (mkParserFns (n + 1)).parseSequenceLoop = parseSequenceLoopBody (mkParserFns n) := rfl

@[simp] theorem mkParserFns_parseYield (n : Nat) :
    (mkParserFns (n + 1)).parseYield = parseYieldBody (mkParserFns n) := rfl

@[simp] theorem mkParserFns_parseAssignment (n : Nat) :
    (mkParserFns (n + 1)).parseAssignment = parseAssignmentBody (mkParserFns n) := rfl

@[simp] theorem mkParserFns_parseAssignmentPattern (n : Nat) :
    (mkParserFns (n + 1)).parseAssignmentPattern = parseAssignmentPatternBody (mkParserFns n) := rfl

@[simp] theorem mkParserFns_parseObjectPattern (n : Nat) :
    (mkParserFns (n + 1)).parseObjectPattern = parseObjectPatternBody (mkParserFns n) := rfl

@[simp] theorem mkParserFns_parseObjectPatternLoop (n : Nat) :
    (mkParserFns (n + 1)).parseObjectPatternLoop = parseObjectPatternLoopBody (mkParserFns n) := rfl

@[simp] theorem mkParserFns_parseConditional (n : Nat) :
    (mkParserFns (n + 1)).parseConditional = parseConditionalBody (mkParserFns n) := rfl

@[simp] theorem mkParserFns_parseBinary (n : Nat) :
    (mkParserFns (n + 1)).parseBinary = parseBinaryBody (mkParserFns n) := rfl

@[simp] theorem mkParserFns_parseBinaryLoop (n : Nat) :
    (mkParserFns (n + 1)).parseBinaryLoop = parseBinaryLoopBody (mkParserFns n) := rfl

@[simp] theorem mkParserFns_parsePrefixUnary (n : Nat) :
    (mkParserFns (n + 1)).parsePrefixUnary = parsePrefixUnaryBody (mkParserFns n) := rfl

@[simp] theorem mkParserFns_parsePostfixUnary (n : Nat) :
    (mkParserFns (n + 1)).parsePostfixUnary = parsePostfixUnaryBody (mkParserFns n) := rfl

@[simp] theorem mkParserFns_parseFunctionArgs (n : Nat) :
    (mkParserFns (n + 1)).parseFunctionArgs = parseFunctionArgsBody (mkParserFns n) := rfl

@[simp] theorem mkParserFns_parseFunctionArgsLoop (n : Nat) :
    (mkParserFns (n + 1)).parseFunctionArgsLoop = parseFunctionArgsLoopBody (mkParserFns n) := rfl

@[simp] theorem mkParserFns_parseFunctionCallOrMember (n : Nat) :
    (mkParserFns (n + 1)).parseFunctionCallOrMember = parseFunctionCallOrMemberBody (mkParserFns n) := rfl

@[simp] theorem mkParserFns_parseFCMLoop (n : Nat) :
    (mkParserFns (n + 1)).parseFCMLoop = parseFCMLoopBody (mkParserFns n) := rfl

@[simp] theorem mkParserFns_parseConstructorCall (n : Nat) :
    (mkParserFns (n + 1)).parseConstructorCall = parseConstructorCallBody (mkParserFns n) := rfl

@[simp] theorem mkParserFns_parseAtom (n : Nat) :
    (mkParserFns (n + 1)).parseAtom = parseAtomBody (mkParserFns n) := rfl

@[simp] theorem mkParserFns_parseRegexp (n : Nat) :
    (mkParserFns (n + 1)).parseRegexp = parseRegexpBody (mkParserFns n) := rfl

@[simp] theorem mkParserFns_parseRegexpLoop (n : Nat) :
    (mkParserFns (n + 1)).parseRegexpLoop = parseRegexpLoopBody (mkParserFns n) := rfl

@[simp] theorem mkParserFns_parseParensOrLambda (n : Nat) :
    (mkParserFns (n + 1)).parseParensOrLambda = parseParensOrLambdaBody (mkParserFns n) := rfl

@[simp] theorem mkParserFns_parseFunctionParameters (n : Nat) :
    (mkParserFns (n + 1)).parseFunctionParameters = parseFunctionParametersBody (mkParserFns n) := rfl

@[simp] theorem mkParserFns_parseFunctionParametersLoop (n : Nat) :
    (mkParserFns (n + 1)).parseFunctionParametersLoop = parseFunctionParametersLoopBody (mkParserFns n) := rfl

@[simp] theorem mkParserFns_parseFunctionExpression (n : Nat) :
    (mkParserFns (n + 1)).parseFunctionExpression = parseFunctionExpressionBody (mkParserFns n) := rfl

@[simp] theorem mkParserFns_parseObjectLiteral (n : Nat) :
    (mkParserFns (n + 1)).parseObjectLiteral = parseObjectLiteralBody (mkParserFns n) := rfl

@[simp] theorem mkParserFns_parseObjectLiteralLoop (n : Nat) :
    (mkParserFns (n + 1)).parseObjectLiteralLoop = parseObjectLiteralLoopBody (mkParserFns n) := rfl

@[simp] theorem mkParserFns_parseMemberFunction (n : Nat) :
    (mkParserFns (n + 1)).parseMemberFunction = parseMemberFunctionBody (mkParserFns n) := rfl

@[simp] theorem mkParserFns_parseArrayLiteral (n : Nat) :
    (mkParserFns (n + 1)).parseArrayLiteral = parseArrayLiteralBody (mkParserFns n) := rfl

@[simp] theorem mkParserFns_parseArrayLiteralLoop (n : Nat) :
    (mkParserFns (n + 1)).parseArrayLiteralLoop = parseArrayLiteralLoopBody (mkParserFns n) := rfl

@[simp] theorem mkParserFns_parseLambdaOrName (n : Nat) :
    (mkParserFns (n + 1)).parseLambdaOrName = parseLambdaOrNameBody (mkParserFns n) := rfl

@[simp] theorem mkParserFns_parseBlockStatement (n : Nat) :
    (mkParserFns (n + 1)).parseBlockStatement = parseBlockStatementBody (mkParserFns n) := rfl

@[simp] theorem mkParserFns_parseBlockStatementLoop (n : Nat) :
    (mkParserFns (n + 1)).parseBlockStatementLoop = parseBlockStatementLoopBody (mkParserFns n) := rfl

@[simp] theorem mkParserFns_parseFunctionParameter (n : Nat) :
    (mkParserFns (n + 1)).parseFunctionParameter = parseFunctionParameterBody (mkParserFns n) := rfl

@[simp] theorem mkParserFns_parseDeclarator (n : Nat) :
    (mkParserFns (n + 1)).parseDeclarator = parseDeclaratorBody (mkParserFns n) := rfl

@[simp] theorem mkParserFns_parseDeclaratorTail (n : Nat) :
    (mkParserFns (n + 1)).parseDeclaratorTail = parseDeclaratorTailBody (mkParserFns n) := rfl

@[simp] theorem mkParserFns_parseCalculatedPropertyName (n : Nat) :
    (mkParserFns (n + 1)).parseCalculatedPropertyName = parseCalculatedPropertyNameBody (mkParserFns n) := rfl

@[simp] theorem mkParserFns_parseImportStatement (n : Nat) :
    (mkParserFns (n + 1)).parseImportStatement = parseImportStatementBody (mkParserFns n) := rfl

@[simp] theorem mkParserFns_parseImportBraceLoop (n : Nat) :
    (mkParserFns (n + 1)).parseImportBraceLoop = parseImportBraceLoopBody (mkParserFns n) := rfl

@[simp] theorem mkTransformFns_modifyAst (fileName : String) (n : Nat) :
    (mkTransformFns fileName (n + 1)).modifyAst = modifyAstBody (mkTransformFns fileName n) := rfl

@[simp] theorem mkTransformFns_modifyProgram (fileName : String) (n : Nat) :
    (mkTransformFns fileName (n + 1)).modifyProgram = modifyProgramBody fileName (mkTransformFns fileName n) := rfl

@[simp] theorem mkTransformFns_modifyImport (fileName : String) (n : Nat) :
    (mkTransformFns fileName (n + 1)).modifyImport = modifyImportBody fileName (mkTransformFns fileName n) := rfl

@[simp] theorem mkTransformFns_modifyExport (fileName : String) (n : Nat) :
    (mkTransformFns fileName (n + 1)).modifyExport = modifyExportBody fileName (mkTransformFns fileName n) := rfl

@[simp] theorem mkTransformFns_modifyFunctionCall (fileName : String) (n : Nat) :
    (mkTransformFns fileName (n + 1)).modifyFunctionCall = modifyFunctionCallBody fileName (mkTransformFns fileName n) := rfl

@[simp] theorem mkTransformFns_modifyMemberExpression (fileName : String) (n : Nat) :
    (mkTransformFns fileName (n + 1)).modifyMemberExpression = modifyMemberExpressionBody (mkTransformFns fileName n) := rfl

set_option maxHeartbeats 1000000
set_option maxRecDepth 10000

/-! ## Side facts (small `rfl` evaluations shared by several proofs) -/

theorem ext_a : filepathExt "a.js" = ".js" := rfl

theorem ext_b : filepathExt "b.js" = ".js" := rfl

theorem ext_c : filepathExt "c.js" = ".js" := rfl

theorem ext_i : filepathExt "index.js" = ".js" := rfl

theorem vn_a : CreateVarNameFromPath "a.js" = "a_js" := rfl

theorem vn_b : CreateVarNameFromPath "b.js" = "b_js" := rfl

theorem vn_c : CreateVarNameFromPath "c.js" = "c_js" := rfl

theorem vn_i : CreateVarNameFromPath "index.js" = "index_js" := rfl

theorem resolve_m : resolveES6ImportPath "'./m.js'" "src/a.js" = some "src/m.js" := rfl

theorem varname_m : CreateVarNameFromPath "src/m.js" = "src_m_js" := rfl

theorem ext_m : filepathExt "src/m.js" = ".js" := rfl

/-! ## Helper lemmas for the import-path resolver (C9) -/

/-- Once no `.`/`..` segments remain, the elimination loop leaves both lists
unchanged. -/
theorem resolveDotLoopNoDots :
    ∀ (parts loc pp : List String),
      (∀ s ∈ parts, s ≠ "." ∧ s ≠ "..") →
      resolveDotLoop parts loc pp = some (loc, pp) := by
  intro parts
  induction parts with
  | nil => intro loc pp _; rfl
  | cons x xs ih =>
    intro loc pp h
    have hx := h x (by simp)
    simp [resolveDotLoop, hx.1, hx.2]
    exact ih loc pp (fun s hs => h s (by simp [hs]))

/-! ## Helper lemmas for the invocation-order traversal (C7) -/

theorem indexOfAuxNeg (str : String) :
    ∀ (l : List String) (i : Nat), indexOfAux l str i < 0 ↔ str ∉ l := by
  intro l
  induction l with
  | nil => intro i; simp [indexOfAux]
  | cons x xs ih =>
    intro i
    by_cases hx : x = str
    · subst hx
      simp [indexOfAux]
    · simp [indexOfAux, hx, ih (i + 1), Ne.symm hx]

theorem indexOfNeg (l : List String) (str : String) :
    indexOf l str < 0 ↔ str ∉ l := indexOfAuxNeg str l 0

theorem citListPrefixMono (c : String → Option fileCache) (fuel : Nat)
    (hcit : ∀ f path mo w, mo <+: (createImportTree c fuel f path (mo, w)).1) :
    ∀ (imports : List String) (path : List String) (mo w : List String),
      mo <+: (createImportTreeList c fuel imports path (mo, w)).1 := by
  intro imports
  induction imports with
  | nil => intro path mo w; simp [createImportTreeList]
  | cons imp rest ih =>
    intro path mo w
    rw [createImportTreeList]
    rcases h : createImportTree c fuel imp path (mo, w) with ⟨mo1, w1⟩
    exact (h ▸ hcit imp path mo w).trans (ih path mo1 w1)

/-- Whatever the traversal does, the accumulated module order only grows at
the end: the incoming order is a list-prefix of the outgoing one. -/
theorem citPrefixMono (c : String → Option fileCache) :
    ∀ (fuel : Nat) (f : String) (path mo w : List String),
      mo <+: (createImportTree c fuel f path (mo, w)).1 := by
  intro fuel
  induction fuel with
  | zero => intro f path mo w; simp [createImportTree]
  | succ n ih =>
    intro f path mo w
    by_cases hext : filepathExt f = ".js"
    · by_cases hcyc : indexOf path f ≥ 0
      · simp [createImportTree, hext, hcyc]
      · rw [createImportTree]
        simp only [hext, hcyc, ite_true, ite_false, ne_eq,
          not_true_eq_false, not_false_eq_true, reduceIte]
        rcases h : createImportTreeList c n ((c f).getD zeroFileCache).Imports
          (path ++ [f]) (mo, w) with ⟨mo1, w1⟩
        have hpre : mo <+: mo1 := by
          have := citListPrefixMono c n ih ((c f).getD zeroFileCache).Imports
            (path ++ [f]) mo w
          rwa [h] at this
        by_cases hdup : indexOf mo1 ("'" ++ CreateVarNameFromPath f ++ "'") < 0
        · simp only [hdup, reduceIte, ite_true]
          exact hpre.trans ⟨["'" ++ CreateVarNameFromPath f ++ "'"], rfl⟩
        · simp only [hdup, reduceIte, ite_false]
          exact hpre
    · simp [createImportTree, hext]

theorem citListNodup (c : String → Option fileCache) (fuel : Nat)
    (hcit : ∀ f path mo w, (mo : List String).Nodup →
      (createImportTree c fuel f path (mo, w)).1.Nodup) :
    ∀ (imports : List String) (path : List String) (mo w : List String),
      mo.Nodup → (createImportTreeList c fuel imports path (mo, w)).1.Nodup := by
  intro imports
  induction imports with
  | nil => intro path mo w h; simpa [createImportTreeList] using h
  | cons imp rest ih =>
    intro path mo w h
    rw [createImportTreeList]
    rcases hh : createImportTree c fuel imp path (mo, w) with ⟨mo1, w1⟩
    exact ih path mo1 w1 (by have := hcit imp path mo w h; rwa [hh] at this)

/-- The `indexOf moduleOrder moduleName < 0` guard keeps the module order
duplicate-free. -/
theorem citNodup (c : String → Option fileCache) :
    ∀ (fuel : Nat) (f : String) (path mo w : List String),
      mo.Nodup → (createImportTree c fuel f path (mo, w)).1.Nodup := by
  intro fuel
  induction fuel with
  | zero => intro f path mo w h; simpa [createImportTree] using h
  | succ n ih =>
    intro f path mo w h
    by_cases hext : filepathExt f = ".js"
    · by_cases hcyc : indexOf path f ≥ 0
      · simpa [createImportTree, hext, hcyc] using h
      · rw [createImportTree]
        simp only [hext, hcyc, ite_true, ite_false, ne_eq,
          not_true_eq_false, not_false_eq_true, reduceIte]
        rcases hh : createImportTreeList c n ((c f).getD zeroFileCache).Imports
          (path ++ [f]) (mo, w) with ⟨mo1, w1⟩
        have hnd : mo1.Nodup := by
          have := citListNodup c n ih ((c f).getD zeroFileCache).Imports
            (path ++ [f]) mo w h
          rwa [hh] at this
        by_cases hdup : indexOf mo1 ("'" ++ CreateVarNameFromPath f ++ "'") < 0
        · simp only [hdup, reduceIte, ite_true]
          have hnotin := (indexOfNeg mo1 _).mp hdup
          simp [List.nodup_append, hnd, hnotin]
        · simp only [hdup, reduceIte, ite_false]
          exact hnd
    · simpa [createImportTree, hext] using h

/-- Visiting a `.js` file not already on the current path puts its quoted
module name into the order (it is either appended, or the append is skipped
precisely because it is already there). -/
theorem citMem (c : String → Option fileCache) (fuel : Nat) (f : String)
    (path mo w : List String)
    (hext : filepathExt f = ".js") (hnc : ¬ indexOf path f ≥ 0) :
    ("'" ++ CreateVarNameFromPath f ++ "'") ∈
      (createImportTree c (fuel + 1) f path (mo, w)).1 := by
  rw [createImportTree]
  simp only [hext, hnc, ite_true, ite_false, ne_eq, not_true_eq_false,
    not_false_eq_true, reduceIte]
  rcases hh : createImportTreeList c fuel ((c f).getD zeroFileCache).Imports
    (path ++ [f]) (mo, w) with ⟨mo1, w1⟩
  by_cases hdup : indexOf mo1 ("'" ++ CreateVarNameFromPath f ++ "'") < 0
  · simp [hdup]
  · simp only [hdup, reduceIte, ite_false]
    exact not_not.mp (fun hno => hdup ((indexOfNeg mo1 _).mpr hno))

/-! ## Helper lemmas for `parseBinary` (C6): symbolic execution of the
token sequence `a o1 b o2 c` for arbitrary binary-operator tokens. -/

theorem operatorTable_filters (t : tokenType) (op : opInfo)
    (h : operatorTable t = some op) :
    t ≠ tNEWLINE ∧ t ≠ tLAMBDA ∧ t ≠ tPAREN_LEFT ∧ t ≠ tDOT ∧
    t ≠ tBRACKET_LEFT ∧ t ≠ tINC ∧ t ≠ tDEC := by
  cases t <;> simp_all [operatorTable]

theorem cA_lam (o1 o2 : token) (op1 : opInfo)
    (h1 : operatorTable o1.tType = some op1) :
    parseLambdaOrNameBody (mkParserFns 22) (⟨[⟨tNAME, "a", 1, 1⟩, o1, ⟨tNAME, "b", 1, 1⟩, o2, ⟨tNAME, "c", 1, 1⟩, ⟨tEND_OF_INPUT, "", 1, 1⟩], 1, o1, false⟩ : parserState) = .ok (nm "a", (⟨[⟨tNAME, "a", 1, 1⟩, o1, ⟨tNAME, "b", 1, 1⟩, o2, ⟨tNAME, "c", 1, 1⟩, ⟨tEND_OF_INPUT, "", 1, 1⟩], 1, o1, false⟩ : parserState)) := by
  obtain ⟨hNL, hLAM, hPL, hDOT, hBL, hINC, hDEC⟩ := operatorTable_filters _ _ h1
  unfold parseLambdaOrNameBody
  simp [hNL, hLAM, accept, acceptSkipNewlines, skipNewlinesFrom, next, backtrack, test, getNoNewline, checkASI, expect, getLexeme, getToken, tokAt, liftE_apply, nameTok, eoiTok, nm, makeNode]

theorem cA_atom (o1 o2 : token) (op1 : opInfo)
    (h1 : operatorTable o1.tType = some op1) :
    parseAtomBody (mkParserFns 23) (⟨[⟨tNAME, "a", 1, 1⟩, o1, ⟨tNAME, "b", 1, 1⟩, o2, ⟨tNAME, "c", 1, 1⟩, ⟨tEND_OF_INPUT, "", 1, 1⟩], 0, ⟨tNAME, "a", 1, 1⟩, false⟩ : parserState) = .ok (nm "a", (⟨[⟨tNAME, "a", 1, 1⟩, o1, ⟨tNAME, "b", 1, 1⟩, o2, ⟨tNAME, "c", 1, 1⟩, ⟨tEND_OF_INPUT, "", 1, 1⟩], 1, o1, false⟩ : parserState)) := by
  unfold parseAtomBody
  simp [cA_lam o1 o2 op1 h1, accept, acceptSkipNewlines, skipNewlinesFrom, next, backtrack, test, getNoNewline, checkASI, expect, getLexeme, getToken, tokAt, liftE_apply, nameTok, eoiTok]

theorem cA_ctor (o1 o2 : token) (op1 : opInfo)
    (h1 : operatorTable o1.tType = some op1) :
    parseConstructorCallBody (mkParserFns 24) (⟨[⟨tNAME, "a", 1, 1⟩, o1, ⟨tNAME, "b", 1, 1⟩, o2, ⟨tNAME, "c", 1, 1⟩, ⟨tEND_OF_INPUT, "", 1, 1⟩], 0, ⟨tNAME, "a", 1, 1⟩, false⟩ : parserState) = .ok (nm "a", (⟨[⟨tNAME, "a", 1, 1⟩, o1, ⟨tNAME, "b", 1, 1⟩, o2, ⟨tNAME, "c", 1, 1⟩, ⟨tEND_OF_INPUT, "", 1, 1⟩], 1, o1, false⟩ : parserState)) := by
  unfold parseConstructorCallBody
  simp [cA_atom o1 o2 op1 h1, accept, acceptSkipNewlines, skipNewlinesFrom, next, backtrack, test, getNoNewline, checkASI, expect, getLexeme, getToken, tokAt, liftE_apply, nameTok, eoiTok]

theorem cA_fcmloop (o1 o2 : token) (op1 : opInfo)
    (h1 : operatorTable o1.tType = some op1) :
    parseFCMLoopBody (mkParserFns 24) false (nm "a") (⟨[⟨tNAME, "a", 1, 1⟩, o1, ⟨tNAME, "b", 1, 1⟩, o2, ⟨tNAME, "c", 1, 1⟩, ⟨tEND_OF_INPUT, "", 1, 1⟩], 1, o1, false⟩ : parserState) = .ok (nm "a", (⟨[⟨tNAME, "a", 1, 1⟩, o1, ⟨tNAME, "b", 1, 1⟩, o2, ⟨tNAME, "c", 1, 1⟩, ⟨tEND_OF_INPUT, "", 1, 1⟩], 1, o1, false⟩ : parserState)) := by
  obtain ⟨hNL, hLAM, hPL, hDOT, hBL, hINC, hDEC⟩ := operatorTable_filters _ _ h1
  unfold parseFCMLoopBody
  simp [hNL, hPL, hDOT, hBL, accept, acceptSkipNewlines, skipNewlinesFrom, next, backtrack, test, getNoNewline, checkASI, expect, getLexeme, getToken, tokAt, liftE_apply, nameTok, eoiTok]

theorem cA_fcm (o1 o2 : token) (op1 : opInfo)
    (h1 : operatorTable o1.tType = some op1) :
    parseFunctionCallOrMemberBody (mkParserFns 25) false (⟨[⟨tNAME, "a", 1, 1⟩, o1, ⟨tNAME, "b", 1, 1⟩, o2, ⟨tNAME, "c", 1, 1⟩, ⟨tEND_OF_INPUT, "", 1, 1⟩], 0, ⟨tNAME, "a", 1, 1⟩, false⟩ : parserState) = .ok (nm "a", (⟨[⟨tNAME, "a", 1, 1⟩, o1, ⟨tNAME, "b", 1, 1⟩, o2, ⟨tNAME, "c", 1, 1⟩, ⟨tEND_OF_INPUT, "", 1, 1⟩], 1, o1, false⟩ : parserState)) := by
  unfold parseFunctionCallOrMemberBody
  simp [cA_ctor o1 o2 op1 h1, cA_fcmloop o1 o2 op1 h1, accept, acceptSkipNewlines, skipNewlinesFrom, next, backtrack, test, getNoNewline, checkASI, expect, getLexeme, getToken, tokAt, liftE_apply, nameTok, eoiTok]

theorem cA_post (o1 o2 : token) (op1 : opInfo)
    (h1 : operatorTable o1.tType = some op1) :
    parsePostfixUnaryBody (mkParserFns 26) (⟨[⟨tNAME, "a", 1, 1⟩, o1, ⟨tNAME, "b", 1, 1⟩, o2, ⟨tNAME, "c", 1, 1⟩, ⟨tEND_OF_INPUT, "", 1, 1⟩], 0, ⟨tNAME, "a", 1, 1⟩, false⟩ : parserState) = .ok (nm "a", (⟨[⟨tNAME, "a", 1, 1⟩, o1, ⟨tNAME, "b", 1, 1⟩, o2, ⟨tNAME, "c", 1, 1⟩, ⟨tEND_OF_INPUT, "", 1, 1⟩], 1, o1, false⟩ : parserState)) := by
  obtain ⟨hNL, hLAM, hPL, hDOT, hBL, hINC, hDEC⟩ := operatorTable_filters _ _ h1
  unfold parsePostfixUnaryBody
  simp [cA_fcm o1 o2 op1 h1, hNL, hINC, hDEC, accept, acceptSkipNewlines, skipNewlinesFrom, next, backtrack, test, getNoNewline, checkASI, expect, getLexeme, getToken, tokAt, liftE_apply, nameTok, eoiTok]

theorem cA_pre (o1 o2 : token) (op1 : opInfo)
    (h1 : operatorTable o1.tType = some op1) :
    parsePrefixUnaryBody (mkParserFns 27) (⟨[⟨tNAME, "a", 1, 1⟩, o1, ⟨tNAME, "b", 1, 1⟩, o2, ⟨tNAME, "c", 1, 1⟩, ⟨tEND_OF_INPUT, "", 1, 1⟩], 0, ⟨tNAME, "a", 1, 1⟩, false⟩ : parserState) = .ok (nm "a", (⟨[⟨tNAME, "a", 1, 1⟩, o1, ⟨tNAME, "b", 1, 1⟩, o2, ⟨tNAME, "c", 1, 1⟩, ⟨tEND_OF_INPUT, "", 1, 1⟩], 1, o1, false⟩ : parserState)) := by
  unfold parsePrefixUnaryBody
  simp [cA_post o1 o2 op1 h1, accept, acceptSkipNewlines, skipNewlinesFrom, next, backtrack, test, getNoNewline, checkASI, expect, getLexeme, getToken, tokAt, liftE_apply, nameTok, eoiTok]

theorem cB_lam (o1 o2 : token) (op2 : opInfo)
    (h2 : operatorTable o2.tType = some op2) :
    parseLambdaOrNameBody (mkParserFns 21) (⟨[⟨tNAME, "a", 1, 1⟩, o1, ⟨tNAME, "b", 1, 1⟩, o2, ⟨tNAME, "c", 1, 1⟩, ⟨tEND_OF_INPUT, "", 1, 1⟩], 3, o2, false⟩ : parserState) = .ok (nm "b", (⟨[⟨tNAME, "a", 1, 1⟩, o1, ⟨tNAME, "b", 1, 1⟩, o2, ⟨tNAME, "c", 1, 1⟩, ⟨tEND_OF_INPUT, "", 1, 1⟩], 3, o2, false⟩ : parserState)) := by
  obtain ⟨hNL, hLAM, hPL, hDOT, hBL, hINC, hDEC⟩ := operatorTable_filters _ _ h2
  unfold parseLambdaOrNameBody
  simp [hNL, hLAM, accept, acceptSkipNewlines, skipNewlinesFrom, next, backtrack, test, getNoNewline, checkASI, expect, getLexeme, getToken, tokAt, liftE_apply, nameTok, eoiTok, nm, makeNode]

theorem cB_atom (o1 o2 : token) (op2 : opInfo)
    (h2 : operatorTable o2.tType = some op2) :
    parseAtomBody (mkParserFns 22) (⟨[⟨tNAME, "a", 1, 1⟩, o1, ⟨tNAME, "b", 1, 1⟩, o2, ⟨tNAME, "c", 1, 1⟩, ⟨tEND_OF_INPUT, "", 1, 1⟩], 2, ⟨tNAME, "b", 1, 1⟩, false⟩ : parserState) = .ok (nm "b", (⟨[⟨tNAME, "a", 1, 1⟩, o1, ⟨tNAME, "b", 1, 1⟩, o2, ⟨tNAME, "c", 1, 1⟩, ⟨tEND_OF_INPUT, "", 1, 1⟩], 3, o2, false⟩ : parserState)) := by
  unfold parseAtomBody
  simp [cB_lam o1 o2 op2 h2, accept, acceptSkipNewlines, skipNewlinesFrom, next, backtrack, test, getNoNewline, checkASI, expect, getLexeme, getToken, tokAt, liftE_apply, nameTok, eoiTok]

theorem cB_ctor (o1 o2 : token) (op2 : opInfo)
    (h2 : operatorTable o2.tType = some op2) :
    parseConstructorCallBody (mkParserFns 23) (⟨[⟨tNAME, "a", 1, 1⟩, o1, ⟨tNAME, "b", 1, 1⟩, o2, ⟨tNAME, "c", 1, 1⟩, ⟨tEND_OF_INPUT, "", 1, 1⟩], 2, ⟨tNAME, "b", 1, 1⟩, false⟩ : parserState) = .ok (nm "b", (⟨[⟨tNAME, "a", 1, 1⟩, o1, ⟨tNAME, "b", 1, 1⟩, o2, ⟨tNAME, "c", 1, 1⟩, ⟨tEND_OF_INPUT, "", 1, 1⟩], 3, o2, false⟩ : parserState)) := by
  unfold parseConstructorCallBody
  simp [cB_atom o1 o2 op2 h2, accept, acceptSkipNewlines, skipNewlinesFrom, next, backtrack, test, getNoNewline, checkASI, expect, getLexeme, getToken, tokAt, liftE_apply, nameTok, eoiTok]

theorem cB_fcmloop (o1 o2 : token) (op2 : opInfo)
    (h2 : operatorTable o2.tType = some op2) :
    parseFCMLoopBody (mkParserFns 23) false (nm "b") (⟨[⟨tNAME, "a", 1, 1⟩, o1, ⟨tNAME, "b", 1, 1⟩, o2, ⟨tNAME, "c", 1, 1⟩, ⟨tEND_OF_INPUT, "", 1, 1⟩], 3, o2, false⟩ : parserState) = .ok (nm "b", (⟨[⟨tNAME, "a", 1, 1⟩, o1, ⟨tNAME, "b", 1, 1⟩, o2, ⟨tNAME, "c", 1, 1⟩, ⟨tEND_OF_INPUT, "", 1, 1⟩], 3, o2, false⟩ : parserState)) := by
  obtain ⟨hNL, hLAM, hPL, hDOT, hBL, hINC, hDEC⟩ := operatorTable_filters _ _ h2
  unfold parseFCMLoopBody
  simp [hNL, hPL, hDOT, hBL, accept, acceptSkipNewlines, skipNewlinesFrom, next, backtrack, test, getNoNewline, checkASI, expect, getLexeme, getToken, tokAt, liftE_apply, nameTok, eoiTok]

theorem cB_fcm (o1 o2 : token) (op2 : opInfo)
    (h2 : operatorTable o2.tType = some op2) :
    parseFunctionCallOrMemberBody (mkParserFns 24) false (⟨[⟨tNAME, "a", 1, 1⟩, o1, ⟨tNAME, "b", 1, 1⟩, o2, ⟨tNAME, "c", 1, 1⟩, ⟨tEND_OF_INPUT, "", 1, 1⟩], 2, ⟨tNAME, "b", 1, 1⟩, false⟩ : parserState) = .ok (nm "b", (⟨[⟨tNAME, "a", 1, 1⟩, o1, ⟨tNAME, "b", 1, 1⟩, o2, ⟨tNAME, "c", 1, 1⟩, ⟨tEND_OF_INPUT, "", 1, 1⟩], 3, o2, false⟩ : parserState)) := by
  unfold parseFunctionCallOrMemberBody
  simp [cB_ctor o1 o2 op2 h2, cB_fcmloop o1 o2 op2 h2, accept, acceptSkipNewlines, skipNewlinesFrom, next, backtrack, test, getNoNewline, checkASI, expect, getLexeme, getToken, tokAt, liftE_apply, nameTok, eoiTok]

theorem cB_post (o1 o2 : token) (op2 : opInfo)
    (h2 : operatorTable o2.tType = some op2) :
    parsePostfixUnaryBody (mkParserFns 25) (⟨[⟨tNAME, "a", 1, 1⟩, o1, ⟨tNAME, "b", 1, 1⟩, o2, ⟨tNAME, "c", 1, 1⟩, ⟨tEND_OF_INPUT, "", 1, 1⟩], 2, ⟨tNAME, "b", 1, 1⟩, false⟩ : parserState) = .ok (nm "b", (⟨[⟨tNAME, "a", 1, 1⟩, o1, ⟨tNAME, "b", 1, 1⟩, o2, ⟨tNAME, "c", 1, 1⟩, ⟨tEND_OF_INPUT, "", 1, 1⟩], 3, o2, false⟩ : parserState)) := by
  obtain ⟨hNL, hLAM, hPL, hDOT, hBL, hINC, hDEC⟩ := operatorTable_filters _ _ h2
  unfold parsePostfixUnaryBody
  simp [cB_fcm o1 o2 op2 h2, hNL, hINC, hDEC, accept, acceptSkipNewlines, skipNewlinesFrom, next, backtrack, test, getNoNewline, checkASI, expect, getLexeme, getToken, tokAt, liftE_apply, nameTok, eoiTok]

theorem cB_pre (o1 o2 : token) (op2 : opInfo)
    (h2 : operatorTable o2.tType = some op2) :
    parsePrefixUnaryBody (mkParserFns 26) (⟨[⟨tNAME, "a", 1, 1⟩, o1, ⟨tNAME, "b", 1, 1⟩, o2, ⟨tNAME, "c", 1, 1⟩, ⟨tEND_OF_INPUT, "", 1, 1⟩], 2, ⟨tNAME, "b", 1, 1⟩, false⟩ : parserState) = .ok (nm "b", (⟨[⟨tNAME, "a", 1, 1⟩, o1, ⟨tNAME, "b", 1, 1⟩, o2, ⟨tNAME, "c", 1, 1⟩, ⟨tEND_OF_INPUT, "", 1, 1⟩], 3, o2, false⟩ : parserState)) := by
  unfold parsePrefixUnaryBody
  simp [cB_post o1 o2 op2 h2, accept, acceptSkipNewlines, skipNewlinesFrom, next, backtrack, test, getNoNewline, checkASI, expect, getLexeme, getToken, tokAt, liftE_apply, nameTok, eoiTok]

theorem cC_lam (o1 o2 : token) :
    parseLambdaOrNameBody (mkParserFns 20) (⟨[⟨tNAME, "a", 1, 1⟩, o1, ⟨tNAME, "b", 1, 1⟩, o2, ⟨tNAME, "c", 1, 1⟩, ⟨tEND_OF_INPUT, "", 1, 1⟩], 5, ⟨tEND_OF_INPUT, "", 1, 1⟩, false⟩ : parserState) = .ok (nm "c", (⟨[⟨tNAME, "a", 1, 1⟩, o1, ⟨tNAME, "b", 1, 1⟩, o2, ⟨tNAME, "c", 1, 1⟩, ⟨tEND_OF_INPUT, "", 1, 1⟩], 5, ⟨tEND_OF_INPUT, "", 1, 1⟩, false⟩ : parserState)) := by
  unfold parseLambdaOrNameBody
  simp [accept, acceptSkipNewlines, skipNewlinesFrom, next, backtrack, test, getNoNewline, checkASI, expect, getLexeme, getToken, tokAt, liftE_apply, nameTok, eoiTok, nm, makeNode]

theorem cC_atom (o1 o2 : token) :
    parseAtomBody (mkParserFns 21) (⟨[⟨tNAME, "a", 1, 1⟩, o1, ⟨tNAME, "b", 1, 1⟩, o2, ⟨tNAME, "c", 1, 1⟩, ⟨tEND_OF_INPUT, "", 1, 1⟩], 4, ⟨tNAME, "c", 1, 1⟩, false⟩ : parserState) = .ok (nm "c", (⟨[⟨tNAME, "a", 1, 1⟩, o1, ⟨tNAME, "b", 1, 1⟩, o2, ⟨tNAME, "c", 1, 1⟩, ⟨tEND_OF_INPUT, "", 1, 1⟩], 5, ⟨tEND_OF_INPUT, "", 1, 1⟩, false⟩ : parserState)) := by
  unfold parseAtomBody
  simp [cC_lam o1 o2, accept, acceptSkipNewlines, skipNewlinesFrom, next, backtrack, test, getNoNewline, checkASI, expect, getLexeme, getToken, tokAt, liftE_apply, nameTok, eoiTok]

theorem cC_ctor (o1 o2 : token) :
    parseConstructorCallBody (mkParserFns 22) (⟨[⟨tNAME, "a", 1, 1⟩, o1, ⟨tNAME, "b", 1, 1⟩, o2, ⟨tNAME, "c", 1, 1⟩, ⟨tEND_OF_INPUT, "", 1, 1⟩], 4, ⟨tNAME, "c", 1, 1⟩, false⟩ : parserState) = .ok (nm "c", (⟨[⟨tNAME, "a", 1, 1⟩, o1, ⟨tNAME, "b", 1, 1⟩, o2, ⟨tNAME, "c", 1, 1⟩, ⟨tEND_OF_INPUT, "", 1, 1⟩], 5, ⟨tEND_OF_INPUT, "", 1, 1⟩, false⟩ : parserState)) := by
  unfold parseConstructorCallBody
  simp [cC_atom o1 o2, accept, acceptSkipNewlines, skipNewlinesFrom, next, backtrack, test, getNoNewline, checkASI, expect, getLexeme, getToken, tokAt, liftE_apply, nameTok, eoiTok]

theorem cC_fcmloop (o1 o2 : token) :
    parseFCMLoopBody (mkParserFns 22) false (nm "c") (⟨[⟨tNAME, "a", 1, 1⟩, o1, ⟨tNAME, "b", 1, 1⟩, o2, ⟨tNAME, "c", 1, 1⟩, ⟨tEND_OF_INPUT, "", 1, 1⟩], 5, ⟨tEND_OF_INPUT, "", 1, 1⟩, false⟩ : parserState) = .ok (nm "c", (⟨[⟨tNAME, "a", 1, 1⟩, o1, ⟨tNAME, "b", 1, 1⟩, o2, ⟨tNAME, "c", 1, 1⟩, ⟨tEND_OF_INPUT, "", 1, 1⟩], 5, ⟨tEND_OF_INPUT, "", 1, 1⟩, false⟩ : parserState)) := by
  unfold parseFCMLoopBody
  simp [accept, acceptSkipNewlines, skipNewlinesFrom, next, backtrack, test, getNoNewline, checkASI, expect, getLexeme, getToken, tokAt, liftE_apply, nameTok, eoiTok]

theorem cC_fcm (o1 o2 : token) :
    parseFunctionCallOrMemberBody (mkParserFns 23) false (⟨[⟨tNAME, "a", 1, 1⟩, o1, ⟨tNAME, "b", 1, 1⟩, o2, ⟨tNAME, "c", 1, 1⟩, ⟨tEND_OF_INPUT, "", 1, 1⟩], 4, ⟨tNAME, "c", 1, 1⟩, false⟩ : parserState) = .ok (nm "c", (⟨[⟨tNAME, "a", 1, 1⟩, o1, ⟨tNAME, "b", 1, 1⟩, o2, ⟨tNAME, "c", 1, 1⟩, ⟨tEND_OF_INPUT, "", 1, 1⟩], 5, ⟨tEND_OF_INPUT, "", 1, 1⟩, false⟩ : parserState)) := by
  unfold parseFunctionCallOrMemberBody
  simp [cC_ctor o1 o2, cC_fcmloop o1 o2, accept, acceptSkipNewlines, skipNewlinesFrom, next, backtrack, test, getNoNewline, checkASI, expect, getLexeme, getToken, tokAt, liftE_apply, nameTok, eoiTok]

theorem cC_post (o1 o2 : token) :
    parsePostfixUnaryBody (mkParserFns 24) (⟨[⟨tNAME, "a", 1, 1⟩, o1, ⟨tNAME, "b", 1, 1⟩, o2, ⟨tNAME, "c", 1, 1⟩, ⟨tEND_OF_INPUT, "", 1, 1⟩], 4, ⟨tNAME, "c", 1, 1⟩, false⟩ : parserState) = .ok (nm "c", (⟨[⟨tNAME, "a", 1, 1⟩, o1, ⟨tNAME, "b", 1, 1⟩, o2, ⟨tNAME, "c", 1, 1⟩, ⟨tEND_OF_INPUT, "", 1, 1⟩], 5, ⟨tEND_OF_INPUT, "", 1, 1⟩, false⟩ : parserState)) := by
  unfold parsePostfixUnaryBody
  simp [cC_fcm o1 o2, accept, acceptSkipNewlines, skipNewlinesFrom, next, backtrack, test, getNoNewline, checkASI, expect, getLexeme, getToken, tokAt, liftE_apply, nameTok, eoiTok]

theorem cC_pre (o1 o2 : token) :
    parsePrefixUnaryBody (mkParserFns 25) (⟨[⟨tNAME, "a", 1, 1⟩, o1, ⟨tNAME, "b", 1, 1⟩, o2, ⟨tNAME, "c", 1, 1⟩, ⟨tEND_OF_INPUT, "", 1, 1⟩], 4, ⟨tNAME, "c", 1, 1⟩, false⟩ : parserState) = .ok (nm "c", (⟨[⟨tNAME, "a", 1, 1⟩, o1, ⟨tNAME, "b", 1, 1⟩, o2, ⟨tNAME, "c", 1, 1⟩, ⟨tEND_OF_INPUT, "", 1, 1⟩], 5, ⟨tEND_OF_INPUT, "", 1, 1⟩, false⟩ : parserState)) := by
  unfold parsePrefixUnaryBody
  simp [cC_post o1 o2, accept, acceptSkipNewlines, skipNewlinesFrom, next, backtrack, test, getNoNewline, checkASI, expect, getLexeme, getToken, tokAt, liftE_apply, nameTok, eoiTok]

theorem cL3 (o1 o2 : token) (ops : List token) (out : List astNode)
    (root : Option astNode) :
    parseBinaryLoopBody (mkParserFns 26) ops out root (⟨[⟨tNAME, "a", 1, 1⟩, o1, ⟨tNAME, "b", 1, 1⟩, o2, ⟨tNAME, "c", 1, 1⟩, ⟨tEND_OF_INPUT, "", 1, 1⟩], 4, ⟨tNAME, "c", 1, 1⟩, false⟩ : parserState) =
      .ok ((ops, nm "c" :: out, root), (⟨[⟨tNAME, "a", 1, 1⟩, o1, ⟨tNAME, "b", 1, 1⟩, o2, ⟨tNAME, "c", 1, 1⟩, ⟨tEND_OF_INPUT, "", 1, 1⟩], 5, ⟨tEND_OF_INPUT, "", 1, 1⟩, false⟩ : parserState)) := by
  unfold parseBinaryLoopBody
  simp [cC_pre o1 o2, operatorTable, accept, acceptSkipNewlines, skipNewlinesFrom, next, backtrack, test, getNoNewline, checkASI, expect, getLexeme, getToken, tokAt, liftE_apply, nameTok, eoiTok]

theorem cL2X (o1 o2 : token) (op1 op2 : opInfo)
    (h1 : operatorTable o1.tType = some op1)
    (h2 : operatorTable o2.tType = some op2)
    (hc : ¬(op1.precedence > op2.precedence ∨ (op1.precedence = op2.precedence ∧ ¬op2.isRightAssociative))) :
    parseBinaryLoopBody (mkParserFns 27) [o1] [nm "a"] none (⟨[⟨tNAME, "a", 1, 1⟩, o1, ⟨tNAME, "b", 1, 1⟩, o2, ⟨tNAME, "c", 1, 1⟩, ⟨tEND_OF_INPUT, "", 1, 1⟩], 2, ⟨tNAME, "b", 1, 1⟩, false⟩ : parserState) =
      .ok (([o2, o1], [nm "c", nm "b", nm "a"], none), (⟨[⟨tNAME, "a", 1, 1⟩, o1, ⟨tNAME, "b", 1, 1⟩, o2, ⟨tNAME, "c", 1, 1⟩, ⟨tEND_OF_INPUT, "", 1, 1⟩], 5, ⟨tEND_OF_INPUT, "", 1, 1⟩, false⟩ : parserState)) := by
  have hc' : ¬(op2.precedence < op1.precedence ∨ op1.precedence = op2.precedence ∧ op2.isRightAssociative = false) := by simpa using hc
  unfold parseBinaryLoopBody
  simp [cB_pre o1 o2 op2 h2, h1, h2, hc', reduceStackGo, cL3 o1 o2, accept, acceptSkipNewlines, skipNewlinesFrom, next, backtrack, test, getNoNewline, checkASI, expect, getLexeme, getToken, tokAt, liftE_apply, nameTok, eoiTok]

theorem cL2Y (o1 o2 : token) (op1 op2 : opInfo)
    (h1 : operatorTable o1.tType = some op1)
    (h2 : operatorTable o2.tType = some op2)
    (hc : (op1.precedence > op2.precedence ∨ (op1.precedence = op2.precedence ∧ ¬op2.isRightAssociative))) :
    parseBinaryLoopBody (mkParserFns 27) [o1] [nm "a"] none (⟨[⟨tNAME, "a", 1, 1⟩, o1, ⟨tNAME, "b", 1, 1⟩, o2, ⟨tNAME, "c", 1, 1⟩, ⟨tEND_OF_INPUT, "", 1, 1⟩], 2, ⟨tNAME, "b", 1, 1⟩, false⟩ : parserState) =
      .ok (([o2], [nm "c", binNode o1.lexeme (nm "a") (nm "b")],
        some (binNode o1.lexeme (nm "a") (nm "b"))), (⟨[⟨tNAME, "a", 1, 1⟩, o1, ⟨tNAME, "b", 1, 1⟩, o2, ⟨tNAME, "c", 1, 1⟩, ⟨tEND_OF_INPUT, "", 1, 1⟩], 5, ⟨tEND_OF_INPUT, "", 1, 1⟩, false⟩ : parserState)) := by
  have hc' : (op2.precedence < op1.precedence ∨ op1.precedence = op2.precedence ∧ op2.isRightAssociative = false) := by simpa using hc
  unfold parseBinaryLoopBody
  simp [cB_pre o1 o2 op2 h2, h1, h2, hc', reduceStackGo, addNodeGo, cL3 o1 o2,
    binNode, nm, makeNode, accept, acceptSkipNewlines, skipNewlinesFrom, next, backtrack, test, getNoNewline, checkASI, expect, getLexeme, getToken, tokAt, liftE_apply, nameTok, eoiTok]

theorem cL1X (o1 o2 : token) (op1 op2 : opInfo)
    (h1 : operatorTable o1.tType = some op1)
    (h2 : operatorTable o2.tType = some op2)
    (hc : ¬(op1.precedence > op2.precedence ∨ (op1.precedence = op2.precedence ∧ ¬op2.isRightAssociative))) :
    parseBinaryLoopBody (mkParserFns 28) [] [] none (⟨[⟨tNAME, "a", 1, 1⟩, o1, ⟨tNAME, "b", 1, 1⟩, o2, ⟨tNAME, "c", 1, 1⟩, ⟨tEND_OF_INPUT, "", 1, 1⟩], 0, ⟨tNAME, "a", 1, 1⟩, false⟩ : parserState) =
      .ok (([o2, o1], [nm "c", nm "b", nm "a"], none), (⟨[⟨tNAME, "a", 1, 1⟩, o1, ⟨tNAME, "b", 1, 1⟩, o2, ⟨tNAME, "c", 1, 1⟩, ⟨tEND_OF_INPUT, "", 1, 1⟩], 5, ⟨tEND_OF_INPUT, "", 1, 1⟩, false⟩ : parserState)) := by
  unfold parseBinaryLoopBody
  simp [cA_pre o1 o2 op1 h1, h1, h2, reduceStackGo, cL2X o1 o2 op1 op2 h1 h2 hc, accept, acceptSkipNewlines, skipNewlinesFrom, next, backtrack, test, getNoNewline, checkASI, expect, getLexeme, getToken, tokAt, liftE_apply, nameTok, eoiTok]

theorem cL1Y (o1 o2 : token) (op1 op2 : opInfo)
    (h1 : operatorTable o1.tType = some op1)
    (h2 : operatorTable o2.tType = some op2)
    (hc : (op1.precedence > op2.precedence ∨ (op1.precedence = op2.precedence ∧ ¬op2.isRightAssociative))) :
    parseBinaryLoopBody (mkParserFns 28) [] [] none (⟨[⟨tNAME, "a", 1, 1⟩, o1, ⟨tNAME, "b", 1, 1⟩, o2, ⟨tNAME, "c", 1, 1⟩, ⟨tEND_OF_INPUT, "", 1, 1⟩], 0, ⟨tNAME, "a", 1, 1⟩, false⟩ : parserState) =
      .ok (([o2], [nm "c", binNode o1.lexeme (nm "a") (nm "b")],
        some (binNode o1.lexeme (nm "a") (nm "b"))), (⟨[⟨tNAME, "a", 1, 1⟩, o1, ⟨tNAME, "b", 1, 1⟩, o2, ⟨tNAME, "c", 1, 1⟩, ⟨tEND_OF_INPUT, "", 1, 1⟩], 5, ⟨tEND_OF_INPUT, "", 1, 1⟩, false⟩ : parserState)) := by
  unfold parseBinaryLoopBody
  simp [cA_pre o1 o2 op1 h1, h1, h2, reduceStackGo, cL2Y o1 o2 op1 op2 h1 h2 hc, accept, acceptSkipNewlines, skipNewlinesFrom, next, backtrack, test, getNoNewline, checkASI, expect, getLexeme, getToken, tokAt, liftE_apply, nameTok, eoiTok]

theorem cBinX (o1 o2 : token) (op1 op2 : opInfo)
    (h1 : operatorTable o1.tType = some op1)
    (h2 : operatorTable o2.tType = some op2)
    (hc : ¬(op1.precedence > op2.precedence ∨ (op1.precedence = op2.precedence ∧ ¬op2.isRightAssociative))) :
    parseBinaryBody (mkParserFns 29) (⟨[⟨tNAME, "a", 1, 1⟩, o1, ⟨tNAME, "b", 1, 1⟩, o2, ⟨tNAME, "c", 1, 1⟩, ⟨tEND_OF_INPUT, "", 1, 1⟩], 0, ⟨tNAME, "a", 1, 1⟩, false⟩ : parserState) =
      .ok (binNode o1.lexeme (nm "a") (binNode o2.lexeme (nm "b") (nm "c")), (⟨[⟨tNAME, "a", 1, 1⟩, o1, ⟨tNAME, "b", 1, 1⟩, o2, ⟨tNAME, "c", 1, 1⟩, ⟨tEND_OF_INPUT, "", 1, 1⟩], 5, ⟨tEND_OF_INPUT, "", 1, 1⟩, false⟩ : parserState)) := by
  unfold parseBinaryBody
  simp [cL1X o1 o2 op1 op2 h1 h2 hc, finalReduceGo, addNodeGo, binNode, nm, makeNode, accept, acceptSkipNewlines, skipNewlinesFrom, next, backtrack, test, getNoNewline, checkASI, expect, getLexeme, getToken, tokAt, liftE_apply, nameTok, eoiTok]

theorem cBinY (o1 o2 : token) (op1 op2 : opInfo)
    (h1 : operatorTable o1.tType = some op1)
    (h2 : operatorTable o2.tType = some op2)
    (hc : (op1.precedence > op2.precedence ∨ (op1.precedence = op2.precedence ∧ ¬op2.isRightAssociative))) :
    parseBinaryBody (mkParserFns 29) (⟨[⟨tNAME, "a", 1, 1⟩, o1, ⟨tNAME, "b", 1, 1⟩, o2, ⟨tNAME, "c", 1, 1⟩, ⟨tEND_OF_INPUT, "", 1, 1⟩], 0, ⟨tNAME, "a", 1, 1⟩, false⟩ : parserState) =
      .ok (binNode o2.lexeme (binNode o1.lexeme (nm "a") (nm "b")) (nm "c"), (⟨[⟨tNAME, "a", 1, 1⟩, o1, ⟨tNAME, "b", 1, 1⟩, o2, ⟨tNAME, "c", 1, 1⟩, ⟨tEND_OF_INPUT, "", 1, 1⟩], 5, ⟨tEND_OF_INPUT, "", 1, 1⟩, false⟩ : parserState)) := by
  unfold parseBinaryBody
  simp [cL1Y o1 o2 op1 op2 h1 h2 hc, finalReduceGo, addNodeGo, binNode, nm, makeNode, accept, acceptSkipNewlines, skipNewlinesFrom, next, backtrack, test, getNoNewline, checkASI, expect, getLexeme, getToken, tokAt, liftE_apply, nameTok, eoiTok]

/-! ## The claims -/

/-- C1 (corrected). The spec claims a failing build preserves the previous
successful artifact untouched. In the code, `createBundle` runs
`os.Remove(bundleFileName)` and recreates the file before any work, and the
preamble and tail are written regardless of the traversal error, so the
result never depends on the previous artifact: (1) `createBundle` is
constant in the previous bundle content; (2,3) a build whose entry file is
missing reports the error and still leaves a fresh partial artifact
(preamble + empty module order + tail) in place of the old bundle. -/
theorem c1_previous_artifact_not_preserved :
    (∀ (env : BuildEnv) (fuel : Nat) (entry : String)
       (prev1 prev2 : Option String) (c : String → Option fileCache),
      createBundle env fuel entry prev1 c = createBundle env fuel entry prev2 c) ∧
    (createBundle c1Env 5 "index.js" (some "OLD_BUNDLE") emptyCache).err =
      some (.fileErr ">>Error: cannot find file" "index.js") ∧
    (createBundle c1Env 5 "index.js" (some "OLD_BUNDLE") emptyCache).bundle =
      bundlePreamble ++
        "var moduleOrder = ['index_js'];moduleOrder.forEach((moduleName)=>modules[moduleName]=moduleFns[moduleName]())" := by
  refine ⟨fun env fuel entry p1 p2 c => rfl, ?_, ?_⟩ <;>
    simp [createBundle, addFilesToBundle, addFileToBundle, c1Env, emptyCache,
      getJsBundleFileTail, createImportTree, createImportTreeList, indexOf, indexOfAux,
      goJoin, zeroFileCache, ext_i, vn_i]

/-- Instantiates `c1_previous_artifact_not_preserved`: the bundle produced
with a previous artifact "OLD" is the one produced with "NEW". -/
theorem c1_previous_artifact_not_preserved_witness :
    createBundle c1Env 5 "index.js" (some "OLD") emptyCache =
      createBundle c1Env 5 "index.js" (some "NEW") emptyCache :=
  c1_previous_artifact_not_preserved.1 c1Env 5 "index.js" (some "OLD") (some "NEW")
    emptyCache

/-- C1 counterexample: the build in which the entry file is missing fails,
yet the output is not the previous artifact — the old bundle was deleted
and replaced by a partial artifact. -/
theorem c1_previous_artifact_not_preserved_cex :
    (createBundle c1Env 5 "index.js" (some "OLD_BUNDLE") emptyCache).err ≠ none ∧
    (createBundle c1Env 5 "index.js" (some "OLD_BUNDLE") emptyCache).bundle ≠
      "OLD_BUNDLE" := by
  have hb : (createBundle c1Env 5 "index.js" (some "OLD_BUNDLE") emptyCache).bundle =
      bundlePreamble ++
        "var moduleOrder = ['index_js'];moduleOrder.forEach((moduleName)=>modules[moduleName]=moduleFns[moduleName]())" := by
    simp [createBundle, addFilesToBundle, addFileToBundle, c1Env, emptyCache,
      getJsBundleFileTail, createImportTree, createImportTreeList, indexOf, indexOfAux,
      goJoin, zeroFileCache, ext_i, vn_i]
  refine ⟨?_, ?_⟩
  · simp [createBundle, addFilesToBundle, addFileToBundle, c1Env, emptyCache,
      getJsBundleFileTail, createImportTree, createImportTreeList, indexOf, indexOfAux,
      goJoin, zeroFileCache, ext_i, vn_i]
  · rw [hb]
    decide

/-- C2 (corrected). A call-style `require(p)` in a function body is indeed
rewritten to `modules.<name>.default` and the resolved path is appended to
`fileImports` — but appended on EVERY occurrence, not exactly once: the
code has no duplicate check on `fileImports`, so requiring `./m.js` twice
emits `["src/m.js", "src/m.js"]`. -/
theorem c2_require_rewrite :
    (∀ (fileName p r : String) (st : TState) (fuel : Nat),
      st.importedVars "require" = none →
      resolveES6ImportPath p fileName = some r →
      modifyFunctionCall fileName (fuel + 3) (requireCall p) st =
        .ok (defaultMember r, { st with fileImports := st.fileImports ++ [r] })) ∧
    transformImports (transformIntoModule 10 c2Program "src/a.js") =
      some ["src/m.js", "src/m.js"] := by
  constructor
  · intro fileName p r st fuel hreq hres
    simp [modifyFunctionCall, modifyFunctionCallBody, modifyAstBody, requireCall, makeNode,
      tMapM, tIndex, tResolve, hreq, hres, defaultMember, astNode.t, astNode.value,
      astNode.children, astNode.flags]
  · simp [transformImports, transformIntoModule, c2Program, requireCall, exprStatement,
      makeNode, modifyAstBody, modifyProgramBody, modifyFunctionCallBody,
      modifyMemberExpressionBody, modifyImportBody, modifyExportBody,
      tMapM, tIndex, tResolve, resolve_m, varname_m, ext_m,
      astNode.t, astNode.value, astNode.children, astNode.flags]

/-- Instantiates `c2_require_rewrite` on a fresh transformer state. -/
theorem c2_require_rewrite_witness :
    resolveES6ImportPath "'./m.js'" "src/a.js" = some "src/m.js" ∧
    modifyFunctionCall "src/a.js" 3 (requireCall "'./m.js'") ⟨[], fun _ => none⟩ =
      .ok (defaultMember "src/m.js", ⟨["src/m.js"], fun _ => none⟩) :=
  ⟨rfl,
   c2_require_rewrite.1 "src/a.js" "'./m.js'" "src/m.js" ⟨[], fun _ => none⟩ 0 rfl rfl⟩

/-- C2 counterexample: the emitted dependency list of a file requiring
`./m.js` twice holds the resolved identity twice, refuting "exactly once". -/
theorem c2_require_rewrite_cex :
    transformImports (transformIntoModule 10 c2Program "src/a.js") =
      some ["src/m.js", "src/m.js"] ∧
    ¬ (["src/m.js", "src/m.js"] : List String).Nodup := by
  constructor
  · simp [transformImports, transformIntoModule, c2Program, requireCall, exprStatement,
      makeNode, modifyAstBody, modifyProgramBody, modifyFunctionCallBody,
      modifyMemberExpressionBody, modifyImportBody, modifyExportBody,
      tMapM, tIndex, tResolve, resolve_m, varname_m, ext_m,
      astNode.t, astNode.value, astNode.children, astNode.flags]
  · decide

/-- C3 (corrected). The spec claims a nested, parent-linked scope table
makes imported bindings shadow correctly. In the code `transformIntoModule`
allocates a single flat `context` whose `parent` is never set (the
parent-walking `getImportedVariable` is dead code), and name replacement
consults only that flat map: in `import v from './m.js'; function f(v) {
return v; }` the parameter `v` and the `v` inside the nested function body
are BOTH replaced by the imported member expression, so shadowing does not
happen. -/
theorem c3_flat_scope_rewrite :
    c3ExtractNested (transformIntoModule 10 c3Program "src/a.js") =
      some c3RewrittenFunction ∧
    c3RewrittenFunction ≠ c3Function := by
  constructor
  · simp [c3ExtractNested, transformIntoModule, c3Program, c3Import, c3Function, makeNode,
      modifyAstBody, modifyProgramBody, modifyFunctionCallBody, modifyMemberExpressionBody,
      modifyImportBody, modifyExportBody, tForM,
      tMapM, tIndex, tResolve, tSetVar, resolve_m, varname_m, ext_m,
      c3RewrittenFunction, nestedFunc, c3ImportedMember,
      List.headD, List.getD,
      astNode.t, astNode.value, astNode.children, astNode.flags]
  · simp [c3RewrittenFunction, nestedFunc, c3Function, c3ImportedMember, makeNode]

/-- C3 counterexample: the nested function is NOT left intact (its shadowed
occurrences of `v` were rewritten), refuting the claimed shadowing. -/
theorem c3_flat_scope_rewrite_cex :
    c3ExtractNested (transformIntoModule 10 c3Program "src/a.js") ≠
      some c3Function := by
  intro h
  have h2 : c3ExtractNested (transformIntoModule 10 c3Program "src/a.js") =
      some c3RewrittenFunction := by
    simp [c3ExtractNested, transformIntoModule, c3Program, c3Import, c3Function, makeNode,
      modifyAstBody, modifyProgramBody, modifyFunctionCallBody, modifyMemberExpressionBody,
      modifyImportBody, modifyExportBody, tForM,
      tMapM, tIndex, tResolve, tSetVar, resolve_m, varname_m, ext_m,
      c3RewrittenFunction, nestedFunc, c3ImportedMember,
      List.headD, List.getD,
      astNode.t, astNode.value, astNode.children, astNode.flags]
  have h3 : c3RewrittenFunction = c3Function := Option.some.inj (h2.symm.trans h)
  have h4 : c3RewrittenFunction ≠ c3Function := by
    simp [c3RewrittenFunction, nestedFunc, c3Function, c3ImportedMember, makeNode]
  exact h4 h3

/-- C4 (corrected). Re-resolution is NOT idempotent: any path whose first
segment is not `.`/`..` — including every already-canonical identity the
resolver itself produces — is rooted at `node_modules` AGAIN on the next
resolution. `resolve("./m.js")` from `dir/a.js` gives `dir/m.js`, but
re-resolving `dir/m.js` (from any file) gives `node_modules/dir/m.js`, and
resolving that gives `node_modules/node_modules/dir/m.js`. -/
theorem c4_resolve_not_idempotent :
    resolveES6ImportPath "./m.js" "dir/a.js" = some "dir/m.js" ∧
    (∀ g : String, resolveES6ImportPath "dir/m.js" g = some "node_modules/dir/m.js") ∧
    (∀ g : String, resolveES6ImportPath "node_modules/dir/m.js" g =
      some "node_modules/node_modules/dir/m.js") :=
  ⟨rfl, fun g => rfl, fun g => rfl⟩

/-- Instantiates `c4_resolve_not_idempotent` at a concrete importing file. -/
theorem c4_resolve_not_idempotent_witness :
    resolveES6ImportPath "dir/m.js" "dir/a.js" = some "node_modules/dir/m.js" :=
  c4_resolve_not_idempotent.2.1 "dir/a.js"

/-- C4 counterexample: `resolve(resolve("./m.js"))` is
`node_modules/dir/m.js`, not `resolve("./m.js") = dir/m.js`. -/
theorem c4_resolve_not_idempotent_cex :
    resolveES6ImportPath "./m.js" "dir/a.js" = some "dir/m.js" ∧
    resolveES6ImportPath "dir/m.js" "dir/a.js" = some "node_modules/dir/m.js" ∧
    ("node_modules/dir/m.js" : String) ≠ "dir/m.js" :=
  ⟨rfl, rfl, by decide⟩

/-- C5 (code bug). The claimed error-reporting path is NOT total: on the
token sequence `]` `EOI` the very first statement fails, `checkASI` builds
the diagnostic window `sourceTokens[index-5 : index+5]` with `index = 0`,
and the Go slice expression panics (5 > 0 on the low bound). The deferred
`recover` in `parseProgram` swallows the panic and returns the ZERO ast
with a nil error: `parseTokens` yields `.ok (zeroAstNode, none)` — an
unusable AST with no reported error — instead of a structured parse
error. -/
theorem c5_recover_swallows_panic :
    parseTokens 40 c5Tokens = .ok (zeroAstNode, none) := by
  have h25 : parseAtomBody (mkParserFns 24) (⟨[⟨tBRACKET_RIGHT, "]", 1, 1⟩, ⟨tEND_OF_INPUT, "", 1, 1⟩], 0, ⟨tBRACKET_RIGHT, "]", 1, 1⟩, false⟩ : parserState) =
      .error (.runtimeErr "slice bounds out of range") := by
    unfold parseAtomBody
    simp [accept, acceptSkipNewlines, skipNewlinesFrom, next, backtrack, test, getNoNewline, checkASI, expect, getLexeme, getToken, tokAt, liftE_apply, operatorTable]
  have h26 : parseConstructorCallBody (mkParserFns 25) (⟨[⟨tBRACKET_RIGHT, "]", 1, 1⟩, ⟨tEND_OF_INPUT, "", 1, 1⟩], 0, ⟨tBRACKET_RIGHT, "]", 1, 1⟩, false⟩ : parserState) =
      .error (.runtimeErr "slice bounds out of range") := by
    unfold parseConstructorCallBody
    simp [h25, accept, acceptSkipNewlines, skipNewlinesFrom, next, backtrack, test, getNoNewline, checkASI, expect, getLexeme, getToken, tokAt, liftE_apply, operatorTable]
  have h27 : parseFunctionCallOrMemberBody (mkParserFns 26) false (⟨[⟨tBRACKET_RIGHT, "]", 1, 1⟩, ⟨tEND_OF_INPUT, "", 1, 1⟩], 0, ⟨tBRACKET_RIGHT, "]", 1, 1⟩, false⟩ : parserState) =
      .error (.runtimeErr "slice bounds out of range") := by
    unfold parseFunctionCallOrMemberBody
    simp [h26, accept, acceptSkipNewlines, skipNewlinesFrom, next, backtrack, test, getNoNewline, checkASI, expect, getLexeme, getToken, tokAt, liftE_apply, operatorTable]
  have h28 : parsePostfixUnaryBody (mkParserFns 27) (⟨[⟨tBRACKET_RIGHT, "]", 1, 1⟩, ⟨tEND_OF_INPUT, "", 1, 1⟩], 0, ⟨tBRACKET_RIGHT, "]", 1, 1⟩, false⟩ : parserState) =
      .error (.runtimeErr "slice bounds out of range") := by
    unfold parsePostfixUnaryBody
    simp [h27, accept, acceptSkipNewlines, skipNewlinesFrom, next, backtrack, test, getNoNewline, checkASI, expect, getLexeme, getToken, tokAt, liftE_apply, operatorTable]
  have h29 : parsePrefixUnaryBody (mkParserFns 28) (⟨[⟨tBRACKET_RIGHT, "]", 1, 1⟩, ⟨tEND_OF_INPUT, "", 1, 1⟩], 0, ⟨tBRACKET_RIGHT, "]", 1, 1⟩, false⟩ : parserState) =
      .error (.runtimeErr "slice bounds out of range") := by
    unfold parsePrefixUnaryBody
    simp [h28, accept, acceptSkipNewlines, skipNewlinesFrom, next, backtrack, test, getNoNewline, checkASI, expect, getLexeme, getToken, tokAt, liftE_apply, operatorTable]
  have h30 : parseBinaryLoopBody (mkParserFns 29) [] [] none (⟨[⟨tBRACKET_RIGHT, "]", 1, 1⟩, ⟨tEND_OF_INPUT, "", 1, 1⟩], 0, ⟨tBRACKET_RIGHT, "]", 1, 1⟩, false⟩ : parserState) =
      .error (.runtimeErr "slice bounds out of range") := by
    unfold parseBinaryLoopBody
    simp [h29, accept, acceptSkipNewlines, skipNewlinesFrom, next, backtrack, test, getNoNewline, checkASI, expect, getLexeme, getToken, tokAt, liftE_apply, operatorTable]
  have h31 : parseBinaryBody (mkParserFns 30) (⟨[⟨tBRACKET_RIGHT, "]", 1, 1⟩, ⟨tEND_OF_INPUT, "", 1, 1⟩], 0, ⟨tBRACKET_RIGHT, "]", 1, 1⟩, false⟩ : parserState) =
      .error (.runtimeErr "slice bounds out of range") := by
    unfold parseBinaryBody
    simp [h30, accept, acceptSkipNewlines, skipNewlinesFrom, next, backtrack, test, getNoNewline, checkASI, expect, getLexeme, getToken, tokAt, liftE_apply, operatorTable]
  have h32 : parseConditionalBody (mkParserFns 31) (⟨[⟨tBRACKET_RIGHT, "]", 1, 1⟩, ⟨tEND_OF_INPUT, "", 1, 1⟩], 0, ⟨tBRACKET_RIGHT, "]", 1, 1⟩, false⟩ : parserState) =
      .error (.runtimeErr "slice bounds out of range") := by
    unfold parseConditionalBody
    simp [h31, accept, acceptSkipNewlines, skipNewlinesFrom, next, backtrack, test, getNoNewline, checkASI, expect, getLexeme, getToken, tokAt, liftE_apply, operatorTable]
  have h33 : parseAssignmentBody (mkParserFns 32) (⟨[⟨tBRACKET_RIGHT, "]", 1, 1⟩, ⟨tEND_OF_INPUT, "", 1, 1⟩], 0, ⟨tBRACKET_RIGHT, "]", 1, 1⟩, false⟩ : parserState) =
      .error (.runtimeErr "slice bounds out of range") := by
    unfold parseAssignmentBody
    simp [h32, accept, acceptSkipNewlines, skipNewlinesFrom, next, backtrack, test, getNoNewline, checkASI, expect, getLexeme, getToken, tokAt, liftE_apply, operatorTable]
  have h34 : parseYieldBody (mkParserFns 33) (⟨[⟨tBRACKET_RIGHT, "]", 1, 1⟩, ⟨tEND_OF_INPUT, "", 1, 1⟩], 0, ⟨tBRACKET_RIGHT, "]", 1, 1⟩, false⟩ : parserState) =
      .error (.runtimeErr "slice bounds out of range") := by
    unfold parseYieldBody
    simp [h33, accept, acceptSkipNewlines, skipNewlinesFrom, next, backtrack, test, getNoNewline, checkASI, expect, getLexeme, getToken, tokAt, liftE_apply, operatorTable]
  have h35 : parseSequenceBody (mkParserFns 34) (⟨[⟨tBRACKET_RIGHT, "]", 1, 1⟩, ⟨tEND_OF_INPUT, "", 1, 1⟩], 0, ⟨tBRACKET_RIGHT, "]", 1, 1⟩, false⟩ : parserState) =
      .error (.runtimeErr "slice bounds out of range") := by
    unfold parseSequenceBody
    simp [h34, accept, acceptSkipNewlines, skipNewlinesFrom, next, backtrack, test, getNoNewline, checkASI, expect, getLexeme, getToken, tokAt, liftE_apply, operatorTable]
  have h36 : parseExpressionBody (mkParserFns 35) (⟨[⟨tBRACKET_RIGHT, "]", 1, 1⟩, ⟨tEND_OF_INPUT, "", 1, 1⟩], 0, ⟨tBRACKET_RIGHT, "]", 1, 1⟩, false⟩ : parserState) =
      .error (.runtimeErr "slice bounds out of range") := by
    unfold parseExpressionBody
    simp [h35, accept, acceptSkipNewlines, skipNewlinesFrom, next, backtrack, test, getNoNewline, checkASI, expect, getLexeme, getToken, tokAt, liftE_apply, operatorTable]
  have h37 : parseExpressionStatementBody (mkParserFns 36) (⟨[⟨tBRACKET_RIGHT, "]", 1, 1⟩, ⟨tEND_OF_INPUT, "", 1, 1⟩], 0, ⟨tBRACKET_RIGHT, "]", 1, 1⟩, false⟩ : parserState) =
      .error (.runtimeErr "slice bounds out of range") := by
    unfold parseExpressionStatementBody
    simp [h36, accept, acceptSkipNewlines, skipNewlinesFrom, next, backtrack, test, getNoNewline, checkASI, expect, getLexeme, getToken, tokAt, liftE_apply, operatorTable]
  have h38 : parseStatementSwitchBody (mkParserFns 37) (⟨[⟨tBRACKET_RIGHT, "]", 1, 1⟩, ⟨tEND_OF_INPUT, "", 1, 1⟩], 0, ⟨tBRACKET_RIGHT, "]", 1, 1⟩, false⟩ : parserState) =
      .error (.runtimeErr "slice bounds out of range") := by
    unfold parseStatementSwitchBody
    simp [h37, accept, acceptSkipNewlines, skipNewlinesFrom, next, backtrack, test, getNoNewline, checkASI, expect, getLexeme, getToken, tokAt, liftE_apply, operatorTable]
  have h39 : parseStatementBody (mkParserFns 38) (⟨[⟨tBRACKET_RIGHT, "]", 1, 1⟩, ⟨tEND_OF_INPUT, "", 1, 1⟩], 0, ⟨tBRACKET_RIGHT, "]", 1, 1⟩, false⟩ : parserState) =
      .error (.runtimeErr "slice bounds out of range") := by
    unfold parseStatementBody
    simp [h38, accept, acceptSkipNewlines, skipNewlinesFrom, next, backtrack, test, getNoNewline, checkASI, expect, getLexeme, getToken, tokAt, liftE_apply, operatorTable]
  have h40 : parseProgramLoopBody (mkParserFns 39) [] (⟨[⟨tBRACKET_RIGHT, "]", 1, 1⟩, ⟨tEND_OF_INPUT, "", 1, 1⟩], 0, ⟨tBRACKET_RIGHT, "]", 1, 1⟩, false⟩ : parserState) =
      .error (.runtimeErr "slice bounds out of range") := by
    unfold parseProgramLoopBody
    simp [h39, accept, acceptSkipNewlines, skipNewlinesFrom, next, backtrack, test, getNoNewline, checkASI, expect, getLexeme, getToken, tokAt, liftE_apply, operatorTable]
  simp [parseTokens, parseProgram, parseProgramLoop, c5Tokens, eoiTok, h40]

/-- C6 (confirmed). For the token sequence `a o1 b o2 c` with any two
operator tokens in `operatorTable`, `parseBinary` produces exactly the
standard precedence/associativity nesting: the higher-precedence operator
binds tighter (right-nested when it is the second operator, left-nested
when it is the first), equal precedence is left-associative, and equal
precedence with a right-associative operator nests to the right. -/
theorem c6_operator_precedence (o1 o2 : token) (op1 op2 : opInfo)
    (h1 : operatorTable o1.tType = some op1)
    (h2 : operatorTable o2.tType = some op2) :
    (op1.precedence < op2.precedence →
      parseBinary 30 (exprState o1 o2) =
        .ok (binNode o1.lexeme (nm "a") (binNode o2.lexeme (nm "b") (nm "c")),
          (⟨[⟨tNAME, "a", 1, 1⟩, o1, ⟨tNAME, "b", 1, 1⟩, o2, ⟨tNAME, "c", 1, 1⟩, ⟨tEND_OF_INPUT, "", 1, 1⟩], 5, ⟨tEND_OF_INPUT, "", 1, 1⟩, false⟩ : parserState))) ∧
    (op2.precedence < op1.precedence →
      parseBinary 30 (exprState o1 o2) =
        .ok (binNode o2.lexeme (binNode o1.lexeme (nm "a") (nm "b")) (nm "c"),
          (⟨[⟨tNAME, "a", 1, 1⟩, o1, ⟨tNAME, "b", 1, 1⟩, o2, ⟨tNAME, "c", 1, 1⟩, ⟨tEND_OF_INPUT, "", 1, 1⟩], 5, ⟨tEND_OF_INPUT, "", 1, 1⟩, false⟩ : parserState))) ∧
    (op1.precedence = op2.precedence → op2.isRightAssociative = false →
      parseBinary 30 (exprState o1 o2) =
        .ok (binNode o2.lexeme (binNode o1.lexeme (nm "a") (nm "b")) (nm "c"),
          (⟨[⟨tNAME, "a", 1, 1⟩, o1, ⟨tNAME, "b", 1, 1⟩, o2, ⟨tNAME, "c", 1, 1⟩, ⟨tEND_OF_INPUT, "", 1, 1⟩], 5, ⟨tEND_OF_INPUT, "", 1, 1⟩, false⟩ : parserState))) ∧
    (op1.precedence = op2.precedence → op2.isRightAssociative = true →
      parseBinary 30 (exprState o1 o2) =
        .ok (binNode o1.lexeme (nm "a") (binNode o2.lexeme (nm "b") (nm "c")),
          (⟨[⟨tNAME, "a", 1, 1⟩, o1, ⟨tNAME, "b", 1, 1⟩, o2, ⟨tNAME, "c", 1, 1⟩, ⟨tEND_OF_INPUT, "", 1, 1⟩], 5, ⟨tEND_OF_INPUT, "", 1, 1⟩, false⟩ : parserState))) := by
  have hst : exprState o1 o2 = (⟨[⟨tNAME, "a", 1, 1⟩, o1, ⟨tNAME, "b", 1, 1⟩, o2, ⟨tNAME, "c", 1, 1⟩, ⟨tEND_OF_INPUT, "", 1, 1⟩], 0, ⟨tNAME, "a", 1, 1⟩, false⟩ : parserState) := by
    simp [exprState, exprTokens, nameTok, eoiTok]
  refine ⟨fun hlt => ?_, fun hgt => ?_, fun heq hra => ?_, fun heq hra => ?_⟩
  · have hc : ¬(op1.precedence > op2.precedence ∨ (op1.precedence = op2.precedence ∧ ¬op2.isRightAssociative)) := by
      rintro (h | ⟨h, _⟩) <;> omega
    rw [hst, parseBinary, mkParserFns_parseBinary, cBinX o1 o2 op1 op2 h1 h2 hc]
  · have hc : (op1.precedence > op2.precedence ∨ (op1.precedence = op2.precedence ∧ ¬op2.isRightAssociative)) := Or.inl hgt
    rw [hst, parseBinary, mkParserFns_parseBinary, cBinY o1 o2 op1 op2 h1 h2 hc]
  · have hc : (op1.precedence > op2.precedence ∨ (op1.precedence = op2.precedence ∧ ¬op2.isRightAssociative)) := Or.inr ⟨heq, by simp [hra]⟩
    rw [hst, parseBinary, mkParserFns_parseBinary, cBinY o1 o2 op1 op2 h1 h2 hc]
  · have hc : ¬(op1.precedence > op2.precedence ∨ (op1.precedence = op2.precedence ∧ ¬op2.isRightAssociative)) := by
      rintro (h | ⟨h, hr⟩)
      · omega
      · exact hr (by simp [hra])
    rw [hst, parseBinary, mkParserFns_parseBinary, cBinX o1 o2 op1 op2 h1 h2 hc]

/-- Instantiates `c6_operator_precedence` on `a + b * c`: `*` (precedence
14) binds tighter than `+` (precedence 13), giving `a + (b * c)`. -/
theorem c6_operator_precedence_witness :
    operatorTable tPLUS = some ⟨13, false⟩ ∧
    operatorTable tMULT = some ⟨14, false⟩ ∧
    parseBinary 30 (exprState ⟨tPLUS, "+", 1, 1⟩ ⟨tMULT, "*", 1, 1⟩) =
      .ok (binNode "+" (nm "a") (binNode "*" (nm "b") (nm "c")),
        (⟨[⟨tNAME, "a", 1, 1⟩, ⟨tPLUS, "+", 1, 1⟩, ⟨tNAME, "b", 1, 1⟩, ⟨tMULT, "*", 1, 1⟩, ⟨tNAME, "c", 1, 1⟩, ⟨tEND_OF_INPUT, "", 1, 1⟩], 5, ⟨tEND_OF_INPUT, "", 1, 1⟩, false⟩ : parserState)) :=
  ⟨rfl, rfl,
   (c6_operator_precedence ⟨tPLUS, "+", 1, 1⟩ ⟨tMULT, "*", 1, 1⟩ ⟨13, false⟩ ⟨14, false⟩
     rfl rfl).1 (by decide)⟩

/-- C7 (confirmed). On the cached three-file cycle a.js → b.js → c.js →
a.js the traversal emits exactly the warning `a.js -> b.js -> c.js -> a.js`
and the finite post-order `['c_js', 'b_js', 'a_js']` in which every module
appears exactly once. In general: the module order only grows (prefix
monotone), stays duplicate-free, and every visited `.js` file not already
on the current path ends up in the order. -/
theorem c7_cycle_detection :
    (createImportTree c7Cache 10 "a.js" [] ([], []) =
      (["'c_js'", "'b_js'", "'a_js'"], ["a.js -> b.js -> c.js -> a.js"])) ∧
    (∀ (c : String → Option fileCache) (fuel : Nat) (f : String)
       (path mo w : List String),
      mo <+: (createImportTree c fuel f path (mo, w)).1) ∧
    (∀ (c : String → Option fileCache) (fuel : Nat) (f : String)
       (path mo w : List String),
      mo.Nodup → (createImportTree c fuel f path (mo, w)).1.Nodup) ∧
    (∀ (c : String → Option fileCache) (fuel : Nat) (f : String)
       (path mo w : List String),
      filepathExt f = ".js" → indexOf path f < 0 →
      ("'" ++ CreateVarNameFromPath f ++ "'") ∈
        (createImportTree c (fuel + 1) f path (mo, w)).1) := by
  refine ⟨?_, citPrefixMono, citNodup, ?_⟩
  · simp [createImportTree, createImportTreeList, c7Cache, indexOf, indexOfAux,
      goJoin, zeroFileCache, ext_a, ext_b, ext_c, vn_a, vn_b, vn_c]
  · intro c fuel f path mo w hext hlt
    exact citMem c fuel f path mo w hext (by omega)

/-- Instantiates `c7_cycle_detection` at the cycle fixture: starting from
nothing the order is duplicate-free and contains the entry module. -/
theorem c7_cycle_detection_witness :
    ([] : List String).Nodup ∧
    (createImportTree c7Cache 1 "a.js" [] ([], [])).1.Nodup ∧
    filepathExt "a.js" = ".js" ∧ indexOf ([] : List String) "a.js" < 0 ∧
    "'a_js'" ∈ (createImportTree c7Cache 1 "a.js" [] ([], [])).1 :=
  ⟨List.nodup_nil,
   c7_cycle_detection.2.2.1 c7Cache 1 "a.js" [] [] [] List.nodup_nil,
   rfl, by decide,
   c7_cycle_detection.2.2.2 c7Cache 0 "a.js" [] [] [] rfl (by decide)⟩

/-- C8 (confirmed). For a file with a (not yet reachable) cache entry:
equal on-disk and cached modification time takes the hit path — the cached
bytes go to the bundle and the cached dependency list drives the recursion,
with no read or load of the file (the equation holds for EVERY environment
agreeing on the stat, whatever its `readFile`/`loadFile` do); a differing
modification time takes the miss path — the file is read, loaded
(scanner/parser/transformer), its fresh data written and its cache entry
updated with the new dependency list. -/
theorem c8_mtime_cache :
    (∀ (env : BuildEnv) (fuel : Nat) (p : String) (st : BuildState)
       (t : Nat) (cf : fileCache),
      env.stat p = some t → st.cacheFiles p = some cf →
      cf.IsReachable = false → cf.LastModTime = t →
      addFileToBundle env (fuel + 1) p st =
        addFilesToBundle env fuel cf.Imports
          ⟨fun x => if x = p then some ⟨cf.Data, t, cf.Imports, true⟩ else st.cacheFiles x,
           st.bundleOut ++ cf.Data, st.copied⟩) ∧
    (∀ (env : BuildEnv) (fuel : Nat) (p : String) (st : BuildState)
       (t : Nat) (cf : fileCache) (src d : String) (imps : List String),
      env.stat p = some t → st.cacheFiles p = some cf →
      cf.IsReachable = false → cf.LastModTime ≠ t → filepathExt p = ".js" →
      env.readFile p = some src → env.loadFile src p = .ok (d, imps) →
      addFileToBundle env (fuel + 1) p st =
        addFilesToBundle env fuel imps
          ⟨fun x => if x = p then some ⟨d, t, imps, true⟩ else st.cacheFiles x,
           st.bundleOut ++ d, st.copied⟩) := by
  constructor
  · intro env fuel p st t cf hstat hc hr hm
    have hfun : (fun x => if x = p then some (fileCache.mk cf.Data t cf.Imports true)
        else (fun y => if y = p then some (fileCache.mk "" 0 [] true) else st.cacheFiles y) x) =
        (fun x => if x = p then some (fileCache.mk cf.Data t cf.Imports true) else st.cacheFiles x) := by
      funext x
      by_cases hx : x = p <;> simp [hx]
    simp [addFileToBundle, hstat, hc, hr, hm, cacheWrite, hfun]
  · intro env fuel p st t cf src d imps hstat hc hr hm hext hread hload
    have hfun : (fun x => if x = p then some (fileCache.mk d t imps true)
        else (fun y => if y = p then some (fileCache.mk "" 0 [] true) else st.cacheFiles y) x) =
        (fun x => if x = p then some (fileCache.mk d t imps true) else st.cacheFiles x) := by
      funext x
      by_cases hx : x = p <;> simp [hx]
    simp [addFileToBundle, addFileToBundleLoad, hstat, hc, hr, hm, hext, hread, hload,
      cacheWrite, hfun]

/-- Instantiates `c8_mtime_cache` in `c8Env` (everything has mtime 5): a
cached entry with mtime 5 is reused as is; one with mtime 4 is reloaded to
the fresh `DATA;`. -/
theorem c8_mtime_cache_witness :
    c8Env.stat "a.js" = some 5 ∧
    addFileToBundle c8Env 1 "a.js"
        ⟨fun x => if x = "a.js" then some ⟨"CACHED;", 5, [], false⟩ else none, "", []⟩ =
      addFilesToBundle c8Env 0 []
        ⟨fun x => if x = "a.js" then some ⟨"CACHED;", 5, [], true⟩ else
            (if x = "a.js" then some ⟨"CACHED;", 5, [], false⟩ else none),
         "" ++ "CACHED;", []⟩ ∧
    addFileToBundle c8Env 1 "b.js"
        ⟨fun x => if x = "b.js" then some ⟨"OLD;", 4, [], false⟩ else none, "", []⟩ =
      addFilesToBundle c8Env 0 []
        ⟨fun x => if x = "b.js" then some ⟨"DATA;", 5, [], true⟩ else
            (if x = "b.js" then some ⟨"OLD;", 4, [], false⟩ else none),
         "" ++ "DATA;", []⟩ :=
  ⟨rfl,
   c8_mtime_cache.1 c8Env 0 "a.js"
     ⟨fun x => if x = "a.js" then some ⟨"CACHED;", 5, [], false⟩ else none, "", []⟩
     5 ⟨"CACHED;", 5, [], false⟩ rfl rfl rfl rfl,
   c8_mtime_cache.2 c8Env 0 "b.js"
     ⟨fun x => if x = "b.js" then some ⟨"OLD;", 4, [], false⟩ else none, "", []⟩
     5 ⟨"OLD;", 4, [], false⟩ "src" "DATA;" [] rfl rfl rfl (by decide) rfl rfl rfl⟩

/-- C9 (corrected). The four resolution rules of the claim hold exactly as
stated — `.`-relative against the importing directory, `..` likewise,
single-segment package paths get `node_modules/<p>/index.js`, multi-segment
package paths are rooted at `node_modules`, and `.js` is appended precisely
when the final segment has no `.` — PROVIDED the path still has a file
component after `.`/`..` elimination. The degenerate import `"."` violates
that proviso and makes the code panic (see the counterexample), so the
claim's "for every import-path string" is too strong. -/
theorem c9_resolution_rules :
    (∀ (p f last : String) (rest : List String),
      trimQuotesFromString p = p → goSplit p '/' = "." :: rest →
      (∀ s ∈ rest, s ≠ "." ∧ s ≠ "..") → rest.getLast? = some last →
      resolveES6ImportPath p f =
        some (goJoin ((goSplit f '/').dropLast ++ rest) "/" ++
          (if ¬ goContainsChar last '.' then ".js" else ""))) ∧
    (∀ (p f last : String) (rest : List String) (l0 : String) (locRest : List String),
      trimQuotesFromString p = p → goSplit p '/' = ".." :: rest →
      (∀ s ∈ rest, s ≠ "." ∧ s ≠ "..") →
      (goSplit f '/').dropLast = l0 :: locRest → rest ≠ [] →
      rest.getLast? = some last →
      resolveES6ImportPath p f =
        some (goJoin ((l0 :: locRest).dropLast ++ rest) "/" ++
          (if ¬ goContainsChar last '.' then ".js" else ""))) ∧
    (∀ (p f p0 : String),
      trimQuotesFromString p = p → goSplit p '/' = [p0] → p0 ≠ "." → p0 ≠ ".." →
      resolveES6ImportPath p f = some (goJoin ["node_modules", p0, "index.js"] "/")) ∧
    (∀ (p f last p0 p1 : String) (rest : List String),
      trimQuotesFromString p = p → goSplit p '/' = p0 :: p1 :: rest →
      p0 ≠ "." → p0 ≠ ".." →
      (∀ s ∈ p0 :: p1 :: rest, s ≠ "." ∧ s ≠ "..") →
      (p0 :: p1 :: rest).getLast? = some last →
      resolveES6ImportPath p f =
        some (goJoin ("node_modules" :: p0 :: p1 :: rest) "/" ++
          (if ¬ goContainsChar last '.' then ".js" else ""))) := by
  refine ⟨?_, ?_, ?_, ?_⟩
  · intro p f last rest htrim hsplit hnodots hlast
    unfold resolveES6ImportPath
    simp only [htrim, hsplit]
    simp only [resolveDotLoop, reduceCtorEq, ne_eq, not_true_eq_false, false_and,
      if_false, ite_false, reduceIte]
    rw [resolveDotLoopNoDots _ _ _ hnodots]
    simp [hlast]
  · intro p f last rest l0 locRest htrim hsplit hnodots hloc hrest hlast
    unfold resolveES6ImportPath
    simp only [htrim, hsplit, hloc]
    simp only [resolveDotLoop, reduceCtorEq, ne_eq, not_true_eq_false, false_and,
      if_false, ite_false, reduceIte, and_false]
    cases rest with
    | nil => exact absurd rfl hrest
    | cons r0 rrest =>
      rw [resolveDotLoopNoDots _ _ _ hnodots]
      simp [hlast]
  · intro p f p0 htrim hsplit h1 h2
    unfold resolveES6ImportPath
    simp only [htrim, hsplit]
    simp only [h1, h2, ne_eq, not_false_eq_true, and_self, if_true, List.length_cons,
      List.length_nil]
    rw [resolveDotLoopNoDots _ _ _ (by
      intro s hs
      simp at hs
      rcases hs with h | h
      · subst h; exact ⟨h1, h2⟩
      · subst h; constructor <;> decide)]
    simp [goJoin, goContainsChar]
  · intro p f last p0 p1 rest htrim hsplit h1 h2 hnodots hlast
    unfold resolveES6ImportPath
    simp only [htrim, hsplit]
    simp only [h1, h2, ne_eq, not_false_eq_true, and_self, if_true, List.length_cons,
      List.length_nil, reduceIte]
    have hlen : ¬(rest.length + 1 + 1 = 1) := by omega
    simp only [hlen, if_false, ite_false, reduceIte]
    rw [resolveDotLoopNoDots _ _ _ hnodots]
    simp [hlast]

/-- Instantiates `c9_resolution_rules`: the relative rule on `./m.js` from
`dir/a.js` and the single-segment package rule on `lodash`. -/
theorem c9_resolution_rules_witness :
    goSplit "./m.js" '/' = [".", "m.js"] ∧
    resolveES6ImportPath "./m.js" "dir/a.js" = some "dir/m.js" ∧
    resolveES6ImportPath "lodash" "x.js" = some "node_modules/lodash/index.js" :=
  ⟨rfl,
   c9_resolution_rules.1 "./m.js" "dir/a.js" "m.js" ["m.js"] rfl rfl (by decide) rfl,
   c9_resolution_rules.2.2.1 "lodash" "x.js" "lodash" rfl rfl (by decide) (by decide)⟩

/-- C9 counterexample: resolving the import path `"."` panics in Go (the
final `pathParts[len(pathParts)-1]` indexes the empty slice left after `.`
elimination), modelled as `none` — not a canonical identity under the
claimed rules. -/
theorem c9_resolution_rules_cex :
    resolveES6ImportPath "." "a/b.js" = none := rfl

/-- C10 (confirmed). When reading OR parsing a `.js` file fails,
`addFileToBundle` still writes a cache entry for it — reachable, with the
CURRENT on-disk modification time, empty data and an empty import list —
and only then reports the error: conjunct 1 is the read failure
(`ioutil.ReadFile` error), conjunct 2 the scan/parse/transform failure
(`jsLoader.LoadFile` error). A later build that finds this poisoned entry
with an unchanged mtime takes the cache-hit path (conjunct 3): it
contributes the empty data to the bundle and reports no error for the
file. -/
theorem c10_cache_poisoning :
    (∀ (env : BuildEnv) (fuel : Nat) (p : String) (st : BuildState) (t : Nat),
      env.stat p = some t → st.cacheFiles p = none →
      filepathExt p = ".js" → env.readFile p = none →
      addFileToBundle env (fuel + 1) p st =
        (⟨fun x => if x = p then some ⟨"", t, [], true⟩ else st.cacheFiles x,
          st.bundleOut, st.copied⟩, some (.readErr p))) ∧
    (∀ (env : BuildEnv) (fuel : Nat) (p : String) (st : BuildState) (t : Nat)
       (src m : String),
      env.stat p = some t → st.cacheFiles p = none →
      filepathExt p = ".js" → env.readFile p = some src →
      env.loadFile src p = .error m →
      addFileToBundle env (fuel + 1) p st =
        (⟨fun x => if x = p then some ⟨"", t, [], true⟩ else st.cacheFiles x,
          st.bundleOut, st.copied⟩, some (.loadErr m))) ∧
    (∀ (env : BuildEnv) (fuel : Nat) (p : String) (st : BuildState) (t : Nat),
      env.stat p = some t →
      st.cacheFiles p = some ⟨"", t, [], false⟩ →
      addFileToBundle env (fuel + 1) p st =
        (⟨fun x => if x = p then some ⟨"", t, [], true⟩ else st.cacheFiles x,
          st.bundleOut, st.copied⟩, none)) := by
  refine ⟨?_, ?_, ?_⟩
  · intro env fuel p st t hstat hc hext hread
    have hfun : (fun x => if x = p then some (fileCache.mk "" t [] true)
        else (fun y => if y = p then some (fileCache.mk "" 0 [] true) else st.cacheFiles y) x) =
        (fun x => if x = p then some (fileCache.mk "" t [] true) else st.cacheFiles x) := by
      funext x
      by_cases hx : x = p <;> simp [hx]
    simp [addFileToBundle, addFileToBundleLoad, hstat, hc, hext, hread, cacheWrite, hfun]
  · intro env fuel p st t src m hstat hc hext hread hload
    have hfun : (fun x => if x = p then some (fileCache.mk "" t [] true)
        else (fun y => if y = p then some (fileCache.mk "" 0 [] true) else st.cacheFiles y) x) =
        (fun x => if x = p then some (fileCache.mk "" t [] true) else st.cacheFiles x) := by
      funext x
      by_cases hx : x = p <;> simp [hx]
    simp [addFileToBundle, addFileToBundleLoad, hstat, hc, hext, hread, hload,
      cacheWrite, hfun]
  · intro env fuel p st t hstat hc
    have hfun : (fun x => if x = p then some (fileCache.mk "" t [] true)
        else (fun y => if y = p then some (fileCache.mk "" 0 [] true) else st.cacheFiles y) x) =
        (fun x => if x = p then some (fileCache.mk "" t [] true) else st.cacheFiles x) := by
      funext x
      by_cases hx : x = p <;> simp [hx]
    simp [addFileToBundle, addFilesToBundle, hstat, hc, cacheWrite, hfun]

/-- Instantiates `c10_cache_poisoning`: in `c10Env` (stat 5, every read
fails) a build poisons the cache and reports the read error; in
`c10LoadEnv` (reads succeed, every parse fails) a build poisons the cache
and reports the load error; a later build on the poisoned entry with the
unchanged mtime 5 reports nothing. -/
theorem c10_cache_poisoning_witness :
    c10Env.readFile "a.js" = none ∧
    addFileToBundle c10Env 1 "a.js" ⟨fun _ => none, "", []⟩ =
      (⟨fun x => if x = "a.js" then some ⟨"", 5, [], true⟩ else none, "", []⟩,
       some (.readErr "a.js")) ∧
    c10LoadEnv.loadFile "src" "a.js" = .error "parse error" ∧
    addFileToBundle c10LoadEnv 1 "a.js" ⟨fun _ => none, "", []⟩ =
      (⟨fun x => if x = "a.js" then some ⟨"", 5, [], true⟩ else none, "", []⟩,
       some (.loadErr "parse error")) ∧
    addFileToBundle c10Env 1 "a.js"
        ⟨fun x => if x = "a.js" then some ⟨"", 5, [], false⟩ else none, "", []⟩ =
      (⟨fun x => if x = "a.js" then some ⟨"", 5, [], true⟩ else
          (if x = "a.js" then some ⟨"", 5, [], false⟩ else none), "", []⟩, none) :=
  ⟨rfl,
   c10_cache_poisoning.1 c10Env 0 "a.js" ⟨fun _ => none, "", []⟩ 5 rfl rfl rfl rfl,
   rfl,
   c10_cache_poisoning.2.1 c10LoadEnv 0 "a.js" ⟨fun _ => none, "", []⟩ 5
     "src" "parse error" rfl rfl rfl rfl rfl,
   c10_cache_poisoning.2.2 c10Env 0 "a.js"
     ⟨fun x => if x = "a.js" then some ⟨"", 5, [], false⟩ else none, "", []⟩ 5 rfl rfl⟩

end GoBundler
